import Mathlib

/-!
# Palm-rejection daemon: debounced exclusive-access state machine

A shallow embedding of `internal/touchpad` (`Controller`, `MultiController`,
`isTouchpadDevice`), `internal/consumer` (`TypingDetectionConsumer`), `internal/events`
(`SystemEvent`, `SystemEventBus`), `internal/pipe` (`Receiver.handleCommand`) and the
shutdown of `cmd/palm-reject-daemon` of the Go sources, followed by the properties
established about them.

Conventions of the embedding

* A Go `error` is an `Option GoError` (`none` is `nil`).
* A method with a pointer receiver becomes a function from the receiver's state to a
  `Ret`: the returned error, the receiver's state afterwards and the calls made on the
  collaborator below it (evdev calls for a device handle, group calls for the consumer).
* The outcome of every call that leaves the program (evdev open / name / grab / ungrab /
  close, or the group call behind the `TouchpadController` interface) is an argument, so a
  statement quantifies over every way the outside world can answer.
* Mutexes are not modelled: every method body runs under its receiver's lock, so a method
  is one atomic step.
* Instants and durations are integers (nanoseconds); `time.Since(t)` at instant `now` is
  `now - t`.
* A Go channel is the list of its pending values with its capacity and a closed mark; a
  function that can panic returns an `Option`, `none` being the panic.
-/

namespace PalmReject

/-! ## Errors -/

/-- Go error values built by `fmt.Errorf`: without `%w` an `errorString`, with `%w` a
`wrapError` holding the formatted message and the wrapped error. -/
inductive GoError where
  | errorString (s : String)
  | wrapError (msg : String) (err : GoError)
  deriving DecidableEq, Repr

/-- The `Error()` method. -/
def GoError.Error : GoError → String
  | .errorString s => s
  | .wrapError msg _ => msg

/-- The `Unwrap()` method. -/
def GoError.Unwrap : GoError → Option GoError
  | .errorString _ => none
  | .wrapError _ err => some err

/-- The value of `fmt.Errorf(pre + "%w", err)`. -/
def errorfW (pre : String) (err : GoError) : GoError :=
  .wrapError (pre ++ err.Error) err

/-- What a method hands back: the error, the receiver afterwards, the calls it made. -/
structure Ret (σ κ : Type) where
  err : Option GoError
  st : σ
  calls : List κ
  deriving DecidableEq, Repr

/-! ## `touchpad.Controller` (controller.go) -/

/-- Calls on the evdev library made by a device handle. -/
inductive DevCall where
  | evOpen (path : String)
  | evName
  | evClose
  | evGrab
  | evUngrab
  deriving DecidableEq, Repr

/-- How the evdev library answers one handle during one operation (`none` is success). -/
structure DevOutcome where
  openErr : Option GoError
  nameErr : Option GoError
  closeErr : Option GoError
  grabErr : Option GoError
  ungrabErr : Option GoError
  deriving DecidableEq, Repr

/-- Every evdev call succeeds. -/
def DevOutcome.ok : DevOutcome := ⟨none, none, none, none, none⟩

/-- The struct `Controller`: `device` is `c.device != nil`. -/
structure Controller where
  devicePath : String
  device : Bool
  grabbed : Bool
  deriving DecidableEq, Repr

/-- `NewController`: the device is not opened. -/
def NewController (devicePath : String) : Controller :=
  { devicePath := devicePath, device := false, grabbed := false }

/-- `Controller.Open`. -/
def Controller.Open (o : DevOutcome) (c : Controller) : Ret Controller DevCall :=
  if c.device then
    { err := none, st := c, calls := [] }
  else
    match o.openErr with
    | some err =>
      { err := some (errorfW ("failed to open touchpad device " ++ c.devicePath ++ ": ") err),
        st := c, calls := [.evOpen c.devicePath] }
    | none =>
      match o.nameErr with
      | some err =>
        { err := some (errorfW "failed to get device name: " err),
          st := c, calls := [.evOpen c.devicePath, .evName, .evClose] }
      | none =>
        { err := none, st := { c with device := true },
          calls := [.evOpen c.devicePath, .evName] }

/-- `Controller.Close`. -/
def Controller.Close (o : DevOutcome) (c : Controller) : Ret Controller DevCall :=
  if !c.device then
    { err := none, st := c, calls := [] }
  else if c.grabbed then
    { err := o.closeErr, st := { c with grabbed := false, device := false },
      calls := [.evUngrab, .evClose] }
  else
    { err := o.closeErr, st := { c with device := false }, calls := [.evClose] }

/-- `Controller.Disable`. -/
def Controller.Disable (o : DevOutcome) (c : Controller) : Ret Controller DevCall :=
  if !c.device then
    { err := some (.errorString "touchpad device not open"), st := c, calls := [] }
  else if c.grabbed then
    { err := none, st := c, calls := [] }
  else
    match o.grabErr with
    | some err =>
      { err := some (errorfW "failed to grab touchpad: " err), st := c, calls := [.evGrab] }
    | none =>
      { err := none, st := { c with grabbed := true }, calls := [.evGrab] }

/-- `Controller.Enable`. -/
def Controller.Enable (o : DevOutcome) (c : Controller) : Ret Controller DevCall :=
  if !c.device then
    { err := some (.errorString "touchpad device not open"), st := c, calls := [] }
  else if !c.grabbed then
    { err := none, st := c, calls := [] }
  else
    match o.ungrabErr with
    | some err =>
      { err := some (errorfW "failed to ungrab touchpad: " err), st := c, calls := [.evUngrab] }
    | none =>
      { err := none, st := { c with grabbed := false }, calls := [.evUngrab] }

/-- `Controller.IsDisabled`. -/
def Controller.IsDisabled (c : Controller) : Bool := c.grabbed

/-- `Controller.IsOpen`. -/
def Controller.IsOpen (c : Controller) : Bool := c.device

/-- `Controller.Stop`. -/
def Controller.Stop (o : DevOutcome) (c : Controller) : Ret Controller DevCall :=
  c.Close o

/-! ## `touchpad.MultiController` (multi_controller.go) -/

/-- The struct `MultiController`. -/
structure MultiController where
  controllers : List Controller
  deriving DecidableEq, Repr

/-- `NewMultiController`, from the device paths of the discovered touchpads. -/
def NewMultiController (paths : List String) : MultiController :=
  { controllers := paths.map NewController }

/-- Evdev calls of member `i`. -/
def tag (i : Nat) (cs : List DevCall) : List (Nat × DevCall) := cs.map (fun k => (i, k))

/-- The loop `for _, c := range m.controllers { c.Close() }`, the errors discarded;
`i` is the index of the head of the list. -/
def closeAll (env : Nat → DevOutcome) :
    Nat → List Controller → List Controller × List (Nat × DevCall)
  | _, [] => ([], [])
  | i, c :: cs =>
    let r := c.Close (env i)
    let rest := closeAll env (i + 1) cs
    (r.st :: rest.1, tag i r.calls ++ rest.2)

/-- The loop of `MultiController.Open` from member `i` on: `done` are the members already
visited (in order), the list argument the members still to open. -/
def openLoop (env : Nat → DevOutcome) (done : List Controller) :
    List Controller → Ret (List Controller) (Nat × DevCall)
  | [] => { err := none, st := done, calls := [] }
  | c :: cs =>
    let r := c.Open (env done.length)
    match r.err with
    | some err =>
      let all := closeAll env 0 (done ++ r.st :: cs)
      { err := some (errorfW "failed to open touchpad: " err), st := all.1,
        calls := tag done.length r.calls ++ all.2 }
    | none =>
      let rest := openLoop env (done ++ [r.st]) cs
      { rest with calls := tag done.length r.calls ++ rest.calls }

/-- `MultiController.Open`. -/
def MultiController.Open (env : Nat → DevOutcome) (m : MultiController) :
    Ret MultiController (Nat × DevCall) :=
  let r := openLoop env [] m.controllers
  { err := r.err, st := { controllers := r.st }, calls := r.calls }

/-- The loop of `MultiController.Close`: `lastErr` is the variable of that name. -/
def closeLoop (env : Nat → DevOutcome) :
    Nat → Option GoError → List Controller → Ret (List Controller) (Nat × DevCall)
  | _, lastErr, [] => { err := lastErr, st := [], calls := [] }
  | i, lastErr, c :: cs =>
    let r := c.Close (env i)
    let rest := closeLoop env (i + 1) (if r.err.isSome then r.err else lastErr) cs
    { err := rest.err, st := r.st :: rest.st, calls := tag i r.calls ++ rest.calls }

/-- `MultiController.Close`. -/
def MultiController.Close (env : Nat → DevOutcome) (m : MultiController) :
    Ret MultiController (Nat × DevCall) :=
  let r := closeLoop env 0 none m.controllers
  { err := r.err, st := { controllers := r.st }, calls := r.calls }

/-- The loop of `MultiController.Disable`, returning at the first member that fails. -/
def disableLoop (env : Nat → DevOutcome) :
    Nat → List Controller → Ret (List Controller) (Nat × DevCall)
  | _, [] => { err := none, st := [], calls := [] }
  | i, c :: cs =>
    let r := c.Disable (env i)
    match r.err with
    | some err =>
      { err := some (errorfW "failed to disable touchpad: " err), st := r.st :: cs,
        calls := tag i r.calls }
    | none =>
      let rest := disableLoop env (i + 1) cs
      { err := rest.err, st := r.st :: rest.st, calls := tag i r.calls ++ rest.calls }

/-- `MultiController.Disable`. -/
def MultiController.Disable (env : Nat → DevOutcome) (m : MultiController) :
    Ret MultiController (Nat × DevCall) :=
  let r := disableLoop env 0 m.controllers
  { err := r.err, st := { controllers := r.st }, calls := r.calls }

/-- The loop of `MultiController.Enable`, returning at the first member that fails. -/
def enableLoop (env : Nat → DevOutcome) :
    Nat → List Controller → Ret (List Controller) (Nat × DevCall)
  | _, [] => { err := none, st := [], calls := [] }
  | i, c :: cs =>
    let r := c.Enable (env i)
    match r.err with
    | some err =>
      { err := some (errorfW "failed to enable touchpad: " err), st := r.st :: cs,
        calls := tag i r.calls }
    | none =>
      let rest := enableLoop env (i + 1) cs
      { err := rest.err, st := r.st :: rest.st, calls := tag i r.calls ++ rest.calls }

/-- `MultiController.Enable`. -/
def MultiController.Enable (env : Nat → DevOutcome) (m : MultiController) :
    Ret MultiController (Nat × DevCall) :=
  let r := enableLoop env 0 m.controllers
  { err := r.err, st := { controllers := r.st }, calls := r.calls }

/-- The loop of `MultiController.IsDisabled`: `false` at the first member not disabled. -/
def allDisabled : List Controller → Bool
  | [] => true
  | c :: cs => if !c.IsDisabled then false else allDisabled cs

/-- `MultiController.IsDisabled`. -/
def MultiController.IsDisabled (m : MultiController) : Bool :=
  if !allDisabled m.controllers then false else decide (m.controllers.length > 0)

/-- `MultiController.Stop`. -/
def MultiController.Stop (env : Nat → DevOutcome) (m : MultiController) :
    Ret MultiController (Nat × DevCall) :=
  m.Close env

/-- `MultiController.DeviceCount`. -/
def MultiController.DeviceCount (m : MultiController) : Nat := m.controllers.length

/-- `MultiController` behind the `TouchpadController` interface is used through these. -/
def groupOf (r : Ret MultiController (Nat × DevCall)) : Option GoError × MultiController :=
  (r.err, r.st)

/-! ## `events.SystemEvent` (events.go) -/

/-- The type `SystemEvent` is `int`. -/
abbrev SystemEvent := Int

def SystemEventNone : SystemEvent := 0
def LaptopSuspend : SystemEvent := 1
def LaptopResume : SystemEvent := 2
def MicMuteLedOn : SystemEvent := 3
def MicMuteLedOff : SystemEvent := 4
def MicMuteLedToggle : SystemEvent := 5
def BacklightOff : SystemEvent := 6
def BacklightLow : SystemEvent := 7
def BacklightMedium : SystemEvent := 8
def BacklightHigh : SystemEvent := 9
def BacklightToggle : SystemEvent := 10
def SecondaryDisplayToggle : SystemEvent := 11
def USBKeyboardAttached : SystemEvent := 12
def USBKeyboardDetached : SystemEvent := 13
def TouchpadDisable : SystemEvent := 14
def TouchpadEnable : SystemEvent := 15
def TouchpadToggle : SystemEvent := 16

/-! ## `consumer.TypingDetectionConsumer` (typing_detection.go) -/

/-- The interface `touchpad.TouchpadController`, over the state `G` of the implementation
and the outcomes `E` of what one call does outside the program. -/
structure TouchpadController (G E : Type) where
  Disable : E → G → Option GoError × G
  Enable : E → G → Option GoError × G
  IsDisabled : G → Bool
  Stop : E → G → Option GoError × G

/-- `MultiController` as a `TouchpadController`. -/
def MultiController.asTouchpadController :
    TouchpadController MultiController (Nat → DevOutcome) where
  Disable := fun env m => groupOf (m.Disable env)
  Enable := fun env m => groupOf (m.Enable env)
  IsDisabled := fun m => m.IsDisabled
  Stop := fun env m => groupOf (m.Stop env)

/-- The struct `MockTouchpadController` of typing_detection_test.go. -/
structure MockTouchpadController where
  disabled : Bool
  deriving DecidableEq, Repr

/-- The mock as a `TouchpadController`; the outcome is what `m.Called()` is set up to
return. -/
def MockTouchpadController.asTouchpadController :
    TouchpadController MockTouchpadController (Option GoError) where
  Disable := fun ret m => if ret.isNone then (ret, { m with disabled := true }) else (ret, m)
  Enable := fun ret m => if ret.isNone then (ret, { m with disabled := false }) else (ret, m)
  IsDisabled := fun m => m.disabled
  Stop := fun ret m => (ret, m)

/-- Calls the consumer makes on `touchpadCtrl`. -/
inductive GroupCall where
  | Disable
  | Enable
  deriving DecidableEq, Repr

/-- A `time.Timer` made by `time.AfterFunc` that has neither fired nor been stopped. -/
structure Timer where
  id : Nat
  deadline : Int
  deriving DecidableEq, Repr

/-- The struct `TypingDetectionConsumer` with the state of what it points to:
`touchpadCtrl` is the state of the controlled group, `timer` the identity of the
`*time.Timer` stored in the field (`none` is `nil`; a timer that fired stays stored),
`live` the runtime's timers of this consumer that are still to fire, oldest first, and
`nextTimer` the next fresh timer identity. -/
structure TypingDetectionConsumer (G : Type) where
  touchpadCtrl : G
  cooldown : Int
  lastKeyPress : Int
  timer : Option Nat
  isDisabled : Bool
  live : List Timer
  nextTimer : Nat
  deriving DecidableEq, Repr

/-- What a method without a return value does: the receiver afterwards and the calls it
made. -/
structure Eff (σ κ : Type) where
  st : σ
  calls : List κ
  deriving DecidableEq, Repr

/-- `NewTypingDetectionConsumer`: `lastKeyPress` is the zero `time.Time`, instant `0`. -/
def NewTypingDetectionConsumer {G : Type} (touchpadCtrl : G) (cooldown : Int) :
    TypingDetectionConsumer G :=
  { touchpadCtrl := touchpadCtrl, cooldown := cooldown, lastKeyPress := 0, timer := none,
    isDisabled := false, live := [], nextTimer := 0 }

/-- `t.Stop()` on the stored timer: it leaves the runtime's timers. -/
def stopTimer (id : Nat) (live : List Timer) : List Timer :=
  live.filter (fun t => t.id ≠ id)

/-- `if c.timer != nil { c.timer.Stop(); c.timer = nil }`. -/
def cancelTimer {G : Type} (c : TypingDetectionConsumer G) : TypingDetectionConsumer G :=
  match c.timer with
  | some id => { c with live := stopTimer id c.live, timer := none }
  | none => c

/-- `if c.timer != nil { c.timer.Stop() }; c.timer = time.AfterFunc(c.cooldown, ...)` at
instant `now`: a duration that is not positive makes the timer due at once. -/
def rearmTimer {G : Type} (now : Int) (c : TypingDetectionConsumer G) :
    TypingDetectionConsumer G :=
  let live := match c.timer with
    | some id => stopTimer id c.live
    | none => c.live
  { c with live := live ++ [{ id := c.nextTimer, deadline := now + max c.cooldown 0 }],
           timer := some c.nextTimer, nextTimer := c.nextTimer + 1 }

variable {G E : Type}

/-- `TypingDetectionConsumer.OnKeyPress`, `time.Now()` being `now`. -/
def TypingDetectionConsumer.OnKeyPress (tc : TouchpadController G E) (now : Int) (e : E)
    (c : TypingDetectionConsumer G) : Eff (TypingDetectionConsumer G) GroupCall :=
  let c := { c with lastKeyPress := now }
  if !c.isDisabled then
    let r := tc.Disable e c.touchpadCtrl
    match r.1 with
    | some _ => { st := { c with touchpadCtrl := r.2 }, calls := [.Disable] }
    | none =>
      { st := rearmTimer now { c with touchpadCtrl := r.2, isDisabled := true },
        calls := [.Disable] }
  else
    { st := rearmTimer now c, calls := [] }

/-- `TypingDetectionConsumer.onCooldownExpired`, running at instant `now`. -/
def TypingDetectionConsumer.onCooldownExpired (tc : TouchpadController G E) (now : Int)
    (e : E) (c : TypingDetectionConsumer G) : Eff (TypingDetectionConsumer G) GroupCall :=
  if now - c.lastKeyPress ≥ c.cooldown && c.isDisabled then
    let r := tc.Enable e c.touchpadCtrl
    match r.1 with
    | some _ => { st := { c with touchpadCtrl := r.2 }, calls := [.Enable] }
    | none => { st := { c with touchpadCtrl := r.2, isDisabled := false }, calls := [.Enable] }
  else
    { st := c, calls := [] }

/-- `TypingDetectionConsumer.Stop` (the cancellation of the context of the event loop is
not part of the state). -/
def TypingDetectionConsumer.Stop (tc : TouchpadController G E) (e : E)
    (c : TypingDetectionConsumer G) : Ret (TypingDetectionConsumer G) GroupCall :=
  let c := cancelTimer c
  if c.isDisabled then
    let r := tc.Enable e c.touchpadCtrl
    { err := none, st := { c with touchpadCtrl := r.2, isDisabled := false },
      calls := [.Enable] }
  else
    { err := none, st := c, calls := [] }

/-- `TypingDetectionConsumer.handleSystemEvent`. -/
def TypingDetectionConsumer.handleSystemEvent (tc : TouchpadController G E) (e : E)
    (event : SystemEvent) (c : TypingDetectionConsumer G) :
    Eff (TypingDetectionConsumer G) GroupCall :=
  if event = LaptopSuspend then
    if c.isDisabled then
      let r := tc.Enable e c.touchpadCtrl
      { st := cancelTimer { c with touchpadCtrl := r.2, isDisabled := false },
        calls := [.Enable] }
    else
      { st := cancelTimer c, calls := [] }
  else if event = LaptopResume then
    { st := c, calls := [] }
  else if event = TouchpadDisable then
    if !c.isDisabled then
      let r := tc.Disable e c.touchpadCtrl
      match r.1 with
      | some _ => { st := cancelTimer { c with touchpadCtrl := r.2 }, calls := [.Disable] }
      | none =>
        { st := cancelTimer { c with touchpadCtrl := r.2, isDisabled := true },
          calls := [.Disable] }
    else
      { st := cancelTimer c, calls := [] }
  else if event = TouchpadEnable then
    if c.isDisabled then
      let r := tc.Enable e c.touchpadCtrl
      match r.1 with
      | some _ => { st := cancelTimer { c with touchpadCtrl := r.2 }, calls := [.Enable] }
      | none =>
        { st := cancelTimer { c with touchpadCtrl := r.2, isDisabled := false },
          calls := [.Enable] }
    else
      { st := cancelTimer c, calls := [] }
  else if event = TouchpadToggle then
    if c.isDisabled then
      let r := tc.Enable e c.touchpadCtrl
      match r.1 with
      | some _ => { st := cancelTimer { c with touchpadCtrl := r.2 }, calls := [.Enable] }
      | none =>
        { st := cancelTimer { c with touchpadCtrl := r.2, isDisabled := false },
          calls := [.Enable] }
    else
      let r := tc.Disable e c.touchpadCtrl
      match r.1 with
      | some _ => { st := cancelTimer { c with touchpadCtrl := r.2 }, calls := [.Disable] }
      | none =>
        { st := cancelTimer { c with touchpadCtrl := r.2, isDisabled := true },
          calls := [.Disable] }
  else
    { st := c, calls := [] }

/-- `TypingDetectionConsumer.IsDisabled`. -/
def TypingDetectionConsumer.IsDisabled (c : TypingDetectionConsumer G) : Bool :=
  c.isDisabled

/-! ### The runtime delivering timers -/

/-- The runtime fires the live timer `id` at instant `now`: the timer stops being live and
its callback `onCooldownExpired` runs. A timer that is not live does not fire. -/
def fireTimer (tc : TouchpadController G E) (now : Int) (e : E) (id : Nat)
    (c : TypingDetectionConsumer G) : Eff (TypingDetectionConsumer G) GroupCall :=
  if c.live.any (fun t => t.id = id) then
    TypingDetectionConsumer.onCooldownExpired tc now e { c with live := stopTimer id c.live }
  else
    { st := c, calls := [] }

/-- The timers in `due` fire in turn, each exactly at its deadline. -/
def fireAll (tc : TouchpadController G E) (env : Int → E) :
    List Timer → TypingDetectionConsumer G → TypingDetectionConsumer G
  | [], c => c
  | t :: due, c => fireAll tc env due (fireTimer tc t.deadline (env t.deadline) t.id c).st

/-- Time passes up to and including instant `t` with no call from outside: every live timer
whose deadline is at most `t` fires at its deadline, oldest first. -/
def advance (tc : TouchpadController G E) (env : Int → E) (t : Int)
    (c : TypingDetectionConsumer G) : TypingDetectionConsumer G :=
  fireAll tc env (c.live.filter (fun tm => tm.deadline ≤ t)) c

/-- The timed run: the state at instant `t` (what happens at `t` included) when
`OnKeyPress` is called at the instants `presses` and nothing else is, timers firing
exactly at their deadlines. -/
def runTimed (tc : TouchpadController G E) (env : Int → E) :
    List Int → Int → TypingDetectionConsumer G → TypingDetectionConsumer G
  | [], t, c => advance tc env t c
  | p :: ps, t, c =>
    if p ≤ t then
      runTimed tc env ps t
        (TypingDetectionConsumer.OnKeyPress tc p (env p) (advance tc env p c)).st
    else
      advance tc env t c

/-! ## Predicates and runs used by the statements -/

/-- The consumer is in the debounce window opened by the keypress at `p`: disabled, the
stored timer live and due `cooldown` after `p`, no other timer live. -/
def ActiveAt (p : Int) (c : TypingDetectionConsumer G) : Prop :=
  c.isDisabled = true ∧ c.lastKeyPress = p ∧
    ∃ id, c.timer = some id ∧ c.live = [{ id := id, deadline := p + max c.cooldown 0 }]

/-- Timer callbacks run one after the other, each at its own instant and with its own
outcome of the group call, nothing else happening in between. -/
def runCallbacks (tc : TouchpadController G E) :
    List (Int × E) → TypingDetectionConsumer G → Eff (TypingDetectionConsumer G) GroupCall
  | [], c => { st := c, calls := [] }
  | (now, e) :: rest, c =>
    let r := TypingDetectionConsumer.onCooldownExpired tc now e c
    let r' := runCallbacks tc rest r.st
    { st := r'.st, calls := r.calls ++ r'.calls }

/-- What can happen to a running consumer: a keypress, a timer callback, a system event
taken from the bus, the shutdown; each with the outcome of the group call it may make. -/
inductive Op (E : Type) where
  | keyPress (now : Int) (e : E)
  | timerCallback (now : Int) (e : E)
  | systemEvent (event : SystemEvent) (e : E)
  | stop (e : E)

/-- The outcome carried by an operation. -/
def Op.outcome : Op E → E
  | .keyPress _ e => e
  | .timerCallback _ e => e
  | .systemEvent _ e => e
  | .stop e => e

/-- One operation on the consumer. -/
def step (tc : TouchpadController G E) (op : Op E) (c : TypingDetectionConsumer G) :
    TypingDetectionConsumer G :=
  match op with
  | .keyPress now e => (TypingDetectionConsumer.OnKeyPress tc now e c).st
  | .timerCallback now e => (TypingDetectionConsumer.onCooldownExpired tc now e c).st
  | .systemEvent event e => (TypingDetectionConsumer.handleSystemEvent tc e event c).st
  | .stop e => (TypingDetectionConsumer.Stop tc e c).st

/-- The operations of `ops` one after the other. -/
def run (tc : TouchpadController G E) (ops : List (Op E)) (c : TypingDetectionConsumer G) :
    TypingDetectionConsumer G :=
  ops.foldl (fun c op => step tc op c) c

/-- Every ungrab succeeds; a grab may fail. -/
def UngrabsSucceed (env : Nat → DevOutcome) : Prop :=
  ∀ i, (env i).ungrabErr = none

/-- The handle invariant: a handle that is grabbed is open. -/
def Controller.WellFormed (c : Controller) : Prop :=
  c.grabbed = true → c.device = true

/-- The flag `b` describes the group: the group has at least one member, every member
is open, and `b` is set exactly when every member is grabbed. -/
def Agrees (m : MultiController) (b : Bool) : Prop :=
  m.controllers ≠ [] ∧ (∀ c ∈ m.controllers, c.device = true) ∧
    (b = true ↔ ∀ c ∈ m.controllers, c.grabbed = true)

/-- The cached flag of the consumer describes its group. -/
def Mirrors (c : TypingDetectionConsumer MultiController) : Prop :=
  Agrees c.touchpadCtrl c.isDisabled

/-! ## `events.SystemEventBus` (bus.go) -/

/-- A buffered Go channel of `SystemEvent`: the pending values, oldest first, the capacity
given to `make`, and whether `close` was called on it. -/
structure Chan where
  buf : List SystemEvent
  cap : Nat
  closed : Bool
  deriving DecidableEq, Repr

/-- The statement `select { case ch <- event: default: }`: the value joins the buffer when
there is room, nothing happens when the buffer is full; `none` is the panic of a send on a
closed channel. -/
def Chan.trySend (event : SystemEvent) (ch : Chan) : Option Chan :=
  if ch.closed then none
  else if ch.buf.length < ch.cap then some { ch with buf := ch.buf ++ [event] }
  else some ch

/-- The builtin `close(ch)`; `none` is the panic of closing a closed channel. -/
def Chan.close (ch : Chan) : Option Chan :=
  if ch.closed then none else some { ch with closed := true }

/-- What a receive `<-ch` meets. -/
inductive Recv where
  | value (event : SystemEvent)
  | endOfStream
  | blocks
  deriving DecidableEq, Repr

/-- The receive `<-ch` of a subscriber: the oldest pending value; on an empty buffer the
end of the stream when the channel is closed, and otherwise the receiver blocks. -/
def Chan.recv (ch : Chan) : Recv × Chan :=
  match ch.buf with
  | event :: rest => (.value event, { ch with buf := rest })
  | [] => if ch.closed then (.endOfStream, ch) else (.blocks, ch)

/-- The struct `SystemEventBus` with the channels it made: `chans` holds every channel
made by `Subscribe`, a channel being known by its position in it, and `subscribers` is the
slice of that name, holding channels by position. -/
structure SystemEventBus where
  chans : List Chan
  subscribers : List Nat
  deriving DecidableEq, Repr

/-- `NewSystemEventBus`. -/
def NewSystemEventBus : SystemEventBus :=
  { chans := [], subscribers := [] }

/-- The loop of `Publish` over the subscribers still to serve; `none` is a panic. -/
def publishLoop (event : SystemEvent) : List Nat → List Chan → Option (List Chan)
  | [], chans => some chans
  | id :: ids, chans =>
    match chans[id]? with
    | none => none
    | some ch =>
      match ch.trySend event with
      | none => none
      | some ch' => publishLoop event ids (chans.set id ch')

/-- `SystemEventBus.Publish`; `none` is a panic. -/
def SystemEventBus.Publish (event : SystemEvent) (b : SystemEventBus) :
    Option SystemEventBus :=
  match publishLoop event b.subscribers b.chans with
  | none => none
  | some chans => some { b with chans := chans }

/-- `SystemEventBus.Subscribe`: the channel returned (by position) and the bus. -/
def SystemEventBus.Subscribe (b : SystemEventBus) : Nat × SystemEventBus :=
  (b.chans.length,
   { chans := b.chans ++ [{ buf := [], cap := 100, closed := false }],
     subscribers := b.subscribers ++ [b.chans.length] })

/-- The loop of `Close` over the subscribers still to close; `none` is a panic. -/
def closeSubscribers : List Nat → List Chan → Option (List Chan)
  | [], chans => some chans
  | id :: ids, chans =>
    match chans[id]? with
    | none => none
    | some ch =>
      match ch.close with
      | none => none
      | some ch' => closeSubscribers ids (chans.set id ch')

/-- `SystemEventBus.Close`; `none` is a panic. -/
def SystemEventBus.Close (b : SystemEventBus) : Option SystemEventBus :=
  match closeSubscribers b.subscribers b.chans with
  | none => none
  | some chans => some { chans := chans, subscribers := [] }

/-- The subscribers of the bus are registered: no channel is in the slice twice, and every
channel in it exists, is not closed and has the capacity 100 that `Subscribe` gives. -/
def SystemEventBus.Registered (b : SystemEventBus) : Prop :=
  b.subscribers.Nodup ∧
    ∀ id ∈ b.subscribers, ∃ ch, b.chans[id]? = some ch ∧ ch.closed = false ∧ ch.cap = 100

/-! ## Package `strings` of the Go library, as far as the sources use it -/

/-- The rune test `unicode.IsSpace`: the white space of Latin-1 and the runes of the
Unicode property White_Space beyond it. -/
def isSpace (c : Char) : Bool :=
  c = '\t' || c = '\n' || c = Char.ofNat 0x0B || c = Char.ofNat 0x0C || c = '\r' || c = ' ' ||
    c = Char.ofNat 0x85 || c = Char.ofNat 0xA0 || c = Char.ofNat 0x1680 ||
    (0x2000 ≤ c.toNat && c.toNat ≤ 0x200A) || c = Char.ofNat 0x2028 ||
    c = Char.ofNat 0x2029 || c = Char.ofNat 0x202F || c = Char.ofNat 0x205F ||
    c = Char.ofNat 0x3000

/-- The rune map `unicode.ToLower`: on ASCII the letters `A` to `Z` move to `a` to `z` and
every other rune stays; beyond ASCII the case tables of package `unicode` decide, which
are the argument `lower`. -/
def runeToLower (lower : Char → Char) (c : Char) : Char :=
  if c.toNat < 128 then
    (if 'A'.toNat ≤ c.toNat ∧ c.toNat ≤ 'Z'.toNat then Char.ofNat (c.toNat + 32) else c)
  else lower c

/-- The function `strings.ToLower`: every rune mapped by `unicode.ToLower`. -/
def ToLower (lower : Char → Char) (s : String) : String :=
  String.mk (s.data.map (runeToLower lower))

/-- The function `strings.TrimSpace`: leading and trailing white space removed. -/
def TrimSpace (s : String) : String :=
  String.mk ((s.data.dropWhile isSpace).reverse.dropWhile isSpace).reverse

/-- The function `strings.Contains`: `substr` occurs in `s` as a contiguous run. -/
def Contains (s substr : String) : Bool :=
  decide (substr.data <:+: s.data)

/-! ## `SystemEvent.String` (events.go) -/

/-- `SystemEvent.String`. -/
def SystemEvent.String (s : SystemEvent) : String :=
  if s = SystemEventNone then "None"
  else if s = LaptopSuspend then "LaptopSuspend"
  else if s = LaptopResume then "LaptopResume"
  else if s = MicMuteLedOn then "MicMuteLedOn"
  else if s = MicMuteLedOff then "MicMuteLedOff"
  else if s = MicMuteLedToggle then "MicMuteLedToggle"
  else if s = BacklightOff then "BacklightOff"
  else if s = BacklightLow then "BacklightLow"
  else if s = BacklightMedium then "BacklightMedium"
  else if s = BacklightHigh then "BacklightHigh"
  else if s = BacklightToggle then "BacklightToggle"
  else if s = SecondaryDisplayToggle then "SecondaryDisplayToggle"
  else if s = USBKeyboardAttached then "USBKeyboardAttached"
  else if s = USBKeyboardDetached then "USBKeyboardDetached"
  else if s = TouchpadDisable then "TouchpadDisable"
  else if s = TouchpadEnable then "TouchpadEnable"
  else if s = TouchpadToggle then "TouchpadToggle"
  else "Unknown"

/-! ## `pipe.Receiver.handleCommand` (unix_pipe.go) -/

/-- `Receiver.handleCommand`: the events it passes to `r.systemEventBus.Publish`. -/
def Receiver.handleCommand (lower : Char → Char) (cmd : String) : List SystemEvent :=
  let cmd := TrimSpace (ToLower lower cmd)
  if cmd = "" then []
  else if cmd = "touchpad_disable" then [TouchpadDisable]
  else if cmd = "touchpad_enable" then [TouchpadEnable]
  else if cmd = "touchpad_toggle" then [TouchpadToggle]
  else []

/-! ## `isTouchpadDevice` (discovery.go) -/

/-- `isTouchpadDevice`. -/
def isTouchpadDevice (lower : Char → Char) (name : String) : Bool :=
  let nameLower := ToLower lower name
  Contains nameLower "touchpad" ||
    Contains nameLower "trackpad" ||
    (Contains nameLower "asus" && Contains nameLower "touch")

/-! ## The shutdown of `runDaemon` (main.go) -/

/-- The components `runDaemon` starts and registers in its slice `components`. -/
inductive Component where
  | pipeReceiver
  | touchpadCtrl
  | keyboardMonitor
  | typingConsumer
  deriving DecidableEq, Repr

/-- The slice `components` when `runDaemon` reaches its wait for the signal: every
component is appended when it has started, in the order of the starts; the pipe receiver
is left out when its start failed. -/
def startedComponents (pipeStarted : Bool) : List Component :=
  (if pipeStarted then [Component.pipeReceiver] else []) ++
    [Component.touchpadCtrl, Component.keyboardMonitor, Component.typingConsumer]

/-- What the shutdown of `runDaemon` does, step by step. -/
inductive ShutdownStep where
  | stop (c : Component)
  | closeBus
  deriving DecidableEq, Repr

/-- The shutdown of `runDaemon`: `for _, c := range components { c.Stop() }`, then
`systemEventBus.Close()`. -/
def shutdownSteps (components : List Component) : List ShutdownStep :=
  components.map ShutdownStep.stop ++ [ShutdownStep.closeBus]

/-- The steps of the shutdown on the touchpads, in the order of the loop: `Stop` of the
`MultiController`, which the consumer holds in `touchpadCtrl`, then `Stop` of the
consumer. The result is the one of the consumer's `Stop`. -/
def shutdownTouchpads (envGroup envConsumer : Nat → DevOutcome)
    (c : TypingDetectionConsumer MultiController) :
    Ret (TypingDetectionConsumer MultiController) GroupCall :=
  TypingDetectionConsumer.Stop MultiController.asTouchpadController envConsumer
    { c with touchpadCtrl := (c.touchpadCtrl.Stop envGroup).st }

/-! ## Runs of a device handle and of the consumer with its timers -/

/-- The calls on a device handle, each with the answers of the evdev library. -/
inductive CtrlOp where
  | Open (o : DevOutcome)
  | Close (o : DevOutcome)
  | Disable (o : DevOutcome)
  | Enable (o : DevOutcome)
  | Stop (o : DevOutcome)

/-- One call on a device handle. -/
def Controller.step (op : CtrlOp) (c : Controller) : Controller :=
  match op with
  | .Open o => (c.Open o).st
  | .Close o => (c.Close o).st
  | .Disable o => (c.Disable o).st
  | .Enable o => (c.Enable o).st
  | .Stop o => (c.Stop o).st

/-- The calls of `ops` on a device handle, one after the other. -/
def Controller.run (ops : List CtrlOp) (c : Controller) : Controller :=
  ops.foldl (fun c op => c.step op) c

/-- What can happen to a running consumer, the runtime included: an operation from
outside, or a live timer firing at some instant. -/
inductive TimedOp (E : Type) where
  | op (o : Op E)
  | timerFires (id : Nat) (now : Int) (e : E)

/-- One operation or one firing. -/
def stepTimed (tc : TouchpadController G E) (op : TimedOp E)
    (c : TypingDetectionConsumer G) : TypingDetectionConsumer G :=
  match op with
  | .op o => step tc o c
  | .timerFires id now e => (fireTimer tc now e id c).st

/-- The operations and firings of `ops`, one after the other. -/
def runOps (tc : TouchpadController G E) (ops : List (TimedOp E))
    (c : TypingDetectionConsumer G) : TypingDetectionConsumer G :=
  ops.foldl (fun c op => stepTimed tc op c) c

/-- The timer discipline: at most one timer is live, and a live timer is the one stored in
the field `timer`. -/
def TimerOwned (c : TypingDetectionConsumer G) : Prop :=
  c.live.length ≤ 1 ∧ ∀ t ∈ c.live, c.timer = some t.id

/-- Timer identities are fresh: every live timer was made before the next identity. -/
def TimerFresh (c : TypingDetectionConsumer G) : Prop :=
  ∀ t ∈ c.live, t.id < c.nextTimer

/-- Whether the operation is admitted in state `c`. Every keypress, system event, stop and
firing is. A timer callback that runs without its timer having just fired (it was started
earlier and runs late) is admitted when no timer is live, or when it runs less than
`cooldown` after the last keypress, or when its `Enable` fails; it is not admitted when it
runs `cooldown` or more after the last keypress while a timer is live and its `Enable`
succeeds. -/
def TimedOp.admitted (tc : TouchpadController G E) (c : TypingDetectionConsumer G) :
    TimedOp E → Bool
  | .op (.timerCallback now e) =>
    c.live.isEmpty || decide (now - c.lastKeyPress < c.cooldown) ||
      (tc.Enable e c.touchpadCtrl).1.isSome
  | _ => true

/-- Every operation of the run is admitted in the state in which it runs. -/
def runAdmitted (tc : TouchpadController G E) :
    List (TimedOp E) → TypingDetectionConsumer G → Bool
  | [], _ => true
  | op :: ops, c => op.admitted tc c && runAdmitted tc ops (stepTimed tc op c)

/-- A pending timer exists only while the flag is disabled. -/
def PendingOnlyWhileDisabled (c : TypingDetectionConsumer G) : Prop :=
  c.live ≠ [] → c.isDisabled = true

/-- The errors the group returned to a method of the consumer that made the calls `calls`
on the group in state `g`, the outcome being `e` (a method makes at most one group
call). -/
def groupErrs (tc : TouchpadController G E) (e : E) (g : G) (calls : List GroupCall) :
    List (Option GoError) :=
  calls.map (fun k =>
    match k with
    | .Disable => (tc.Disable e g).1
    | .Enable => (tc.Enable e g).1)

/-- The errors the group returns while the timers in `due` fire in turn (see `fireAll`). -/
def fireAllErrs (tc : TouchpadController G E) (env : Int → E) :
    List Timer → TypingDetectionConsumer G → List (Option GoError)
  | [], _ => []
  | t :: due, c =>
    groupErrs tc (env t.deadline) c.touchpadCtrl
        (fireTimer tc t.deadline (env t.deadline) t.id c).calls ++
      fireAllErrs tc env due (fireTimer tc t.deadline (env t.deadline) t.id c).st

/-- The errors the group returns while time passes up to instant `t` (see `advance`). -/
def advanceErrs (tc : TouchpadController G E) (env : Int → E) (t : Int)
    (c : TypingDetectionConsumer G) : List (Option GoError) :=
  fireAllErrs tc env (c.live.filter (fun tm => tm.deadline ≤ t)) c

/-- The errors the group returns to the consumer in the timed run up to instant `t` (see
`runTimed`): one entry for every group call the run makes, in order. -/
def runTimedErrs (tc : TouchpadController G E) (env : Int → E) :
    List Int → Int → TypingDetectionConsumer G → List (Option GoError)
  | [], t, c => advanceErrs tc env t c
  | p :: ps, t, c =>
    if p ≤ t then
      advanceErrs tc env p c ++
        groupErrs tc (env p) (advance tc env p c).touchpadCtrl
          (TypingDetectionConsumer.OnKeyPress tc p (env p) (advance tc env p c)).calls ++
        runTimedErrs tc env ps t
          (TypingDetectionConsumer.OnKeyPress tc p (env p) (advance tc env p c)).st
    else
      advanceErrs tc env t c

/-- The calls on a bus: `Subscribe`, `Publish`, `Close`, and the receive `<-ch` of a
subscriber on the channel it holds. -/
inductive BusOp where
  | subscribe
  | publish (event : SystemEvent)
  | close
  | receive (id : Nat)
  deriving DecidableEq, Repr

/-- One call on the bus; `none` is a panic. A receive takes the oldest pending value off
the channel, if there is one. -/
def SystemEventBus.step (op : BusOp) (b : SystemEventBus) : Option SystemEventBus :=
  match op with
  | .subscribe => some b.Subscribe.2
  | .publish event => b.Publish event
  | .close => b.Close
  | .receive id =>
    match b.chans[id]? with
    | none => some b
    | some ch => some { b with chans := b.chans.set id ch.recv.2 }

/-- The calls of `ops` on the bus, one after the other; `none` is a panic. -/
def SystemEventBus.run : List BusOp → SystemEventBus → Option SystemEventBus
  | [], b => some b
  | op :: ops, b =>
    match b.step op with
    | none => none
    | some b' => SystemEventBus.run ops b'

/-! # Properties -/

/-! ## Lemmas on timers and the timed run -/

theorem stopTimer_single (id : Nat) (d : Int) : stopTimer id [{ id := id, deadline := d }] = [] := by
  simp [stopTimer]

theorem advance_of_nil (tc : TouchpadController G E) (env : Int → E) (t : Int)
    (c : TypingDetectionConsumer G) (h : c.live = []) : advance tc env t c = c := by
  simp [advance, h, fireAll]

theorem advance_of_not_due (tc : TouchpadController G E) (env : Int → E) (t p : Int)
    (c : TypingDetectionConsumer G) (h : ActiveAt p c) (ht : t < p + max c.cooldown 0) :
    advance tc env t c = c := by
  obtain ⟨_, _, id, _, hl⟩ := h
  have : ¬ (p + max c.cooldown 0 ≤ t) := by omega
  simp [advance, hl, fireAll, this]

theorem onKeyPress_of_active (tc : TouchpadController G E) (e : E) (p q : Int)
    (c : TypingDetectionConsumer G) (h : ActiveAt p c) :
    ActiveAt q (TypingDetectionConsumer.OnKeyPress tc q e c).st ∧
      (TypingDetectionConsumer.OnKeyPress tc q e c).st.cooldown = c.cooldown := by
  obtain ⟨hd, _, id, ht, hl⟩ := h
  simp [TypingDetectionConsumer.OnKeyPress, hd, rearmTimer, ht, hl, stopTimer, ActiveAt]

theorem onKeyPress_of_idle (tc : TouchpadController G E) (e : E) (q : Int)
    (c : TypingDetectionConsumer G) (h1 : (tc.Disable e c.touchpadCtrl).1 = none)
    (hd : c.isDisabled = false) (hl : c.live = []) :
    ActiveAt q (TypingDetectionConsumer.OnKeyPress tc q e c).st ∧
      (TypingDetectionConsumer.OnKeyPress tc q e c).st.cooldown = c.cooldown := by
  cases ht : c.timer <;>
    simp [TypingDetectionConsumer.OnKeyPress, hd, rearmTimer, ht, hl, stopTimer, ActiveAt, h1]

theorem advance_of_due (tc : TouchpadController G E) (env : Int → E) (t p : Int)
    (c : TypingDetectionConsumer G) (h : ActiveAt p c) (ht : p + max c.cooldown 0 ≤ t)
    (h1 : (tc.Enable (env (p + max c.cooldown 0)) c.touchpadCtrl).1 = none) :
    (advance tc env t c).isDisabled = false := by
  obtain ⟨hd, hp, id, _, hl⟩ := h
  have h2 : c.cooldown ≤ p + max c.cooldown 0 - p := by omega
  simp [advance, hl, fireAll, ht, fireTimer, stopTimer,
    TypingDetectionConsumer.onCooldownExpired, hd, hp, h1, h2]

theorem advanceErrs_of_due (tc : TouchpadController G E) (env : Int → E) (t p : Int)
    (c : TypingDetectionConsumer G) (h : ActiveAt p c) (ht : p + max c.cooldown 0 ≤ t) :
    advanceErrs tc env t c = [(tc.Enable (env (p + max c.cooldown 0)) c.touchpadCtrl).1] := by
  obtain ⟨hd, hp, id, _, hl⟩ := h
  have h2 : c.cooldown ≤ p + max c.cooldown 0 - p := by omega
  cases hr : (tc.Enable (env (p + max c.cooldown 0)) c.touchpadCtrl).1 <;>
    simp [advanceErrs, hl, fireAllErrs, ht, fireTimer, stopTimer, groupErrs,
      TypingDetectionConsumer.onCooldownExpired, hd, hp, h2, hr]

theorem le_getLast_of_chain (cd : Int) :
    ∀ (ps : List Int) (p : Int), List.Chain' (fun a b => a < b ∧ b - a < cd) (p :: ps) →
      p ≤ (p :: ps).getLast (List.cons_ne_nil p ps)
  | [], p, _ => by simp
  | q :: qs, p, h => by
    rw [List.chain'_cons] at h
    have := le_getLast_of_chain cd qs q h.2
    rw [List.getLast_cons (List.cons_ne_nil q qs)]
    omega

theorem runTimed_of_active (tc : TouchpadController G E) (env : Int → E) (t : Int) :
    ∀ (ps : List Int) (p : Int) (c : TypingDetectionConsumer G), ActiveAt p c → p ≤ t →
      List.Chain' (fun a b => a < b ∧ b - a < c.cooldown) (p :: ps) →
      (∀ r ∈ runTimedErrs tc env ps t c, r = none) →
      (t < (p :: ps).getLast (List.cons_ne_nil p ps) + c.cooldown →
          (runTimed tc env ps t c).isDisabled = true) ∧
        ((p :: ps).getLast (List.cons_ne_nil p ps) + c.cooldown ≤ t →
          (runTimed tc env ps t c).isDisabled = false)
  | [], p, c, h, hpt, _, hok => by
    simp only [runTimed, List.getLast_singleton]
    constructor
    · intro ht
      rw [advance_of_not_due tc env t p c h (by omega)]
      exact h.1
    · intro ht
      have hdue : p + max c.cooldown 0 ≤ t := by omega
      refine advance_of_due tc env t p c h hdue (hok _ ?_)
      simp [runTimedErrs, advanceErrs_of_due tc env t p c h hdue]
  | q :: qs, p, c, h, hpt, hch, hok => by
    rw [List.chain'_cons] at hch
    obtain ⟨⟨hpq, hgap⟩, hrest⟩ := hch
    have hlast := le_getLast_of_chain c.cooldown qs q hrest
    rw [List.getLast_cons (List.cons_ne_nil q qs)]
    by_cases hq : q ≤ t
    · have hadv : advance tc env q c = c := advance_of_not_due tc env q p c h (by omega)
      have hk := onKeyPress_of_active tc (env q) p q c h
      simp only [runTimedErrs, hq, if_true, hadv] at hok
      simp only [runTimed, hq, if_true, hadv]
      have ih := runTimed_of_active tc env t qs q _ hk.1 hq (by rw [hk.2]; exact hrest)
        (fun r hr => hok r (List.mem_append_right _ hr))
      rw [hk.2] at ih
      exact ih
    · have hadv : advance tc env t c = c := advance_of_not_due tc env t p c h (by omega)
      simp only [runTimed, hq, if_false, hadv]
      exact ⟨fun _ => h.1, fun ht => by omega⟩

theorem onKeyPress_calls_of_enabled (tc : TouchpadController G E) (now : Int) (e : E)
    (c : TypingDetectionConsumer G) (h : c.isDisabled = false) :
    (TypingDetectionConsumer.OnKeyPress tc now e c).calls = [GroupCall.Disable] := by
  cases hr : (tc.Disable e c.touchpadCtrl).1 <;>
    simp [TypingDetectionConsumer.OnKeyPress, h, hr]

/-! ## The debounce window -/

/-- C1 (debounce window). In the timed run, from an idle consumer (enabled, no live
timer), for keypresses at instants `t1 < ... < tn` with every consecutive gap below
`cooldown`, and for an instant `t` such that every group call the run makes up to `t`
returns no error: if `t1 ≤ t < tn + cooldown` the consumer is disabled at `t`, and if
`t ≥ tn + cooldown` (the timer armed by the last keypress has fired) it is enabled at
`t`. The group is any implementation of the interface, in any state. -/
theorem debounce_window (tc : TouchpadController G E) (env : Int → E)
    (c : TypingDetectionConsumer G) (hidle : c.isDisabled = false) (hlive : c.live = [])
    (t1 : Int) (ps : List Int)
    (hgaps : List.Chain' (fun a b => a < b ∧ b - a < c.cooldown) (t1 :: ps)) (t : Int)
    (hok : ∀ r ∈ runTimedErrs tc env (t1 :: ps) t c, r = none) :
    (t1 ≤ t → t < (t1 :: ps).getLast (List.cons_ne_nil t1 ps) + c.cooldown →
        (runTimed tc env (t1 :: ps) t c).isDisabled = true) ∧
      ((t1 :: ps).getLast (List.cons_ne_nil t1 ps) + c.cooldown ≤ t →
        (runTimed tc env (t1 :: ps) t c).isDisabled = false) := by
  by_cases h1 : t1 ≤ t
  · have hadv : advance tc env t1 c = c := advance_of_nil tc env t1 c hlive
    simp only [runTimedErrs, h1, if_true, hadv] at hok
    have hdis : (tc.Disable (env t1) c.touchpadCtrl).1 = none := by
      refine hok _ (List.mem_append_left _ (List.mem_append_right _ ?_))
      simp [groupErrs, onKeyPress_calls_of_enabled tc t1 (env t1) c hidle]
    have hk := onKeyPress_of_idle tc (env t1) t1 c hdis hidle hlive
    have hrun := runTimed_of_active tc env t ps t1 _ hk.1 h1 (by rw [hk.2]; exact hgaps)
      (fun r hr => hok r (List.mem_append_right _ hr))
    rw [hk.2] at hrun
    simp only [runTimed, h1, if_true, hadv]
    exact ⟨fun _ => hrun.1, hrun.2⟩
  · refine ⟨fun h => absurd h h1, fun _ => ?_⟩
    simp only [runTimed, h1, if_false, advance_of_nil tc env t c hlive]
    exact hidle

/-- Witness of C1: cooldown 300, keypresses at 0, 100 and 200, on the `MultiController`
of two opened touchpads with every evdev call succeeding: disabled at instant 300 (and at
every instant from 0 up to 500), enabled at instant 500. -/
theorem debounce_window_witness :
    (runTimed MultiController.asTouchpadController (fun _ _ => DevOutcome.ok) [0, 100, 200]
        300
        (NewTypingDetectionConsumer
          ⟨[⟨"/dev/input/event5", true, false⟩, ⟨"/dev/input/event6", true, false⟩]⟩
          300)).isDisabled = true ∧
      (runTimed MultiController.asTouchpadController (fun _ _ => DevOutcome.ok) [0, 100, 200]
        500
        (NewTypingDetectionConsumer
          ⟨[⟨"/dev/input/event5", true, false⟩, ⟨"/dev/input/event6", true, false⟩]⟩
          300)).isDisabled = false :=
  ⟨(debounce_window MultiController.asTouchpadController (fun _ _ => DevOutcome.ok)
      (NewTypingDetectionConsumer
        ⟨[⟨"/dev/input/event5", true, false⟩, ⟨"/dev/input/event6", true, false⟩]⟩ 300)
      rfl rfl 0 [100, 200] (by simp [NewTypingDetectionConsumer]) 300 (by decide)).1
      (by decide) (by decide),
   (debounce_window MultiController.asTouchpadController (fun _ _ => DevOutcome.ok)
      (NewTypingDetectionConsumer
        ⟨[⟨"/dev/input/event5", true, false⟩, ⟨"/dev/input/event6", true, false⟩]⟩ 300)
      rfl rfl 0 [100, 200] (by simp [NewTypingDetectionConsumer]) 500 (by decide)).2
      (by decide)⟩

/-! ## Single transitions of the consumer -/

/-- C2. On a consumer whose cached flag is enabled, `OnKeyPress` calls `Disable` on the
group exactly once (and makes no other group call). If the call succeeds the flag becomes
disabled, a fresh timer due `cooldown` after `now` is made live and stored in `timer`. If
it fails the flag stays enabled and stored timer, live timers and timer counter are what
they were: no timer is armed. -/
theorem onKeyPress_when_enabled (tc : TouchpadController G E) (now : Int) (e : E)
    (c : TypingDetectionConsumer G) (h : c.isDisabled = false) :
    (TypingDetectionConsumer.OnKeyPress tc now e c).calls = [GroupCall.Disable] ∧
      (TypingDetectionConsumer.OnKeyPress tc now e c).st.touchpadCtrl
        = (tc.Disable e c.touchpadCtrl).2 ∧
      ((tc.Disable e c.touchpadCtrl).1 = none →
        (TypingDetectionConsumer.OnKeyPress tc now e c).st.isDisabled = true ∧
        (TypingDetectionConsumer.OnKeyPress tc now e c).st.timer = some c.nextTimer ∧
        { id := c.nextTimer, deadline := now + max c.cooldown 0 }
          ∈ (TypingDetectionConsumer.OnKeyPress tc now e c).st.live) ∧
      ((tc.Disable e c.touchpadCtrl).1 ≠ none →
        (TypingDetectionConsumer.OnKeyPress tc now e c).st.isDisabled = false ∧
        (TypingDetectionConsumer.OnKeyPress tc now e c).st.timer = c.timer ∧
        (TypingDetectionConsumer.OnKeyPress tc now e c).st.live = c.live ∧
        (TypingDetectionConsumer.OnKeyPress tc now e c).st.nextTimer = c.nextTimer) := by
  cases hr : (tc.Disable e c.touchpadCtrl).1 <;>
    simp [TypingDetectionConsumer.OnKeyPress, h, hr, rearmTimer]

/-- Witness of C2: the first keypress of the test `DisableError`, the mock returning an
error. -/
theorem onKeyPress_when_enabled_witness :
    (TypingDetectionConsumer.OnKeyPress MockTouchpadController.asTouchpadController 0
        (some (GoError.errorString "assert.AnError general error for testing"))
        (NewTypingDetectionConsumer ⟨false⟩ 300)).calls = [GroupCall.Disable] ∧
      (TypingDetectionConsumer.OnKeyPress MockTouchpadController.asTouchpadController 0
        (some (GoError.errorString "assert.AnError general error for testing"))
        (NewTypingDetectionConsumer ⟨false⟩ 300)).st.isDisabled = false :=
  ⟨(onKeyPress_when_enabled MockTouchpadController.asTouchpadController 0
      (some (GoError.errorString "assert.AnError general error for testing"))
      (NewTypingDetectionConsumer ⟨false⟩ 300) rfl).1,
   ((onKeyPress_when_enabled MockTouchpadController.asTouchpadController 0
      (some (GoError.errorString "assert.AnError general error for testing"))
      (NewTypingDetectionConsumer ⟨false⟩ 300) rfl).2.2.2 (by simp [
        MockTouchpadController.asTouchpadController, NewTypingDetectionConsumer])).1⟩

/-- C3 (race at expiry). On a disabled consumer whose last keypress was at `T`, the timer
callback running at an instant `now` with `now - T < cooldown` makes no group call and
returns the state it was given, so the flag is still disabled. -/
theorem onCooldownExpired_race (tc : TouchpadController G E) (now T : Int) (e : E)
    (c : TypingDetectionConsumer G) (hd : c.isDisabled = true) (hT : c.lastKeyPress = T)
    (hnow : now - T < c.cooldown) :
    TypingDetectionConsumer.onCooldownExpired tc now e c = { st := c, calls := [] } ∧
      (TypingDetectionConsumer.onCooldownExpired tc now e c).st.isDisabled = true := by
  have h : ¬ (c.cooldown ≤ now - c.lastKeyPress) := by omega
  simp [TypingDetectionConsumer.onCooldownExpired, h, hd]

/-- Witness of C3: cooldown 300, keypresses at 0 and 200, the timer of the first keypress
running its callback at 300. -/
theorem onCooldownExpired_race_witness :
    TypingDetectionConsumer.onCooldownExpired MockTouchpadController.asTouchpadController
        300 none
        ({ touchpadCtrl := ⟨true⟩, cooldown := 300, lastKeyPress := 200, timer := some 1,
           isDisabled := true, live := [⟨1, 500⟩], nextTimer := 2 } :
          TypingDetectionConsumer MockTouchpadController)
      = { st := { touchpadCtrl := ⟨true⟩, cooldown := 300, lastKeyPress := 200,
                  timer := some 1, isDisabled := true, live := [⟨1, 500⟩], nextTimer := 2 },
          calls := [] } :=
  (onCooldownExpired_race MockTouchpadController.asTouchpadController 300 200 none
    { touchpadCtrl := ⟨true⟩, cooldown := 300, lastKeyPress := 200, timer := some 1,
      isDisabled := true, live := [⟨1, 500⟩], nextTimer := 2 } rfl rfl (by decide)).1

/-- C4. On a disabled consumer, the timer callback running at an instant `now` with
`now - lastKeyPress ≥ cooldown` calls `Enable` on the group exactly once (and makes no
other group call). If the call succeeds the flag becomes enabled; if it fails the flag
stays disabled. Either way stored timer, live timers and timer counter are what they
were: no timer is scheduled. -/
theorem onCooldownExpired_elapsed (tc : TouchpadController G E) (now : Int) (e : E)
    (c : TypingDetectionConsumer G) (hd : c.isDisabled = true)
    (hnow : now - c.lastKeyPress ≥ c.cooldown) :
    (TypingDetectionConsumer.onCooldownExpired tc now e c).calls = [GroupCall.Enable] ∧
      (TypingDetectionConsumer.onCooldownExpired tc now e c).st.touchpadCtrl
        = (tc.Enable e c.touchpadCtrl).2 ∧
      ((tc.Enable e c.touchpadCtrl).1 = none →
        (TypingDetectionConsumer.onCooldownExpired tc now e c).st.isDisabled = false) ∧
      ((tc.Enable e c.touchpadCtrl).1 ≠ none →
        (TypingDetectionConsumer.onCooldownExpired tc now e c).st.isDisabled = true) ∧
      (TypingDetectionConsumer.onCooldownExpired tc now e c).st.timer = c.timer ∧
      (TypingDetectionConsumer.onCooldownExpired tc now e c).st.live = c.live ∧
      (TypingDetectionConsumer.onCooldownExpired tc now e c).st.nextTimer = c.nextTimer := by
  have h : c.cooldown ≤ now - c.lastKeyPress := hnow
  cases hr : (tc.Enable e c.touchpadCtrl).1 <;>
    simp [TypingDetectionConsumer.onCooldownExpired, h, hd, hr]

/-- Witness of C4 (scenario A): cooldown 300, one keypress at 0, the callback running at
300 with the group call succeeding: the consumer is enabled again. -/
theorem onCooldownExpired_elapsed_witness :
    (TypingDetectionConsumer.onCooldownExpired MockTouchpadController.asTouchpadController
        300 none
        ({ touchpadCtrl := ⟨true⟩, cooldown := 300, lastKeyPress := 0, timer := some 0,
           isDisabled := true, live := [], nextTimer := 1 } :
          TypingDetectionConsumer MockTouchpadController)).st.isDisabled = false :=
  (onCooldownExpired_elapsed MockTouchpadController.asTouchpadController 300 none
    { touchpadCtrl := ⟨true⟩, cooldown := 300, lastKeyPress := 0, timer := some 0,
      isDisabled := true, live := [], nextTimer := 1 } rfl (by decide)).2.2.1 rfl

theorem onCooldownExpired_of_enabled (tc : TouchpadController G E) (now : Int) (e : E)
    (c : TypingDetectionConsumer G) (hd : c.isDisabled = false) :
    TypingDetectionConsumer.onCooldownExpired tc now e c = { st := c, calls := [] } := by
  simp [TypingDetectionConsumer.onCooldownExpired, hd]

theorem runCallbacks_of_enabled (tc : TouchpadController G E)
    (c : TypingDetectionConsumer G) (hd : c.isDisabled = false) :
    ∀ fires : List (Int × E), runCallbacks tc fires c = { st := c, calls := [] }
  | [] => rfl
  | (now, e) :: rest => by
    simp [runCallbacks, onCooldownExpired_of_enabled tc now e c hd,
      runCallbacks_of_enabled tc c hd rest]

/-- C5 (suspend overrides). On a disabled consumer whose stored timer is live (and is the
only live timer), handling `LaptopSuspend` calls `Enable` on the group exactly once and
leaves the flag enabled, no stored timer and no live timer, whatever the group call
returned. From that state the runtime has no timer to fire, and every run of timer
callbacks, at any instants and with any outcomes, makes no group call and returns the
state unchanged. -/
theorem suspend_overrides (tc : TouchpadController G E) (e : E)
    (c : TypingDetectionConsumer G) (id : Nat) (d : Int) (hd : c.isDisabled = true)
    (ht : c.timer = some id) (hl : c.live = [{ id := id, deadline := d }]) :
    (TypingDetectionConsumer.handleSystemEvent tc e LaptopSuspend c).calls
        = [GroupCall.Enable] ∧
      (TypingDetectionConsumer.handleSystemEvent tc e LaptopSuspend c).st.isDisabled = false ∧
      (TypingDetectionConsumer.handleSystemEvent tc e LaptopSuspend c).st.timer = none ∧
      (TypingDetectionConsumer.handleSystemEvent tc e LaptopSuspend c).st.live = [] ∧
      (∀ (now : Int) (e' : E) (k : Nat),
        fireTimer tc now e' k (TypingDetectionConsumer.handleSystemEvent tc e LaptopSuspend c).st
          = { st := (TypingDetectionConsumer.handleSystemEvent tc e LaptopSuspend c).st,
              calls := [] }) ∧
      (∀ fires : List (Int × E),
        runCallbacks tc fires (TypingDetectionConsumer.handleSystemEvent tc e LaptopSuspend c).st
          = { st := (TypingDetectionConsumer.handleSystemEvent tc e LaptopSuspend c).st,
              calls := [] }) := by
  have hst : (TypingDetectionConsumer.handleSystemEvent tc e LaptopSuspend c).st.isDisabled
      = false := by
    simp [TypingDetectionConsumer.handleSystemEvent, hd, cancelTimer, ht]
  have hlive : (TypingDetectionConsumer.handleSystemEvent tc e LaptopSuspend c).st.live
      = [] := by
    simp [TypingDetectionConsumer.handleSystemEvent, hd, cancelTimer, ht, hl, stopTimer]
  refine ⟨?_, hst, ?_, hlive, ?_, fun fires => runCallbacks_of_enabled tc _ hst fires⟩
  · simp [TypingDetectionConsumer.handleSystemEvent, hd]
  · simp [TypingDetectionConsumer.handleSystemEvent, hd, cancelTimer, ht]
  · intro now e' k
    simp [fireTimer, hlive]

/-- Witness of C5: cooldown 300, a keypress at 0, then `LaptopSuspend` with the group call
succeeding; the callback of the cancelled timer running at 300 changes nothing. -/
theorem suspend_overrides_witness :
    (TypingDetectionConsumer.handleSystemEvent MockTouchpadController.asTouchpadController
        none LaptopSuspend
        ({ touchpadCtrl := ⟨true⟩, cooldown := 300, lastKeyPress := 0, timer := some 0,
           isDisabled := true, live := [⟨0, 300⟩], nextTimer := 1 } :
          TypingDetectionConsumer MockTouchpadController)).calls = [GroupCall.Enable] :=
  (suspend_overrides MockTouchpadController.asTouchpadController none
    { touchpadCtrl := ⟨true⟩, cooldown := 300, lastKeyPress := 0, timer := some 0,
      isDisabled := true, live := [⟨0, 300⟩], nextTimer := 1 } 0 300 rfl rfl rfl).1

/-! ## The group behind the consumer -/

theorem disableLoop_open (env : Nat → DevOutcome) :
    ∀ (cs : List Controller) (i : Nat), (∀ c ∈ cs, c.device = true) →
      (∀ c ∈ (disableLoop env i cs).st, c.device = true) ∧
        ((disableLoop env i cs).st.length = cs.length) ∧
        ((disableLoop env i cs).err = none →
          ∀ c ∈ (disableLoop env i cs).st, c.grabbed = true) ∧
        ((disableLoop env i cs).err ≠ none →
          ∃ c ∈ (disableLoop env i cs).st, c.grabbed = false)
  | [], _, _ => by simp [disableLoop]
  | c :: cs, i, h => by
    have hc : c.device = true := h c (List.mem_cons_self c cs)
    have hcs : ∀ x ∈ cs, x.device = true := fun x hx => h x (List.mem_cons_of_mem c hx)
    obtain ⟨ih1, ih2, ih3, ih4⟩ := disableLoop_open env cs (i + 1) hcs
    cases hg : c.grabbed
    · cases he : (env i).grabErr
      · simp only [disableLoop, Controller.Disable, hc, hg, he, Bool.not_true,
          Bool.false_eq_true, if_false]
        refine ⟨?_, by simp [ih2], ?_, ?_⟩
        · intro x hx
          rcases List.mem_cons.1 hx with rfl | hx
          · first | exact hc | rfl
          · exact ih1 x hx
        · intro herr x hx
          rcases List.mem_cons.1 hx with rfl | hx
          · rfl
          · exact ih3 herr x hx
        · intro herr
          obtain ⟨x, hx, hxg⟩ := ih4 herr
          exact ⟨x, List.mem_cons_of_mem _ hx, hxg⟩
      · simp only [disableLoop, Controller.Disable, hc, hg, he, Bool.not_true,
          Bool.false_eq_true, if_false]
        refine ⟨?_, by simp, ?_, ?_⟩
        · intro x hx
          exact h x hx
        · intro herr
          exact absurd herr (by simp)
        · intro _
          exact ⟨c, List.mem_cons_self c cs, hg⟩
    · simp only [disableLoop, Controller.Disable, hc, hg, Bool.not_true, Bool.false_eq_true,
        if_false, if_true]
      refine ⟨?_, by simp [ih2], ?_, ?_⟩
      · intro x hx
        rcases List.mem_cons.1 hx with rfl | hx
        · exact hc
        · exact ih1 x hx
      · intro herr x hx
        rcases List.mem_cons.1 hx with rfl | hx
        · exact hg
        · exact ih3 herr x hx
      · intro herr
        obtain ⟨x, hx, hxg⟩ := ih4 herr
        exact ⟨x, List.mem_cons_of_mem _ hx, hxg⟩

theorem enableLoop_of_ungrabs (env : Nat → DevOutcome) (henv : UngrabsSucceed env) :
    ∀ (cs : List Controller) (i : Nat), (∀ c ∈ cs, c.device = true) →
      (enableLoop env i cs).err = none ∧
        (enableLoop env i cs).st = cs.map (fun c => { c with grabbed := false })
  | [], _, _ => by simp [enableLoop]
  | c :: cs, i, h => by
    have hc : c.device = true := h c (List.mem_cons_self c cs)
    have ih := enableLoop_of_ungrabs env henv cs (i + 1)
      (fun x hx => h x (List.mem_cons_of_mem c hx))
    have hg := henv i
    cases hgr : c.grabbed <;>
      simp [enableLoop, Controller.Enable, hc, hgr, hg, ih.1, ih.2]
    cases c
    simp_all

theorem allDisabled_iff (cs : List Controller) :
    allDisabled cs = true ↔ ∀ c ∈ cs, c.grabbed = true := by
  induction cs with
  | nil => simp [allDisabled]
  | cons c cs ih => cases hg : c.grabbed <;> simp [allDisabled, Controller.IsDisabled, hg, ih]

theorem isDisabled_eq_of_agrees (m : MultiController) (b : Bool) (h : Agrees m b) :
    m.IsDisabled = b := by
  obtain ⟨hne, _, hiff⟩ := h
  have hlen : 0 < m.controllers.length := List.length_pos.2 hne
  cases b
  · have : ¬ (allDisabled m.controllers = true) := by
      rw [allDisabled_iff]
      intro hall
      exact absurd (hiff.2 hall) (by decide)
    simp [MultiController.IsDisabled, this]
  · have hall : allDisabled m.controllers = true := (allDisabled_iff _).2 (hiff.1 rfl)
    simp [MultiController.IsDisabled, hall, hlen]

theorem agrees_disable (env : Nat → DevOutcome) (m : MultiController) (b : Bool)
    (h : Agrees m b) :
    ((MultiController.asTouchpadController.Disable env m).1 = none →
        Agrees (MultiController.asTouchpadController.Disable env m).2 true) ∧
      ((MultiController.asTouchpadController.Disable env m).1 ≠ none →
        Agrees (MultiController.asTouchpadController.Disable env m).2 false) := by
  obtain ⟨h1, h2, h3, h4⟩ := disableLoop_open env m.controllers 0 h.2.1
  have hne : (disableLoop env 0 m.controllers).st ≠ [] := by
    intro hnil
    have := h2
    rw [hnil] at this
    exact h.1 (List.length_eq_zero.1 this.symm)
  constructor
  · intro herr
    exact ⟨hne, h1, fun _ => h3 herr, fun _ => rfl⟩
  · intro herr
    obtain ⟨x, hx, hxg⟩ := h4 herr
    refine ⟨hne, h1, fun hb => absurd hb (by decide), fun hall => ?_⟩
    have := hall x hx
    rw [hxg] at this
    exact absurd this (by decide)

theorem agrees_enable (env : Nat → DevOutcome) (henv : UngrabsSucceed env)
    (m : MultiController) (b : Bool) (h : Agrees m b) :
    (MultiController.asTouchpadController.Enable env m).1 = none ∧
      Agrees (MultiController.asTouchpadController.Enable env m).2 false := by
  have hl := enableLoop_of_ungrabs env henv m.controllers 0 h.2.1
  obtain ⟨x, hx⟩ := List.exists_mem_of_ne_nil _ h.1
  refine ⟨hl.1, ?_, ?_, fun hb => absurd hb (by decide), fun hall => ?_⟩
  · simp [MultiController.asTouchpadController, groupOf, MultiController.Enable, hl.2, h.1]
  · intro c hc
    simp only [MultiController.asTouchpadController, groupOf, MultiController.Enable, hl.2,
      List.mem_map] at hc
    obtain ⟨y, hy, rfl⟩ := hc
    exact h.2.1 y hy
  · have hmem : ({ x with grabbed := false } : Controller)
        ∈ (MultiController.asTouchpadController.Enable env m).2.controllers := by
      simp only [MultiController.asTouchpadController, groupOf, MultiController.Enable, hl.2,
        List.mem_map]
      exact ⟨x, hx, rfl⟩
    exact absurd (hall _ hmem) (by simp)

theorem cancelTimer_touchpadCtrl (c : TypingDetectionConsumer G) :
    (cancelTimer c).touchpadCtrl = c.touchpadCtrl := by
  unfold cancelTimer; split <;> rfl

theorem cancelTimer_isDisabled (c : TypingDetectionConsumer G) :
    (cancelTimer c).isDisabled = c.isDisabled := by
  unfold cancelTimer; split <;> rfl

theorem rearmTimer_touchpadCtrl (now : Int) (c : TypingDetectionConsumer G) :
    (rearmTimer now c).touchpadCtrl = c.touchpadCtrl := rfl

theorem rearmTimer_isDisabled (now : Int) (c : TypingDetectionConsumer G) :
    (rearmTimer now c).isDisabled = c.isDisabled := rfl

theorem step_mirrors (op : Op (Nat → DevOutcome)) (henv : UngrabsSucceed op.outcome)
    (c : TypingDetectionConsumer MultiController) (h : Mirrors c) :
    Mirrors (step MultiController.asTouchpadController op c) := by
  unfold Mirrors at h ⊢
  cases op with
  | keyPress now e =>
    have hD := agrees_disable e _ _ h
    cases hd : c.isDisabled
    · cases hr : (MultiController.asTouchpadController.Disable e c.touchpadCtrl).1 with
      | none =>
        simpa [step, TypingDetectionConsumer.OnKeyPress, hd, hr, rearmTimer_touchpadCtrl,
          rearmTimer_isDisabled] using hD.1 hr
      | some err =>
        simpa [step, TypingDetectionConsumer.OnKeyPress, hd, hr] using
          hD.2 (by rw [hr]; simp)
    · rw [hd] at h
      simp [step, TypingDetectionConsumer.OnKeyPress, hd, h, rearmTimer_touchpadCtrl,
        rearmTimer_isDisabled]
  | timerCallback now e =>
    have hE := agrees_enable e henv _ _ h
    cases hd : c.isDisabled
    · rw [hd] at h
      simp [step, TypingDetectionConsumer.onCooldownExpired, hd, h]
    · by_cases hnow : c.cooldown ≤ now - c.lastKeyPress
      · simp [step, TypingDetectionConsumer.onCooldownExpired, hd, hnow, hE.1, hE.2]
      · rw [hd] at h
        simp [step, TypingDetectionConsumer.onCooldownExpired, hd, hnow, h]
  | systemEvent event e =>
    have hD := agrees_disable e _ _ h
    have hE := agrees_enable e henv _ _ h
    cases hd : c.isDisabled <;> rw [hd] at h <;>
      cases hr : (MultiController.asTouchpadController.Disable e c.touchpadCtrl).1 <;>
      simp only [step, TypingDetectionConsumer.handleSystemEvent] <;>
      split_ifs <;>
      simp_all [cancelTimer_touchpadCtrl, cancelTimer_isDisabled]
  | stop e =>
    have hE := agrees_enable e henv _ _ (by simpa [cancelTimer_touchpadCtrl] using h)
    cases hd : c.isDisabled
    · rw [hd] at h
      simp [step, TypingDetectionConsumer.Stop, hd, h, cancelTimer_touchpadCtrl,
        cancelTimer_isDisabled]
    · simp only [cancelTimer_touchpadCtrl] at hE
      simp [step, TypingDetectionConsumer.Stop, hd, hE.2, cancelTimer_touchpadCtrl,
        cancelTimer_isDisabled]

theorem run_mirrors :
    ∀ (ops : List (Op (Nat → DevOutcome))) (c : TypingDetectionConsumer MultiController),
      (∀ op ∈ ops, UngrabsSucceed op.outcome) → Mirrors c →
      Mirrors (run MultiController.asTouchpadController ops c)
  | [], _, _, h => h
  | op :: ops, c, henv, h =>
    run_mirrors ops _ (fun o ho => henv o (List.mem_cons_of_mem op ho))
      (step_mirrors op (henv op (List.mem_cons_self op ops)) c h)

/-- C7 (as the spec has it, refuted). The flag does not mirror the group when an ungrab
fails or when the group has no member: on a group of one opened touchpad, a keypress
followed by `LaptopSuspend` whose ungrab fails leaves the flag enabled and the group
disabled; on the group without members a keypress leaves the flag disabled while
`IsDisabled` of the group is false. -/
theorem flag_mirrors_group_counterexample :
    (run MultiController.asTouchpadController
        [Op.keyPress 0 (fun _ => DevOutcome.ok),
         Op.systemEvent LaptopSuspend
           (fun _ => { DevOutcome.ok with ungrabErr := some (GoError.errorString "EBUSY") })]
        (NewTypingDetectionConsumer ⟨[⟨"/dev/input/event5", true, false⟩]⟩ 300)).isDisabled
      ≠ (run MultiController.asTouchpadController
        [Op.keyPress 0 (fun _ => DevOutcome.ok),
         Op.systemEvent LaptopSuspend
           (fun _ => { DevOutcome.ok with ungrabErr := some (GoError.errorString "EBUSY") })]
        (NewTypingDetectionConsumer ⟨[⟨"/dev/input/event5", true, false⟩]⟩
          300)).touchpadCtrl.IsDisabled ∧
    (run MultiController.asTouchpadController [Op.keyPress 0 (fun _ => DevOutcome.ok)]
        (NewTypingDetectionConsumer ⟨[]⟩ 300)).isDisabled
      ≠ (run MultiController.asTouchpadController [Op.keyPress 0 (fun _ => DevOutcome.ok)]
        (NewTypingDetectionConsumer ⟨[]⟩ 300)).touchpadCtrl.IsDisabled := by
  constructor <;> decide

/-- C7 (amended). With every ungrab succeeding, the grabs succeeding or failing in any
way, from the idle consumer over a group that has at least one member, all members open
and shared, after every sequence of keypresses, timer callbacks (at any instants), system
events and stops, the flag `isDisabled` of the consumer equals `IsDisabled()` of the
group. -/
theorem flag_mirrors_group (g : MultiController) (cooldown : Int)
    (hne : g.controllers ≠ [])
    (hopen : ∀ m ∈ g.controllers, m.device = true ∧ m.grabbed = false)
    (ops : List (Op (Nat → DevOutcome))) (henv : ∀ op ∈ ops, UngrabsSucceed op.outcome) :
    (run MultiController.asTouchpadController ops
        (NewTypingDetectionConsumer g cooldown)).isDisabled
      = (run MultiController.asTouchpadController ops
        (NewTypingDetectionConsumer g cooldown)).touchpadCtrl.IsDisabled := by
  have hinit : Mirrors (NewTypingDetectionConsumer g cooldown) := by
    obtain ⟨x, hx⟩ := List.exists_mem_of_ne_nil _ hne
    refine ⟨hne, fun m hm => (hopen m hm).1, fun hb => ?_, fun hall => ?_⟩
    · simp [NewTypingDetectionConsumer] at hb
    · have h1 : x.grabbed = true := hall x hx
      rw [(hopen x hx).2] at h1
      exact absurd h1 (by decide)
  have h := run_mirrors ops (NewTypingDetectionConsumer g cooldown) henv hinit
  exact (isDisabled_eq_of_agrees _ _ h).symm

/-- Witness of C7 (amended): two opened touchpads; a keypress at 0 whose grab of the second
touchpad fails, a keypress at 100 whose grabs succeed, the timer callback at 400,
`TouchpadToggle` whose grab of the first touchpad fails, then the shutdown. -/
theorem flag_mirrors_group_witness :
    (run MultiController.asTouchpadController
        [Op.keyPress 0 (fun i => if i = 1 then
           { DevOutcome.ok with grabErr := some (GoError.errorString "EBUSY") }
           else DevOutcome.ok),
         Op.keyPress 100 (fun _ => DevOutcome.ok),
         Op.timerCallback 400 (fun _ => DevOutcome.ok),
         Op.systemEvent TouchpadToggle (fun _ =>
           { DevOutcome.ok with grabErr := some (GoError.errorString "EBUSY") }),
         Op.stop (fun _ => DevOutcome.ok)]
        (NewTypingDetectionConsumer
          ⟨[⟨"/dev/input/event5", true, false⟩, ⟨"/dev/input/event6", true, false⟩]⟩
          300)).isDisabled
      = (run MultiController.asTouchpadController
        [Op.keyPress 0 (fun i => if i = 1 then
           { DevOutcome.ok with grabErr := some (GoError.errorString "EBUSY") }
           else DevOutcome.ok),
         Op.keyPress 100 (fun _ => DevOutcome.ok),
         Op.timerCallback 400 (fun _ => DevOutcome.ok),
         Op.systemEvent TouchpadToggle (fun _ =>
           { DevOutcome.ok with grabErr := some (GoError.errorString "EBUSY") }),
         Op.stop (fun _ => DevOutcome.ok)]
        (NewTypingDetectionConsumer
          ⟨[⟨"/dev/input/event5", true, false⟩, ⟨"/dev/input/event6", true, false⟩]⟩
          300)).touchpadCtrl.IsDisabled :=
  flag_mirrors_group
    ⟨[⟨"/dev/input/event5", true, false⟩, ⟨"/dev/input/event6", true, false⟩]⟩ 300
    (by simp) (by simp) _ (by
      intro op hop i
      simp only [List.mem_cons, List.mem_singleton, List.not_mem_nil, or_false] at hop
      rcases hop with rfl | rfl | rfl | rfl | rfl <;>
        simp only [Op.outcome] <;> (try split) <;> rfl)

/-- C6 (the code departs from it). Two opened touchpads; a keypress whose grab succeeds on
the first and fails on the second leaves the flag enabled and the first touchpad grabbed;
`Stop` from there makes no group call at all, and the first touchpad is still grabbed
after it. -/
theorem stop_makes_no_call_when_flag_enabled :
    (TypingDetectionConsumer.OnKeyPress MultiController.asTouchpadController 0
        (fun i => if i = 1 then
          { DevOutcome.ok with grabErr := some (GoError.errorString "EBUSY") }
          else DevOutcome.ok)
        (NewTypingDetectionConsumer
          ⟨[⟨"/dev/input/event5", true, false⟩, ⟨"/dev/input/event6", true, false⟩]⟩ 300)).st
      = { touchpadCtrl :=
            ⟨[⟨"/dev/input/event5", true, true⟩, ⟨"/dev/input/event6", true, false⟩]⟩,
          cooldown := 300, lastKeyPress := 0, timer := none, isDisabled := false,
          live := [], nextTimer := 0 } ∧
    TypingDetectionConsumer.Stop MultiController.asTouchpadController (fun _ => DevOutcome.ok)
        { touchpadCtrl :=
            ⟨[⟨"/dev/input/event5", true, true⟩, ⟨"/dev/input/event6", true, false⟩]⟩,
          cooldown := 300, lastKeyPress := 0, timer := none, isDisabled := false,
          live := [], nextTimer := 0 }
      = { err := none,
          st := { touchpadCtrl :=
                    ⟨[⟨"/dev/input/event5", true, true⟩, ⟨"/dev/input/event6", true, false⟩]⟩,
                  cooldown := 300, lastKeyPress := 0, timer := none, isDisabled := false,
                  live := [], nextTimer := 0 },
          calls := [] } := by
  constructor <;> decide

/-! ## Opening the group -/

theorem close_closed (o : DevOutcome) (c : Controller) : (c.Close o).st.device = false := by
  cases hd : c.device <;> cases hg : c.grabbed <;> simp [Controller.Close, hd, hg]

theorem close_released (o : DevOutcome) (c : Controller) (h : c.WellFormed) :
    (c.Close o).st.grabbed = false := by
  unfold Controller.WellFormed at h
  cases hd : c.device <;> cases hg : c.grabbed <;> simp_all [Controller.Close]

theorem close_devicePath (o : DevOutcome) (c : Controller) :
    (c.Close o).st.devicePath = c.devicePath := by
  cases hd : c.device <;> cases hg : c.grabbed <;> simp [Controller.Close, hd, hg]

theorem closeAll_closed (env : Nat → DevOutcome) :
    ∀ (cs : List Controller) (i : Nat), ∀ x ∈ (closeAll env i cs).1, x.device = false
  | [], _, x, hx => by simp [closeAll] at hx
  | c :: cs, i, x, hx => by
    simp only [closeAll, List.mem_cons] at hx
    rcases hx with rfl | hx
    · exact close_closed _ _
    · exact closeAll_closed env cs (i + 1) x hx

theorem closeAll_released (env : Nat → DevOutcome) :
    ∀ (cs : List Controller) (i : Nat), (∀ c ∈ cs, c.WellFormed) →
      ∀ x ∈ (closeAll env i cs).1, x.grabbed = false
  | [], _, _, x, hx => by simp [closeAll] at hx
  | c :: cs, i, h, x, hx => by
    simp only [closeAll, List.mem_cons] at hx
    rcases hx with rfl | hx
    · exact close_released _ _ (h c (List.mem_cons_self c cs))
    · exact closeAll_released env cs (i + 1) (fun y hy => h y (List.mem_cons_of_mem c hy)) x hx

theorem closeAll_paths (env : Nat → DevOutcome) :
    ∀ (cs : List Controller) (i : Nat),
      (closeAll env i cs).1.map Controller.devicePath = cs.map Controller.devicePath
  | [], _ => by simp [closeAll]
  | c :: cs, i => by
    simp [closeAll, close_devicePath, closeAll_paths env cs (i + 1)]

theorem open_wellFormed (o : DevOutcome) (c : Controller) (h : c.WellFormed) :
    (c.Open o).st.WellFormed := by
  unfold Controller.WellFormed at h ⊢
  unfold Controller.Open
  split
  · exact h
  · split
    · exact h
    · split
      · exact h
      · intro _; rfl

theorem open_devicePath (o : DevOutcome) (c : Controller) :
    (c.Open o).st.devicePath = c.devicePath := by
  unfold Controller.Open
  split
  · rfl
  · split
    · rfl
    · split <;> rfl

/-- The loop of `Open` when the members of `pre` open and the member `c` after them fails:
the error is the one of `c` wrapped, and the members are the result of closing all. -/
theorem openLoop_of_first_failure (env : Nat → DevOutcome) (c : Controller)
    (post : List Controller) :
    ∀ (pre done : List Controller),
      (∀ (i : Nat) (h : i < pre.length),
        ((pre.get ⟨i, h⟩).Open (env (done.length + i))).err = none) →
      ∀ err, (c.Open (env (done.length + pre.length))).err = some err →
      (openLoop env done (pre ++ c :: post)).err
          = some (errorfW "failed to open touchpad: " err) ∧
        ∃ all : List Controller,
          (openLoop env done (pre ++ c :: post)).st = (closeAll env 0 all).1 ∧
          all.map Controller.devicePath
            = (done ++ pre ++ c :: post).map Controller.devicePath ∧
          ((∀ x ∈ done ++ pre ++ c :: post, x.WellFormed) → ∀ x ∈ all, x.WellFormed)
  | [], done, _, err, hc => by
    simp only [List.length_nil, Nat.add_zero] at hc
    simp only [List.nil_append, openLoop, hc]
    refine ⟨by simp, done ++ (c.Open (env done.length)).st :: post, by simp, ?_, ?_⟩
    · simp [open_devicePath]
    · intro hwf x hx
      simp only [List.append_nil, List.mem_append, List.mem_cons] at hx hwf
      rcases hx with hx | rfl | hx
      · exact hwf x (Or.inl hx)
      · exact open_wellFormed _ _ (hwf c (Or.inr (Or.inl rfl)))
      · exact hwf x (Or.inr (Or.inr hx))
  | p :: pre, done, hpre, err, hc => by
    have hp : (p.Open (env done.length)).err = none := by
      have := hpre 0 (by simp)
      simpa using this
    have ih := openLoop_of_first_failure env c post pre (done ++ [(p.Open (env done.length)).st])
      (fun i h => by
        have := hpre (i + 1) (by simpa using h)
        simp only [List.length_append, List.length_singleton]
        rw [show done.length + 1 + i = done.length + (i + 1) by omega]
        simpa using this)
      err (by
        simp only [List.length_append, List.length_singleton]
        rw [show done.length + 1 + pre.length = done.length + (p :: pre).length by
          simp; omega]
        exact hc)
    obtain ⟨herr, all, hst, hpaths, hwf⟩ := ih
    simp only [List.cons_append, openLoop, hp]
    refine ⟨herr, all, hst, ?_, ?_⟩
    · rw [hpaths]; simp [open_devicePath]
    · intro h x hx
      refine hwf ?_ x hx
      intro y hy
      simp only [List.append_assoc, List.mem_append, List.mem_cons, List.mem_singleton,
        List.not_mem_nil, or_false] at hy
      rcases hy with hy | rfl | hy | rfl | hy
      · exact h y (by simp [hy])
      · exact open_wellFormed _ _ (h p (by simp))
      · exact h y (by simp [hy])
      · exact h y (by simp)
      · exact h y (by simp [hy])

/-- C8 (all-or-nothing open). A group whose members are `pre`, then `c`, then `post`
(so `c` is member `N = pre.length + 1` of `M = pre.length + 1 + post.length`): if every
member of `pre` opens and `c` fails to open, `MultiController.Open` returns an error, the
group has the same members (by device path) and every one of them is closed afterwards;
and none is grabbed, given that before the call no closed member was marked grabbed. -/
theorem open_all_or_nothing (env : Nat → DevOutcome) (pre post : List Controller)
    (c : Controller)
    (hpre : ∀ (i : Nat) (h : i < pre.length), ((pre.get ⟨i, h⟩).Open (env i)).err = none)
    (hc : (c.Open (env pre.length)).err ≠ none) :
    ((MultiController.Open env ⟨pre ++ c :: post⟩).err ≠ none) ∧
      ((MultiController.Open env ⟨pre ++ c :: post⟩).st.controllers.map Controller.devicePath
        = (pre ++ c :: post).map Controller.devicePath) ∧
      (∀ x ∈ (MultiController.Open env ⟨pre ++ c :: post⟩).st.controllers,
        x.device = false) ∧
      ((∀ x ∈ pre ++ c :: post, x.WellFormed) →
        ∀ x ∈ (MultiController.Open env ⟨pre ++ c :: post⟩).st.controllers,
          x.grabbed = false) := by
  obtain ⟨err, herr⟩ := Option.ne_none_iff_exists'.1 hc
  obtain ⟨he, all, hst, hpaths, hwf⟩ := openLoop_of_first_failure env c post pre []
    (fun i h => by simpa using hpre i h) err (by simpa using herr)
  simp only [MultiController.Open, he, hst]
  refine ⟨by simp, ?_, closeAll_closed env all 0, ?_⟩
  · rw [closeAll_paths, hpaths]; simp
  · intro h
    exact closeAll_released env all 0 (hwf (by simpa using h))

/-- Witness of C8 (scenario D): two touchpads, the second fails to open. -/
theorem open_all_or_nothing_witness :
    (MultiController.Open
        (fun i => if i = 1 then
          { DevOutcome.ok with openErr := some (GoError.errorString "no such device") }
          else DevOutcome.ok)
        ⟨[NewController "/dev/input/event5"] ++ NewController "/dev/input/event6" :: []⟩).err
      ≠ none ∧
    ∀ x ∈ (MultiController.Open
        (fun i => if i = 1 then
          { DevOutcome.ok with openErr := some (GoError.errorString "no such device") }
          else DevOutcome.ok)
        ⟨[NewController "/dev/input/event5"] ++ NewController "/dev/input/event6" :: []⟩
        ).st.controllers, x.device = false :=
  ⟨(open_all_or_nothing
      (fun i => if i = 1 then
        { DevOutcome.ok with openErr := some (GoError.errorString "no such device") }
        else DevOutcome.ok)
      [NewController "/dev/input/event5"] [] (NewController "/dev/input/event6")
      (by decide) (by decide)).1,
   (open_all_or_nothing
      (fun i => if i = 1 then
        { DevOutcome.ok with openErr := some (GoError.errorString "no such device") }
        else DevOutcome.ok)
      [NewController "/dev/input/event5"] [] (NewController "/dev/input/event6")
      (by decide) (by decide)).2.2.1⟩

theorem open_err_cases (o : DevOutcome) (c : Controller) (err : GoError)
    (h : (c.Open o).err = some err) :
    (∃ cause, o.openErr = some cause ∧
        err = errorfW ("failed to open touchpad device " ++ c.devicePath ++ ": ") cause) ∨
      (∃ cause, o.openErr = none ∧ o.nameErr = some cause ∧
        err = errorfW "failed to get device name: " cause) := by
  unfold Controller.Open at h
  split at h
  · simp at h
  · split at h
    · rename_i cause hcause
      simp only [Option.some.injEq] at h
      exact Or.inl ⟨cause, hcause, h.symm⟩
    · rename_i hopen
      split at h
      · rename_i cause hcause
        simp only [Option.some.injEq] at h
        exact Or.inr ⟨cause, hopen, hcause, h.symm⟩
      · simp at h

/-- C9 (as the spec has it, refuted). The error of the group's `Open` does not tell which
member failed. Two touchpads: in the first run reading the name of the first fails, in the
second run the first opens and reading the name of the second fails, with the same cause.
Both runs return the same error value, whose message names no member. -/
theorem open_error_index_counterexample :
    (Controller.Open
        { DevOutcome.ok with nameErr := some (GoError.errorString "input/output error") }
        (NewController "/dev/input/event5")).err ≠ none ∧
    (Controller.Open DevOutcome.ok (NewController "/dev/input/event5")).err = none ∧
    (Controller.Open
        { DevOutcome.ok with nameErr := some (GoError.errorString "input/output error") }
        (NewController "/dev/input/event6")).err ≠ none ∧
    (MultiController.Open
        (fun i => if i = 0 then
          { DevOutcome.ok with nameErr := some (GoError.errorString "input/output error") }
          else DevOutcome.ok)
        (NewMultiController ["/dev/input/event5", "/dev/input/event6"])).err
      = (MultiController.Open
        (fun i => if i = 1 then
          { DevOutcome.ok with nameErr := some (GoError.errorString "input/output error") }
          else DevOutcome.ok)
        (NewMultiController ["/dev/input/event5", "/dev/input/event6"])).err ∧
    ((MultiController.Open
        (fun i => if i = 1 then
          { DevOutcome.ok with nameErr := some (GoError.errorString "input/output error") }
          else DevOutcome.ok)
        (NewMultiController ["/dev/input/event5", "/dev/input/event6"])).err.map
          GoError.Error)
      = some "failed to open touchpad: failed to get device name: input/output error" := by
  refine ⟨by decide, by decide, by decide, by decide, by decide⟩

/-- C9 (amended). When the members of `pre` open and the member `c` after them fails to
open, the error of the group's `Open` is the error of `c` wrapped under the message
"failed to open touchpad: ", and the error of `c` wraps the cause: with the device path
of `c` when opening the device failed, without it when reading the device name failed. -/
theorem open_error_wraps_cause (env : Nat → DevOutcome) (pre post : List Controller)
    (c : Controller)
    (hpre : ∀ (i : Nat) (h : i < pre.length), ((pre.get ⟨i, h⟩).Open (env i)).err = none)
    (hc : (c.Open (env pre.length)).err ≠ none) :
    (∃ cause, (env pre.length).openErr = some cause ∧
        (MultiController.Open env ⟨pre ++ c :: post⟩).err
          = some (errorfW "failed to open touchpad: "
              (errorfW ("failed to open touchpad device " ++ c.devicePath ++ ": ") cause))) ∨
      (∃ cause, (env pre.length).openErr = none ∧ (env pre.length).nameErr = some cause ∧
        (MultiController.Open env ⟨pre ++ c :: post⟩).err
          = some (errorfW "failed to open touchpad: "
              (errorfW "failed to get device name: " cause))) := by
  obtain ⟨err, herr⟩ := Option.ne_none_iff_exists'.1 hc
  obtain ⟨he, _⟩ := openLoop_of_first_failure env c post pre []
    (fun i h => by simpa using hpre i h) err (by simpa using herr)
  have hm : (MultiController.Open env ⟨pre ++ c :: post⟩).err
      = some (errorfW "failed to open touchpad: " err) := by
    simp only [MultiController.Open, he]
  rcases open_err_cases _ _ _ herr with ⟨cause, h1, h2⟩ | ⟨cause, h1, h2, h3⟩
  · exact Or.inl ⟨cause, h1, by rw [hm, h2]⟩
  · exact Or.inr ⟨cause, h1, h2, by rw [hm, h3]⟩

/-- Witness of C9 (amended), scenario D: two touchpads, opening the second fails; the
message of the returned error names the device path of the second and the cause. -/
theorem open_error_wraps_cause_witness :
    ((MultiController.Open
        (fun i => if i = 1 then
          { DevOutcome.ok with openErr := some (GoError.errorString "no such device") }
          else DevOutcome.ok)
        ⟨[NewController "/dev/input/event5"] ++ NewController "/dev/input/event6" :: []⟩).err.map
          GoError.Error)
      = some ("failed to open touchpad: failed to open touchpad device /dev/input/event6: "
          ++ "no such device") := by
  rcases open_error_wraps_cause
      (fun i => if i = 1 then
        { DevOutcome.ok with openErr := some (GoError.errorString "no such device") }
        else DevOutcome.ok)
      [NewController "/dev/input/event5"] [] (NewController "/dev/input/event6")
      (by decide) (by decide) with ⟨cause, h1, h2⟩ | ⟨cause, h1, _, _⟩
  · have hcause : cause = GoError.errorString "no such device" := by
      simpa [DevOutcome.ok] using h1.symm
    rw [h2, hcause]
    decide
  · simp [DevOutcome.ok] at h1

/-! ## Fail-fast transitions of the group -/

theorem disableLoop_fail_fast (env : Nat → DevOutcome) (c : Controller)
    (post : List Controller) (err : GoError) (hc : c.device = true)
    (hg : c.grabbed = false) :
    ∀ (pre : List Controller) (i : Nat), (∀ x ∈ pre, x.device = true) →
      (∀ (j : Nat) (h : j < pre.length),
        (pre.get ⟨j, h⟩).grabbed = true ∨ (env (i + j)).grabErr = none) →
      (env (i + pre.length)).grabErr = some err →
      (disableLoop env i (pre ++ c :: post)).err
          = some (errorfW "failed to disable touchpad: "
              (errorfW "failed to grab touchpad: " err)) ∧
        (disableLoop env i (pre ++ c :: post)).st
          = pre.map (fun x => { x with grabbed := true }) ++ c :: post
  | [], i, _, _, he => by
    simp only [List.length_nil, Nat.add_zero] at he
    simp [disableLoop, Controller.Disable, hc, hg, he]
  | p :: pre, i, hopen, hpre, he => by
    have hp : p.device = true := hopen p (List.mem_cons_self p pre)
    have ih := disableLoop_fail_fast env c post err hc hg pre (i + 1)
      (fun x hx => hopen x (List.mem_cons_of_mem p hx))
      (fun j h => by
        have := hpre (j + 1) (by simpa using h)
        rw [show i + 1 + j = i + (j + 1) by omega]
        simpa using this)
      (by
        rw [show i + 1 + pre.length = i + (p :: pre).length by simp; omega]
        exact he)
    have h0 := hpre 0 (by simp)
    simp only [List.get_eq_getElem, List.getElem_cons_zero, Nat.add_zero] at h0
    cases hgp : p.grabbed
    · rw [hgp] at h0
      have h0 : (env i).grabErr = none := by simpa using h0
      simp [disableLoop, Controller.Disable, hp, hgp, h0, ih.1, ih.2]
    · simp [disableLoop, Controller.Disable, hp, hgp, ih.1, ih.2]
      cases p
      simp_all

theorem enableLoop_fail_fast (env : Nat → DevOutcome) (c : Controller)
    (post : List Controller) (err : GoError) (hc : c.device = true)
    (hg : c.grabbed = true) :
    ∀ (pre : List Controller) (i : Nat), (∀ x ∈ pre, x.device = true) →
      (∀ (j : Nat) (h : j < pre.length),
        (pre.get ⟨j, h⟩).grabbed = false ∨ (env (i + j)).ungrabErr = none) →
      (env (i + pre.length)).ungrabErr = some err →
      (enableLoop env i (pre ++ c :: post)).err
          = some (errorfW "failed to enable touchpad: "
              (errorfW "failed to ungrab touchpad: " err)) ∧
        (enableLoop env i (pre ++ c :: post)).st
          = pre.map (fun x => { x with grabbed := false }) ++ c :: post
  | [], i, _, _, he => by
    simp only [List.length_nil, Nat.add_zero] at he
    simp [enableLoop, Controller.Enable, hc, hg, he]
  | p :: pre, i, hopen, hpre, he => by
    have hp : p.device = true := hopen p (List.mem_cons_self p pre)
    have ih := enableLoop_fail_fast env c post err hc hg pre (i + 1)
      (fun x hx => hopen x (List.mem_cons_of_mem p hx))
      (fun j h => by
        have := hpre (j + 1) (by simpa using h)
        rw [show i + 1 + j = i + (j + 1) by omega]
        simpa using this)
      (by
        rw [show i + 1 + pre.length = i + (p :: pre).length by simp; omega]
        exact he)
    have h0 := hpre 0 (by simp)
    simp only [List.get_eq_getElem, List.getElem_cons_zero, Nat.add_zero] at h0
    cases hgp : p.grabbed
    · simp [enableLoop, Controller.Enable, hp, hgp, ih.1, ih.2]
      cases p
      simp_all
    · rw [hgp] at h0
      have h0 : (env i).ungrabErr = none := by simpa using h0
      simp [enableLoop, Controller.Enable, hp, hgp, h0, ih.1, ih.2]

/-- C10 (fail-fast transitions). A group of open members `pre`, then `c`, then `post`.
If `c` is the first member whose grab fails during `Disable` (every member of `pre` is
already grabbed or its grab succeeds; `c` is not grabbed and its grab fails), `Disable`
returns an error wrapping the cause, every member of `pre` is grabbed afterwards, and `c`
and the members of `post` are what they were. The same holds for `Enable` with ungrab:
the members of `pre` end not grabbed, `c` and `post` are what they were. -/
theorem group_transitions_fail_fast (env : Nat → DevOutcome) (pre post : List Controller)
    (c : Controller) (err : GoError) (hopen : ∀ x ∈ pre ++ c :: post, x.device = true) :
    ((∀ (i : Nat) (h : i < pre.length),
          (pre.get ⟨i, h⟩).grabbed = true ∨ (env i).grabErr = none) →
        c.grabbed = false → (env pre.length).grabErr = some err →
        (MultiController.Disable env ⟨pre ++ c :: post⟩).err
            = some (errorfW "failed to disable touchpad: "
                (errorfW "failed to grab touchpad: " err)) ∧
          (MultiController.Disable env ⟨pre ++ c :: post⟩).st.controllers
            = pre.map (fun x => { x with grabbed := true }) ++ c :: post) ∧
      ((∀ (i : Nat) (h : i < pre.length),
          (pre.get ⟨i, h⟩).grabbed = false ∨ (env i).ungrabErr = none) →
        c.grabbed = true → (env pre.length).ungrabErr = some err →
        (MultiController.Enable env ⟨pre ++ c :: post⟩).err
            = some (errorfW "failed to enable touchpad: "
                (errorfW "failed to ungrab touchpad: " err)) ∧
          (MultiController.Enable env ⟨pre ++ c :: post⟩).st.controllers
            = pre.map (fun x => { x with grabbed := false }) ++ c :: post) := by
  have hc : c.device = true := hopen c (by simp)
  have hp : ∀ x ∈ pre, x.device = true := fun x hx => hopen x (by simp [hx])
  constructor
  · intro hpre hg he
    have := disableLoop_fail_fast env c post err hc hg pre 0 hp
      (fun j h => by simpa using hpre j h) (by simpa using he)
    simpa [MultiController.Disable] using this
  · intro hpre hg he
    have := enableLoop_fail_fast env c post err hc hg pre 0 hp
      (fun j h => by simpa using hpre j h) (by simpa using he)
    simpa [MultiController.Enable] using this

/-- Witness of C10: three open touchpads, none grabbed; the grab of the second fails: the
first ends grabbed, the second and the third are not touched. -/
theorem group_transitions_fail_fast_witness :
    (MultiController.Disable
        (fun i => if i = 1 then
          { DevOutcome.ok with grabErr := some (GoError.errorString "device or resource busy") }
          else DevOutcome.ok)
        ⟨[⟨"/dev/input/event5", true, false⟩] ++ ⟨"/dev/input/event6", true, false⟩ ::
          [⟨"/dev/input/event7", true, false⟩]⟩).st.controllers
      = [⟨"/dev/input/event5", true, true⟩, ⟨"/dev/input/event6", true, false⟩,
         ⟨"/dev/input/event7", true, false⟩] :=
  ((group_transitions_fail_fast
      (fun i => if i = 1 then
        { DevOutcome.ok with grabErr := some (GoError.errorString "device or resource busy") }
        else DevOutcome.ok)
      [⟨"/dev/input/event5", true, false⟩] [⟨"/dev/input/event7", true, false⟩]
      ⟨"/dev/input/event6", true, false⟩ (GoError.errorString "device or resource busy")
      (by decide)).1 (by decide) rfl rfl).2

/-! ## Idempotence, the derived state and closing -/

theorem disableLoop_of_all_grabbed (env : Nat → DevOutcome) :
    ∀ (cs : List Controller) (i : Nat),
      (∀ c ∈ cs, c.device = true ∧ c.grabbed = true) →
      disableLoop env i cs = { err := none, st := cs, calls := [] }
  | [], _, _ => rfl
  | c :: cs, i, h => by
    have hc := h c (List.mem_cons_self c cs)
    have ih := disableLoop_of_all_grabbed env cs (i + 1)
      (fun x hx => h x (List.mem_cons_of_mem c hx))
    simp [disableLoop, Controller.Disable, hc.1, hc.2, ih, tag]

theorem enableLoop_of_all_shared (env : Nat → DevOutcome) :
    ∀ (cs : List Controller) (i : Nat),
      (∀ c ∈ cs, c.device = true ∧ c.grabbed = false) →
      enableLoop env i cs = { err := none, st := cs, calls := [] }
  | [], _, _ => rfl
  | c :: cs, i, h => by
    have hc := h c (List.mem_cons_self c cs)
    have ih := enableLoop_of_all_shared env cs (i + 1)
      (fun x hx => h x (List.mem_cons_of_mem c hx))
    simp [enableLoop, Controller.Enable, hc.1, hc.2, ih, tag]

/-- C11 (idempotent transitions). On a group whose members are all open and all grabbed,
`Disable` returns no error, makes no evdev call (so no grab) and returns the group as it
was; on a group whose members are all open and none grabbed, `Enable` returns no error,
makes no evdev call (so no ungrab) and returns the group as it was. This holds whatever
the evdev library would have answered. -/
theorem group_transitions_idempotent (env : Nat → DevOutcome) (m : MultiController) :
    ((∀ c ∈ m.controllers, c.device = true ∧ c.grabbed = true) →
        m.Disable env = { err := none, st := m, calls := [] }) ∧
      ((∀ c ∈ m.controllers, c.device = true ∧ c.grabbed = false) →
        m.Enable env = { err := none, st := m, calls := [] }) := by
  constructor
  · intro h
    simp [MultiController.Disable, disableLoop_of_all_grabbed env m.controllers 0 h]
  · intro h
    simp [MultiController.Enable, enableLoop_of_all_shared env m.controllers 0 h]

/-- Witness of C11: two open, grabbed touchpads; `Disable` with every grab set to fail
still succeeds and changes nothing. -/
theorem group_transitions_idempotent_witness :
    MultiController.Disable
        (fun _ => { DevOutcome.ok with grabErr := some (GoError.errorString "EBUSY") })
        ⟨[⟨"/dev/input/event5", true, true⟩, ⟨"/dev/input/event6", true, true⟩]⟩
      = { err := none,
          st := ⟨[⟨"/dev/input/event5", true, true⟩, ⟨"/dev/input/event6", true, true⟩]⟩,
          calls := [] } :=
  (group_transitions_idempotent
    (fun _ => { DevOutcome.ok with grabErr := some (GoError.errorString "EBUSY") })
    ⟨[⟨"/dev/input/event5", true, true⟩, ⟨"/dev/input/event6", true, true⟩]⟩).1 (by decide)

/-- C12. `MultiController.IsDisabled` is true exactly when the group has at least one
member and every member is grabbed; so it is false for the group without members and for
every group with a member that is not grabbed. -/
theorem isDisabled_iff (m : MultiController) :
    (m.IsDisabled = true ↔ m.controllers ≠ [] ∧ ∀ c ∈ m.controllers, c.grabbed = true) ∧
      MultiController.IsDisabled ⟨[]⟩ = false ∧
      ((∃ c ∈ m.controllers, c.grabbed = false) → m.IsDisabled = false) := by
  have hiff : m.IsDisabled = true ↔
      m.controllers ≠ [] ∧ ∀ c ∈ m.controllers, c.grabbed = true := by
    unfold MultiController.IsDisabled
    by_cases hall : allDisabled m.controllers = true
    · have hg := (allDisabled_iff _).1 hall
      simp only [hall, Bool.not_true, Bool.false_eq_true, if_false, decide_eq_true_eq]
      exact ⟨fun h => ⟨List.length_pos.1 h, hg⟩, fun h => List.length_pos.2 h.1⟩
    · have hg : ¬ ∀ c ∈ m.controllers, c.grabbed = true := fun h => hall ((allDisabled_iff _).2 h)
      simp [hall, hg]
  refine ⟨hiff, by decide, ?_⟩
  rintro ⟨c, hc, hg⟩
  cases h : m.IsDisabled
  · rfl
  · have := (hiff.1 h).2 c hc
    rw [hg] at this
    exact absurd this (by decide)

/-- Witness of C12: a mixed group, the first touchpad grabbed and the second not. -/
theorem isDisabled_iff_witness :
    MultiController.IsDisabled
        ⟨[⟨"/dev/input/event5", true, true⟩, ⟨"/dev/input/event6", true, false⟩]⟩ = false :=
  (isDisabled_iff
    ⟨[⟨"/dev/input/event5", true, true⟩, ⟨"/dev/input/event6", true, false⟩]⟩).2.2
    ⟨⟨"/dev/input/event6", true, false⟩, by decide, rfl⟩

/-- C13. On a handle that is not open, `Disable` and `Enable` both return the error
"touchpad device not open", make no evdev call (so no grab and no ungrab) and return the
handle as it was: closed, and not disabled, given that the closed handle was not marked
grabbed before. -/
theorem not_open_transitions (o : DevOutcome) (c : Controller) (h : c.device = false) :
    c.Disable o
        = { err := some (GoError.errorString "touchpad device not open"), st := c,
            calls := [] } ∧
      c.Enable o
        = { err := some (GoError.errorString "touchpad device not open"), st := c,
            calls := [] } ∧
      (c.Disable o).st.IsOpen = false ∧ (c.Enable o).st.IsOpen = false ∧
      (c.WellFormed → (c.Disable o).st.IsDisabled = false ∧
        (c.Enable o).st.IsDisabled = false) := by
  have hg : c.WellFormed → c.grabbed = false := by
    intro hwf
    cases hgr : c.grabbed
    · rfl
    · rw [hwf hgr] at h; exact absurd h (by decide)
  refine ⟨by simp [Controller.Disable, h], by simp [Controller.Enable, h],
    by simp [Controller.Disable, Controller.IsOpen, h],
    by simp [Controller.Enable, Controller.IsOpen, h], fun hwf => ?_⟩
  simp [Controller.Disable, Controller.Enable, Controller.IsDisabled, h, hg hwf]

/-- Witness of C13: the handle of the test `BasicOperations`, never opened. -/
theorem not_open_transitions_witness :
    ((NewController "/dev/input/event5").Disable DevOutcome.ok).err.map GoError.Error
        = some "touchpad device not open" ∧
      ((NewController "/dev/input/event5").Disable DevOutcome.ok).st.IsDisabled = false := by
  have h := not_open_transitions DevOutcome.ok (NewController "/dev/input/event5") rfl
  refine ⟨?_, (h.2.2.2.2 (by simp [Controller.WellFormed, NewController])).1⟩
  rw [h.1]
  rfl

/-- C14. `Controller.Close` on an open handle calls ungrab exactly when the handle is
grabbed, then closes the device, and whatever ungrab and close return the handle ends
closed and not grabbed, the returned error being the one of the device close; on a handle
that is already closed it returns no error, makes no evdev call and changes nothing. -/
theorem close_handle (o : DevOutcome) (c : Controller) :
    (c.device = true →
        (DevCall.evUngrab ∈ (c.Close o).calls ↔ c.grabbed = true) ∧
        (c.Close o).calls = (if c.grabbed then [DevCall.evUngrab] else []) ++ [DevCall.evClose] ∧
        (c.Close o).st.device = false ∧ (c.Close o).st.grabbed = false ∧
        (c.Close o).err = o.closeErr) ∧
      (c.device = false → c.Close o = { err := none, st := c, calls := [] }) := by
  constructor
  · intro h
    cases hg : c.grabbed <;> simp [Controller.Close, h, hg]
  · intro h
    simp [Controller.Close, h]

/-- Witness of C14: an open, grabbed handle whose ungrab and close both fail ends closed
and not grabbed. -/
theorem close_handle_witness :
    (Controller.Close
        { DevOutcome.ok with ungrabErr := some (GoError.errorString "EBUSY"),
                             closeErr := some (GoError.errorString "EIO") }
        ⟨"/dev/input/event5", true, true⟩).st.device = false ∧
      (Controller.Close
        { DevOutcome.ok with ungrabErr := some (GoError.errorString "EBUSY"),
                             closeErr := some (GoError.errorString "EIO") }
        ⟨"/dev/input/event5", true, true⟩).st.grabbed = false :=
  ⟨((close_handle
      { DevOutcome.ok with ungrabErr := some (GoError.errorString "EBUSY"),
                           closeErr := some (GoError.errorString "EIO") }
      ⟨"/dev/input/event5", true, true⟩).1 rfl).2.2.1,
   ((close_handle
      { DevOutcome.ok with ungrabErr := some (GoError.errorString "EBUSY"),
                           closeErr := some (GoError.errorString "EIO") }
      ⟨"/dev/input/event5", true, true⟩).1 rfl).2.2.2.1⟩

theorem closeLoop_spec (env : Nat → DevOutcome) :
    ∀ (cs : List Controller) (i : Nat) (lastErr : Option GoError),
      (closeLoop env i lastErr cs).err
          = (((cs.enumFrom i).filterMap
              (fun p => (p.2.Close (env p.1)).err)).getLast?).or lastErr ∧
        (closeLoop env i lastErr cs).st
          = (cs.enumFrom i).map (fun p => (p.2.Close (env p.1)).st)
  | [], _, lastErr => by simp [closeLoop]
  | c :: cs, i, lastErr => by
    cases he : (c.Close (env i)).err with
    | none =>
      have ih := closeLoop_spec env cs (i + 1) lastErr
      simp [closeLoop, List.enumFrom, he, ih.1, ih.2]
    | some e =>
      have ih := closeLoop_spec env cs (i + 1) (some e)
      simp only [closeLoop, List.enumFrom, he, Option.isSome_some, if_true, ih.1, ih.2,
        List.filterMap_cons, List.getLast?_cons, List.map_cons, and_true]
      cases ((cs.enumFrom (i + 1)).filterMap
        (fun p => (p.2.Close (env p.1)).err)).getLast? <;> simp

/-- C15. `MultiController.Close` applies `Close` to every member, in order and whatever
the earlier members returned, so every member is closed afterwards; the error it returns
is the last one in the list of the errors of the members whose close failed, and no error
when that list is empty. -/
theorem close_group (env : Nat → DevOutcome) (m : MultiController) :
    (m.Close env).st.controllers
        = m.controllers.enum.map (fun p => (p.2.Close (env p.1)).st) ∧
      (∀ x ∈ (m.Close env).st.controllers, x.device = false) ∧
      (m.Close env).err
        = (m.controllers.enum.filterMap (fun p => (p.2.Close (env p.1)).err)).getLast? := by
  have h := closeLoop_spec env m.controllers 0 none
  have hst : (m.Close env).st.controllers
      = m.controllers.enum.map (fun p => (p.2.Close (env p.1)).st) := by
    simp [MultiController.Close, h.2, List.enum]
  refine ⟨hst, ?_, ?_⟩
  · intro x hx
    rw [hst] at hx
    obtain ⟨p, _, rfl⟩ := List.mem_map.1 hx
    exact close_closed _ _
  · simp [MultiController.Close, h.1, List.enum]

/-! ## The event bus -/

theorem publishLoop_spec (event : SystemEvent) :
    ∀ (ids : List Nat) (chans : List Chan), ids.Nodup →
      (∀ id ∈ ids, ∃ ch, chans[id]? = some ch ∧ ch.closed = false) →
      ∃ chans', publishLoop event ids chans = some chans' ∧
        chans'.length = chans.length ∧
        ∀ (id : Nat) (ch : Chan), chans[id]? = some ch →
          chans'[id]? = some (if id ∈ ids ∧ ch.buf.length < ch.cap
            then { ch with buf := ch.buf ++ [event] } else ch)
  | [], chans, _, _ => ⟨chans, rfl, rfl, fun id ch h => by simpa using h⟩
  | id0 :: ids, chans, hnd, hreg => by
    obtain ⟨ch0, hch0, hopen⟩ := hreg id0 (List.mem_cons_self id0 ids)
    have hnot : id0 ∉ ids := (List.nodup_cons.1 hnd).1
    have hlt : id0 < chans.length := by
      by_contra hge
      rw [List.getElem?_eq_none (Nat.le_of_not_lt hge)] at hch0
      exact absurd hch0 (by simp)
    obtain ⟨ch0', hsend, hch0'⟩ : ∃ ch0', ch0.trySend event = some ch0' ∧
        ch0' = (if ch0.buf.length < ch0.cap
          then { ch0 with buf := ch0.buf ++ [event] } else ch0) := by
      by_cases hroom : ch0.buf.length < ch0.cap <;> simp [Chan.trySend, hopen, hroom]
    have hother : ∀ id, id ≠ id0 → (chans.set id0 ch0')[id]? = chans[id]? := by
      intro id hne
      rw [List.getElem?_set_ne (Ne.symm hne)]
    have hself : (chans.set id0 ch0')[id0]? = some ch0' := by
      rw [List.getElem?_set_self hlt]
    obtain ⟨chans', hrun, hlen, hspec⟩ := publishLoop_spec event ids (chans.set id0 ch0')
      (List.nodup_cons.1 hnd).2
      (fun id hid => by
        obtain ⟨ch, hch, hc⟩ := hreg id (List.mem_cons_of_mem id0 hid)
        have hne : id ≠ id0 := fun h => hnot (h ▸ hid)
        exact ⟨ch, by rw [hother id hne]; exact hch, hc⟩)
    refine ⟨chans', by simp [publishLoop, hch0, hsend, hrun], by simpa using hlen, ?_⟩
    intro id ch hch
    by_cases hid : id = id0
    · subst hid
      rw [hch0] at hch
      obtain rfl : ch0 = ch := by simpa using hch
      rw [hspec id ch0' hself, hch0']
      simp [hnot]
    · rw [hspec id ch (by rw [hother id hid]; exact hch)]
      simp [hid]

theorem registered_new : NewSystemEventBus.Registered :=
  ⟨List.nodup_nil, fun id hid => absurd hid (List.not_mem_nil id)⟩

theorem registered_subscribe (b : SystemEventBus) (h : b.Registered) :
    b.Subscribe.2.Registered := by
  have hlt : ∀ id ∈ b.subscribers, id < b.chans.length := by
    intro id hid
    obtain ⟨ch, hch, _⟩ := h.2 id hid
    by_contra hge
    rw [List.getElem?_eq_none (Nat.le_of_not_lt hge)] at hch
    exact absurd hch (by simp)
  constructor
  · simp only [SystemEventBus.Subscribe]
    rw [List.nodup_append]
    refine ⟨h.1, List.nodup_singleton _, ?_⟩
    intro id hid hid'
    rw [List.mem_singleton] at hid'
    exact absurd (hlt id hid) (by omega)
  · intro id hid
    simp only [SystemEventBus.Subscribe, List.mem_append, List.mem_singleton] at hid
    rcases hid with hid | rfl
    · obtain ⟨ch, hch, hc⟩ := h.2 id hid
      exact ⟨ch, by simp [SystemEventBus.Subscribe, List.getElem?_append_left (hlt id hid), hch],
        hc⟩
    · exact ⟨⟨[], 100, false⟩, by simp [SystemEventBus.Subscribe], rfl, rfl⟩

theorem registered_publish (event : SystemEvent) (b b' : SystemEventBus)
    (h : b.Registered) (hp : b.Publish event = some b') : b'.Registered := by
  obtain ⟨chans', hrun, _, hspec⟩ := publishLoop_spec event b.subscribers b.chans h.1
    (fun id hid => by
      obtain ⟨ch, hch, hc, _⟩ := h.2 id hid
      exact ⟨ch, hch, hc⟩)
  simp only [SystemEventBus.Publish, hrun, Option.some.injEq] at hp
  subst hp
  refine ⟨h.1, fun id hid => ?_⟩
  obtain ⟨ch, hch, hc, hcap⟩ := h.2 id hid
  refine ⟨_, hspec id ch hch, ?_, ?_⟩
  · split <;> exact hc
  · split <;> exact hcap

/-- C16 (bus isolation). On a bus whose subscribers are registered (each made by
`Subscribe`, so of capacity 100, and not closed), `Publish` of any event value does not
panic, keeps the subscribers and the channels in place, appends the event unchanged, once,
at the end of the queue of every subscriber that holds fewer than 100 pending events, and
leaves every other channel, the full queues among them, as it was. -/
theorem publish_isolation (event : SystemEvent) (b : SystemEventBus) (h : b.Registered) :
    ∃ b', b.Publish event = some b' ∧ b'.subscribers = b.subscribers ∧
      b'.chans.length = b.chans.length ∧
      ∀ (id : Nat) (ch : Chan), b.chans[id]? = some ch →
        b'.chans[id]? = some (if id ∈ b.subscribers ∧ ch.buf.length < 100
          then { ch with buf := ch.buf ++ [event] } else ch) := by
  obtain ⟨chans', hrun, hlen, hspec⟩ := publishLoop_spec event b.subscribers b.chans h.1
    (fun id hid => by
      obtain ⟨ch, hch, hc, _⟩ := h.2 id hid
      exact ⟨ch, hch, hc⟩)
  refine ⟨{ b with chans := chans' }, by simp [SystemEventBus.Publish, hrun], rfl, hlen, ?_⟩
  intro id ch hch
  rw [hspec id ch hch]
  by_cases hid : id ∈ b.subscribers
  · obtain ⟨ch', hch', _, hcap⟩ := h.2 id hid
    rw [hch] at hch'
    obtain rfl : ch = ch' := by simpa using hch'
    simp [hid, hcap]
  · simp [hid]

/-- Witness of C16: two subscribers, the first with a full queue (100 pending events) and
the second with an empty one; publishing the reserved event `MicMuteLedToggle` leaves the
first queue as it is and delivers to the second. -/
theorem publish_isolation_witness :
    ∃ b', SystemEventBus.Publish MicMuteLedToggle
        { chans := [⟨List.replicate 100 TouchpadToggle, 100, false⟩, ⟨[], 100, false⟩],
          subscribers := [0, 1] } = some b' ∧
      b'.chans[0]? = some ⟨List.replicate 100 TouchpadToggle, 100, false⟩ ∧
      b'.chans[1]? = some ⟨[MicMuteLedToggle], 100, false⟩ := by
  obtain ⟨b', hrun, _, _, hspec⟩ := publish_isolation MicMuteLedToggle
    { chans := [⟨List.replicate 100 TouchpadToggle, 100, false⟩, ⟨[], 100, false⟩],
      subscribers := [0, 1] }
    ⟨by decide, by simp⟩
  refine ⟨b', hrun, ?_, ?_⟩
  · rw [hspec 0 ⟨List.replicate 100 TouchpadToggle, 100, false⟩ rfl]
    simp
  · rw [hspec 1 ⟨[], 100, false⟩ rfl]
    simp

theorem close_subscribers_nil (b b1 : SystemEventBus) (h : b.Close = some b1) :
    b1.subscribers = [] := by
  unfold SystemEventBus.Close at h
  split at h
  · exact absurd h (by simp)
  · simp only [Option.some.injEq] at h
    rw [← h]

/-- C17 (as the spec has it, refuted). A new bus, one `Subscribe`, then `Close`, then a
second `Subscribe`: the second call returns a channel (there is no error to return) that
is not closed, and a read on it blocks instead of meeting the end of the stream. -/
theorem subscribe_after_close_counterexample :
    (NewSystemEventBus.Subscribe.2.Close).map
        (fun b => (b.Subscribe.2.chans[b.Subscribe.1]?).map
          (fun ch => (ch.closed, ch.recv.1)))
      = some (some (false, Recv.blocks)) := by
  decide

/-! ## Manual overrides -/

/-- What holds of scenario C. On an idle consumer (flag enabled, no live timer), handling
`TouchpadDisable` calls `Disable` on the group exactly once. If the call succeeds the flag
is disabled, no timer is stored and none is live, so the runtime has no timer left to fire
and the passing of time, up to any instant, fires none. If the call fails the flag stays
enabled. A callback that was started before the event is not covered by this. -/
theorem touchpadDisable_when_idle (tc : TouchpadController G E) (e : E) (env : Int → E)
    (c : TypingDetectionConsumer G) (hd : c.isDisabled = false) (hl : c.live = []) :
    (TypingDetectionConsumer.handleSystemEvent tc e TouchpadDisable c).calls
        = [GroupCall.Disable] ∧
      ((tc.Disable e c.touchpadCtrl).1 = none →
        (TypingDetectionConsumer.handleSystemEvent tc e TouchpadDisable c).st.isDisabled
            = true ∧
          (TypingDetectionConsumer.handleSystemEvent tc e TouchpadDisable c).st.timer = none ∧
          (TypingDetectionConsumer.handleSystemEvent tc e TouchpadDisable c).st.live = [] ∧
          (∀ (now : Int) (e' : E) (k : Nat),
            fireTimer tc now e' k
                (TypingDetectionConsumer.handleSystemEvent tc e TouchpadDisable c).st
              = { st := (TypingDetectionConsumer.handleSystemEvent tc e TouchpadDisable c).st,
                  calls := [] }) ∧
          ∀ t : Int,
            advance tc env t
                (TypingDetectionConsumer.handleSystemEvent tc e TouchpadDisable c).st
              = (TypingDetectionConsumer.handleSystemEvent tc e TouchpadDisable c).st) ∧
      ((tc.Disable e c.touchpadCtrl).1 ≠ none →
        (TypingDetectionConsumer.handleSystemEvent tc e TouchpadDisable c).st.isDisabled
          = false) := by
  have hev : TouchpadDisable ≠ LaptopSuspend ∧ TouchpadDisable ≠ LaptopResume := by decide
  have hlive : (TypingDetectionConsumer.handleSystemEvent tc e TouchpadDisable c).st.live
      = [] := by
    cases hr : (tc.Disable e c.touchpadCtrl).1 <;> cases ht : c.timer <;>
      simp [TypingDetectionConsumer.handleSystemEvent, hev, hd, hr, cancelTimer, ht, hl,
        stopTimer]
  refine ⟨?_, fun hr => ⟨?_, ?_, hlive, ?_, fun t => advance_of_nil tc env t _ hlive⟩,
    fun hr => ?_⟩
  · cases hr : (tc.Disable e c.touchpadCtrl).1 <;>
      simp [TypingDetectionConsumer.handleSystemEvent, hev, hd, hr]
  · simp [TypingDetectionConsumer.handleSystemEvent, hev, hd, hr, cancelTimer_isDisabled]
  · cases ht : c.timer <;>
      simp [TypingDetectionConsumer.handleSystemEvent, hev, hd, hr, cancelTimer, ht]
  · intro now e' k
    simp [fireTimer, hlive]
  · obtain ⟨err, herr⟩ := Option.ne_none_iff_exists'.1 hr
    simp [TypingDetectionConsumer.handleSystemEvent, hev, hd, herr, cancelTimer_isDisabled]

/-- C18 (the code departs from it). One opened touchpad, cooldown 300, every evdev call
succeeding. A keypress at 0 arms the timer due at 300; the timer fires at 300 and its
callback is started but has to wait; `TouchpadEnable` is handled first and leaves the
consumer idle (flag enabled, no timer stored, none live); `TouchpadDisable` is handled
next: it calls `Disable` and leaves the flag disabled, the touchpad grabbed and no timer.
Then the waiting callback runs, at 301: it calls `Enable`, the flag is enabled and the
touchpad released, with no event after the manual disable. -/
theorem manual_disable_undone_by_started_callback :
    run MultiController.asTouchpadController
        [Op.keyPress 0 (fun _ => DevOutcome.ok),
         Op.systemEvent TouchpadEnable (fun _ => DevOutcome.ok)]
        (NewTypingDetectionConsumer ⟨[⟨"/dev/input/event5", true, false⟩]⟩ 300)
      = { touchpadCtrl := ⟨[⟨"/dev/input/event5", true, false⟩]⟩, cooldown := 300,
          lastKeyPress := 0, timer := none, isDisabled := false, live := [],
          nextTimer := 1 } ∧
    TypingDetectionConsumer.handleSystemEvent MultiController.asTouchpadController
        (fun _ => DevOutcome.ok) TouchpadDisable
        { touchpadCtrl := ⟨[⟨"/dev/input/event5", true, false⟩]⟩, cooldown := 300,
          lastKeyPress := 0, timer := none, isDisabled := false, live := [],
          nextTimer := 1 }
      = { st := { touchpadCtrl := ⟨[⟨"/dev/input/event5", true, true⟩]⟩, cooldown := 300,
                  lastKeyPress := 0, timer := none, isDisabled := true, live := [],
                  nextTimer := 1 },
          calls := [GroupCall.Disable] } ∧
    TypingDetectionConsumer.onCooldownExpired MultiController.asTouchpadController 301
        (fun _ => DevOutcome.ok)
        { touchpadCtrl := ⟨[⟨"/dev/input/event5", true, true⟩]⟩, cooldown := 300,
          lastKeyPress := 0, timer := none, isDisabled := true, live := [],
          nextTimer := 1 }
      = { st := { touchpadCtrl := ⟨[⟨"/dev/input/event5", true, false⟩]⟩, cooldown := 300,
                  lastKeyPress := 0, timer := none, isDisabled := false, live := [],
                  nextTimer := 1 },
          calls := [GroupCall.Enable] } := by
  refine ⟨by decide, by decide, by decide⟩

theorem cancelTimer_timer (c : TypingDetectionConsumer G) : (cancelTimer c).timer = none := by
  unfold cancelTimer
  split
  · rfl
  · assumption

theorem cancelTimer_live_of_owned (c : TypingDetectionConsumer G)
    (h : ∀ t ∈ c.live, c.timer = some t.id) : (cancelTimer c).live = [] := by
  unfold cancelTimer
  split
  · rename_i id hid
    simp only [stopTimer, List.filter_eq_nil_iff]
    intro t ht
    have := h t ht
    rw [hid] at this
    simp only [Option.some.injEq] at this
    simp [this]
  · rename_i hnone
    cases hl : c.live with
    | nil => rfl
    | cons t ts =>
      have := h t (by rw [hl]; exact List.mem_cons_self t ts)
      rw [hnone] at this
      exact absurd this (by simp)

theorem cancelTimer_live_not_stored (c : TypingDetectionConsumer G) :
    ∀ t ∈ (cancelTimer c).live, c.timer ≠ some t.id := by
  unfold cancelTimer
  split
  · rename_i id hid
    intro t ht
    simp only [stopTimer, List.mem_filter, decide_eq_true_eq] at ht
    intro h
    rw [hid] at h
    simp only [Option.some.injEq] at h
    exact ht.2 h.symm
  · rename_i hnone
    intro t _
    rw [hnone]
    simp

/-- The state after a manual override is the receiver with its timer cancelled, up to the
group state and the flag. -/
theorem manual_override_cancels (tc : TouchpadController G E) (e : E) (event : SystemEvent)
    (c : TypingDetectionConsumer G)
    (hev : event = TouchpadDisable ∨ event = TouchpadEnable ∨ event = TouchpadToggle) :
    ∃ (g : G) (b : Bool),
      (TypingDetectionConsumer.handleSystemEvent tc e event c).st
        = cancelTimer { c with touchpadCtrl := g, isDisabled := b } := by
  have h1 : TouchpadDisable ≠ LaptopSuspend ∧ TouchpadDisable ≠ LaptopResume := by decide
  have h2 : TouchpadEnable ≠ LaptopSuspend ∧ TouchpadEnable ≠ LaptopResume ∧
      TouchpadEnable ≠ TouchpadDisable := by decide
  have h3 : TouchpadToggle ≠ LaptopSuspend ∧ TouchpadToggle ≠ LaptopResume ∧
      TouchpadToggle ≠ TouchpadDisable ∧ TouchpadToggle ≠ TouchpadEnable := by decide
  rcases hev with rfl | rfl | rfl
  · cases hd : c.isDisabled
    · cases hr : (tc.Disable e c.touchpadCtrl).1
      · exact ⟨(tc.Disable e c.touchpadCtrl).2, true, by
          simp [TypingDetectionConsumer.handleSystemEvent, h1, hd, hr]⟩
      · exact ⟨(tc.Disable e c.touchpadCtrl).2, false, by
          simp [TypingDetectionConsumer.handleSystemEvent, h1, hd, hr]⟩
    · exact ⟨c.touchpadCtrl, true, by
        simp [TypingDetectionConsumer.handleSystemEvent, h1, hd]
        rw [← hd]⟩
  · cases hd : c.isDisabled
    · exact ⟨c.touchpadCtrl, false, by
        simp [TypingDetectionConsumer.handleSystemEvent, h2, hd]
        rw [← hd]⟩
    · cases hr : (tc.Enable e c.touchpadCtrl).1
      · exact ⟨(tc.Enable e c.touchpadCtrl).2, false, by
          simp [TypingDetectionConsumer.handleSystemEvent, h2, hd, hr]⟩
      · exact ⟨(tc.Enable e c.touchpadCtrl).2, true, by
          simp [TypingDetectionConsumer.handleSystemEvent, h2, hd, hr]⟩
  · cases hd : c.isDisabled
    · cases hr : (tc.Disable e c.touchpadCtrl).1
      · exact ⟨(tc.Disable e c.touchpadCtrl).2, true, by
          simp [TypingDetectionConsumer.handleSystemEvent, h3, hd, hr]⟩
      · exact ⟨(tc.Disable e c.touchpadCtrl).2, false, by
          simp [TypingDetectionConsumer.handleSystemEvent, h3, hd, hr]⟩
    · cases hr : (tc.Enable e c.touchpadCtrl).1
      · exact ⟨(tc.Enable e c.touchpadCtrl).2, false, by
          simp [TypingDetectionConsumer.handleSystemEvent, h3, hd, hr]⟩
      · exact ⟨(tc.Enable e c.touchpadCtrl).2, true, by
          simp [TypingDetectionConsumer.handleSystemEvent, h3, hd, hr]⟩

/-- C19. Handling `TouchpadDisable`, `TouchpadEnable` or `TouchpadToggle` cancels the
timer in every state, whether the group is called or not and whatever the call returns:
afterwards no timer is stored, the timer that was stored is not live any more, and no
timer at all is live given that before the event the only live timer was the stored
one. -/
theorem manual_override_cancels_timer (tc : TouchpadController G E) (e : E)
    (event : SystemEvent) (c : TypingDetectionConsumer G)
    (hev : event = TouchpadDisable ∨ event = TouchpadEnable ∨ event = TouchpadToggle) :
    (TypingDetectionConsumer.handleSystemEvent tc e event c).st.timer = none ∧
      (∀ t ∈ (TypingDetectionConsumer.handleSystemEvent tc e event c).st.live,
        c.timer ≠ some t.id) ∧
      ((∀ t ∈ c.live, c.timer = some t.id) →
        (TypingDetectionConsumer.handleSystemEvent tc e event c).st.live = []) := by
  obtain ⟨g, b, hst⟩ := manual_override_cancels tc e event c hev
  rw [hst]
  exact ⟨cancelTimer_timer _, cancelTimer_live_not_stored { c with touchpadCtrl := g, isDisabled := b },
    fun h => cancelTimer_live_of_owned { c with touchpadCtrl := g, isDisabled := b } h⟩

/-- Witness of C19: cooldown 300, a keypress at 0, then `TouchpadEnable` whose group call
fails: the timer of the keypress is cancelled all the same. -/
theorem manual_override_cancels_timer_witness :
    (TypingDetectionConsumer.handleSystemEvent MockTouchpadController.asTouchpadController
        (some (GoError.errorString "EBUSY")) TouchpadEnable
        ({ touchpadCtrl := ⟨true⟩, cooldown := 300, lastKeyPress := 0, timer := some 0,
           isDisabled := true, live := [⟨0, 300⟩], nextTimer := 1 } :
          TypingDetectionConsumer MockTouchpadController)).st.timer = none ∧
      (TypingDetectionConsumer.handleSystemEvent MockTouchpadController.asTouchpadController
        (some (GoError.errorString "EBUSY")) TouchpadEnable
        ({ touchpadCtrl := ⟨true⟩, cooldown := 300, lastKeyPress := 0, timer := some 0,
           isDisabled := true, live := [⟨0, 300⟩], nextTimer := 1 } :
          TypingDetectionConsumer MockTouchpadController)).st.live = [] :=
  ⟨(manual_override_cancels_timer MockTouchpadController.asTouchpadController
      (some (GoError.errorString "EBUSY")) TouchpadEnable
      { touchpadCtrl := ⟨true⟩, cooldown := 300, lastKeyPress := 0, timer := some 0,
        isDisabled := true, live := [⟨0, 300⟩], nextTimer := 1 } (Or.inr (Or.inl rfl))).1,
   (manual_override_cancels_timer MockTouchpadController.asTouchpadController
      (some (GoError.errorString "EBUSY")) TouchpadEnable
      { touchpadCtrl := ⟨true⟩, cooldown := 300, lastKeyPress := 0, timer := some 0,
        isDisabled := true, live := [⟨0, 300⟩], nextTimer := 1 } (Or.inr (Or.inl rfl))).2.2
      (by decide)⟩

theorem toggle_negates (tc : TouchpadController G E) (e : E)
    (c : TypingDetectionConsumer G)
    (h : (if c.isDisabled then (tc.Enable e c.touchpadCtrl).1
      else (tc.Disable e c.touchpadCtrl).1) = none) :
    (TypingDetectionConsumer.handleSystemEvent tc e TouchpadToggle c).st.isDisabled
      = !c.isDisabled := by
  have h3 : TouchpadToggle ≠ LaptopSuspend ∧ TouchpadToggle ≠ LaptopResume ∧
      TouchpadToggle ≠ TouchpadDisable ∧ TouchpadToggle ≠ TouchpadEnable := by decide
  cases hd : c.isDisabled <;> simp only [hd, if_true, Bool.false_eq_true, if_false] at h <;>
    simp [TypingDetectionConsumer.handleSystemEvent, h3, hd, h, cancelTimer_isDisabled]

/-- C20. Handling `TouchpadToggle` is handling `TouchpadEnable` when the flag is disabled
and handling `TouchpadDisable` when it is enabled: the same group calls and the same state
afterwards. When the group call it makes succeeds the flag is negated, so two toggles
whose group calls succeed give the flag back its value. -/
theorem toggle_inverts (tc : TouchpadController G E) (e e2 : E)
    (c : TypingDetectionConsumer G) :
    (c.isDisabled = true →
        TypingDetectionConsumer.handleSystemEvent tc e TouchpadToggle c
          = TypingDetectionConsumer.handleSystemEvent tc e TouchpadEnable c) ∧
      (c.isDisabled = false →
        TypingDetectionConsumer.handleSystemEvent tc e TouchpadToggle c
          = TypingDetectionConsumer.handleSystemEvent tc e TouchpadDisable c) ∧
      ((if c.isDisabled then (tc.Enable e c.touchpadCtrl).1
          else (tc.Disable e c.touchpadCtrl).1) = none →
        (TypingDetectionConsumer.handleSystemEvent tc e TouchpadToggle c).st.isDisabled
          = !c.isDisabled) ∧
      ((if c.isDisabled then (tc.Enable e c.touchpadCtrl).1
          else (tc.Disable e c.touchpadCtrl).1) = none →
        (if (TypingDetectionConsumer.handleSystemEvent tc e TouchpadToggle c).st.isDisabled
          then (tc.Enable e2
            (TypingDetectionConsumer.handleSystemEvent tc e TouchpadToggle c).st.touchpadCtrl).1
          else (tc.Disable e2
            (TypingDetectionConsumer.handleSystemEvent tc e TouchpadToggle c).st.touchpadCtrl).1)
          = none →
        (TypingDetectionConsumer.handleSystemEvent tc e2 TouchpadToggle
            (TypingDetectionConsumer.handleSystemEvent tc e TouchpadToggle c).st).st.isDisabled
          = c.isDisabled) := by
  have h1 : TouchpadDisable ≠ LaptopSuspend ∧ TouchpadDisable ≠ LaptopResume := by decide
  have h2 : TouchpadEnable ≠ LaptopSuspend ∧ TouchpadEnable ≠ LaptopResume ∧
      TouchpadEnable ≠ TouchpadDisable := by decide
  have h3 : TouchpadToggle ≠ LaptopSuspend ∧ TouchpadToggle ≠ LaptopResume ∧
      TouchpadToggle ≠ TouchpadDisable ∧ TouchpadToggle ≠ TouchpadEnable := by decide
  refine ⟨fun hd => ?_, fun hd => ?_, toggle_negates tc e c, fun hs1 hs2 => ?_⟩
  · simp [TypingDetectionConsumer.handleSystemEvent, h2, h3, hd]
  · simp [TypingDetectionConsumer.handleSystemEvent, h1, h3, hd]
  · rw [toggle_negates tc e2 _ hs2, toggle_negates tc e c hs1, Bool.not_not]

/-- Witness of C20: two toggles of the new consumer over the mock, both group calls
succeeding: disabled after the first, enabled again after the second. -/
theorem toggle_inverts_witness :
    (TypingDetectionConsumer.handleSystemEvent MockTouchpadController.asTouchpadController
        none TouchpadToggle (NewTypingDetectionConsumer ⟨false⟩ 300)).st.isDisabled = true ∧
      (TypingDetectionConsumer.handleSystemEvent MockTouchpadController.asTouchpadController
        none TouchpadToggle
        (TypingDetectionConsumer.handleSystemEvent MockTouchpadController.asTouchpadController
          none TouchpadToggle (NewTypingDetectionConsumer ⟨false⟩ 300)).st).st.isDisabled
        = false :=
  ⟨(toggle_inverts MockTouchpadController.asTouchpadController none none
      (NewTypingDetectionConsumer ⟨false⟩ 300)).2.2.1 rfl,
   (toggle_inverts MockTouchpadController.asTouchpadController none none
      (NewTypingDetectionConsumer ⟨false⟩ 300)).2.2.2 rfl rfl⟩

/-! ## Keypress timestamp, re-arming and shutdown of the consumer -/

/-- C21 (as the spec has it, refuted). The new consumer over the mock, last keypress at
instant 0; `OnKeyPress` at instant 500 with `Disable` failing: the flag stays enabled and
no timer is armed, yet `lastKeyPress` is 500 afterwards, not 0. -/
theorem onKeyPress_timestamp_counterexample :
    (NewTypingDetectionConsumer (⟨false⟩ : MockTouchpadController) 300).isDisabled = false ∧
      (NewTypingDetectionConsumer (⟨false⟩ : MockTouchpadController) 300).lastKeyPress = 0 ∧
      (MockTouchpadController.asTouchpadController.Disable
        (some (GoError.errorString "EBUSY")) ⟨false⟩).1 ≠ none ∧
      (TypingDetectionConsumer.OnKeyPress MockTouchpadController.asTouchpadController 500
        (some (GoError.errorString "EBUSY"))
        (NewTypingDetectionConsumer ⟨false⟩ 300)).st
        = { touchpadCtrl := ⟨false⟩, cooldown := 300, lastKeyPress := 500, timer := none,
            isDisabled := false, live := [], nextTimer := 0 } := by
  decide

/-- C21 (amended). `OnKeyPress` records the keypress timestamp before it calls `Disable`
on the group: afterwards `lastKeyPress` is the instant of the call in every state, with
the flag enabled or disabled, whether `Disable` succeeds or fails. -/
theorem onKeyPress_timestamp (tc : TouchpadController G E) (now : Int) (e : E)
    (c : TypingDetectionConsumer G) :
    (TypingDetectionConsumer.OnKeyPress tc now e c).st.lastKeyPress = now := by
  cases hd : c.isDisabled
  · cases hr : (tc.Disable e c.touchpadCtrl).1 <;>
      simp [TypingDetectionConsumer.OnKeyPress, hd, hr, rearmTimer]
  · simp [TypingDetectionConsumer.OnKeyPress, hd, rearmTimer]

/-- C22. On a consumer that is already disabled, `OnKeyPress` makes no group call, leaves
the group and the flag as they are, sets `lastKeyPress` to the instant of the call, stops
the stored timer and arms a fresh one, due `cooldown` after the call and stored in
`timer`; when the stored timer was the only live one, the fresh timer is the only live
timer afterwards. -/
theorem onKeyPress_when_disabled (tc : TouchpadController G E) (now : Int) (e : E)
    (c : TypingDetectionConsumer G) (h : c.isDisabled = true) :
    (TypingDetectionConsumer.OnKeyPress tc now e c).calls = [] ∧
      (TypingDetectionConsumer.OnKeyPress tc now e c).st.touchpadCtrl = c.touchpadCtrl ∧
      (TypingDetectionConsumer.OnKeyPress tc now e c).st.isDisabled = true ∧
      (TypingDetectionConsumer.OnKeyPress tc now e c).st.lastKeyPress = now ∧
      (TypingDetectionConsumer.OnKeyPress tc now e c).st.timer = some c.nextTimer ∧
      (TypingDetectionConsumer.OnKeyPress tc now e c).st.live
        = (match c.timer with
            | some id => stopTimer id c.live
            | none => c.live) ++ [{ id := c.nextTimer, deadline := now + max c.cooldown 0 }] ∧
      ((∀ t ∈ c.live, c.timer = some t.id) →
        (TypingDetectionConsumer.OnKeyPress tc now e c).st.live
          = [{ id := c.nextTimer, deadline := now + max c.cooldown 0 }]) := by
  refine ⟨?_, ?_, ?_, ?_, ?_, ?_, fun hown => ?_⟩ <;>
    try simp [TypingDetectionConsumer.OnKeyPress, h, rearmTimer]
  have hnil := cancelTimer_live_of_owned c hown
  unfold cancelTimer at hnil
  cases ht : c.timer with
  | none => rw [ht] at hnil; simp only at hnil; simp [hnil]
  | some id => rw [ht] at hnil; simp only at hnil; simp [hnil]

/-- Witness of C22: cooldown 300, keypresses at 0 and at 100: the timer of the first
keypress, due at 300, is replaced by one due at 400. -/
theorem onKeyPress_when_disabled_witness :
    (TypingDetectionConsumer.OnKeyPress MockTouchpadController.asTouchpadController 100 none
        ({ touchpadCtrl := ⟨true⟩, cooldown := 300, lastKeyPress := 0, timer := some 0,
           isDisabled := true, live := [⟨0, 300⟩], nextTimer := 1 } :
          TypingDetectionConsumer MockTouchpadController)).st.live = [⟨1, 400⟩] :=
  (onKeyPress_when_disabled MockTouchpadController.asTouchpadController 100 none
    { touchpadCtrl := ⟨true⟩, cooldown := 300, lastKeyPress := 0, timer := some 0,
      isDisabled := true, live := [⟨0, 300⟩], nextTimer := 1 } rfl).2.2.2.2.2.2 (by decide)

theorem stop_state (tc : TouchpadController G E) (e : E) (c : TypingDetectionConsumer G) :
    ∃ g : G, (TypingDetectionConsumer.Stop tc e c).st
      = { cancelTimer c with touchpadCtrl := g, isDisabled := false } := by
  cases hd : c.isDisabled
  · refine ⟨c.touchpadCtrl, ?_⟩
    have : (cancelTimer c).isDisabled = false := by rw [cancelTimer_isDisabled, hd]
    simp only [TypingDetectionConsumer.Stop, this, Bool.false_eq_true, if_false]
    rw [← this, ← cancelTimer_touchpadCtrl c]
  · refine ⟨(tc.Enable e (cancelTimer c).touchpadCtrl).2, ?_⟩
    have : (cancelTimer c).isDisabled = true := by rw [cancelTimer_isDisabled, hd]
    simp [TypingDetectionConsumer.Stop, this]

theorem stop_of_stopped (tc : TouchpadController G E) (e : E)
    (c : TypingDetectionConsumer G) (ht : c.timer = none) (hf : c.isDisabled = false) :
    TypingDetectionConsumer.Stop tc e c = { err := none, st := c, calls := [] } := by
  have hc : cancelTimer c = c := by
    unfold cancelTimer
    rw [ht]
  simp [TypingDetectionConsumer.Stop, hc, hf]

/-- C23. `Stop` cancels the timer and can be repeated. In every state, whatever `Enable`
returns: `Stop` returns no error, afterwards no timer is stored, the timer that was stored
is not live any more (no timer at all is live, given that before the call the only live
timer was the stored one) and the flag is enabled; a second `Stop` returns no error, makes
no group call and returns the state the first one left. -/
theorem stop_idempotent (tc : TouchpadController G E) (e e2 : E)
    (c : TypingDetectionConsumer G) :
    (TypingDetectionConsumer.Stop tc e c).err = none ∧
      (TypingDetectionConsumer.Stop tc e c).st.timer = none ∧
      (∀ t ∈ (TypingDetectionConsumer.Stop tc e c).st.live, c.timer ≠ some t.id) ∧
      ((∀ t ∈ c.live, c.timer = some t.id) →
        (TypingDetectionConsumer.Stop tc e c).st.live = []) ∧
      (TypingDetectionConsumer.Stop tc e c).st.isDisabled = false ∧
      TypingDetectionConsumer.Stop tc e2 (TypingDetectionConsumer.Stop tc e c).st
        = { err := none, st := (TypingDetectionConsumer.Stop tc e c).st, calls := [] } := by
  obtain ⟨g, hst⟩ := stop_state tc e c
  have herr : (TypingDetectionConsumer.Stop tc e c).err = none := by
    cases hd : (cancelTimer c).isDisabled <;> simp [TypingDetectionConsumer.Stop, hd]
  have htimer : (TypingDetectionConsumer.Stop tc e c).st.timer = none := by
    rw [hst]; exact cancelTimer_timer c
  have hflag : (TypingDetectionConsumer.Stop tc e c).st.isDisabled = false := by
    rw [hst]
  refine ⟨herr, htimer, ?_, ?_, hflag, ?_⟩
  · rw [hst]; exact cancelTimer_live_not_stored c
  · intro hown
    rw [hst]; exact cancelTimer_live_of_owned c hown
  · exact stop_of_stopped tc e2 _ htimer hflag

/-- Witness of C23: the consumer after keypresses at 0 and 100, cooldown 300; `Stop` with
`Enable` failing leaves no timer, the flag enabled, and returns no error. -/
theorem stop_idempotent_witness :
    (TypingDetectionConsumer.Stop MockTouchpadController.asTouchpadController
        (some (GoError.errorString "EBUSY"))
        ({ touchpadCtrl := ⟨true⟩, cooldown := 300, lastKeyPress := 100, timer := some 1,
           isDisabled := true, live := [⟨1, 400⟩], nextTimer := 2 } :
          TypingDetectionConsumer MockTouchpadController)).st.live = [] :=
  (stop_idempotent MockTouchpadController.asTouchpadController
    (some (GoError.errorString "EBUSY")) none
    { touchpadCtrl := ⟨true⟩, cooldown := 300, lastKeyPress := 100, timer := some 1,
      isDisabled := true, live := [⟨1, 400⟩], nextTimer := 2 }).2.2.2.1 (by decide)

/-! ## Names of events, pipe commands and device names -/

theorem string_of_out_of_range (s : Int) (h : s < 0 ∨ 16 < s) :
    SystemEvent.String s = "Unknown" := by
  have hk : ∀ k : Int, 0 ≤ k → k ≤ 16 → ¬ (s = k) := by
    intro k h0 h1
    omega
  unfold SystemEvent.String
  rw [if_neg (hk SystemEventNone (by decide) (by decide))]
  rw [if_neg (hk LaptopSuspend (by decide) (by decide))]
  rw [if_neg (hk LaptopResume (by decide) (by decide))]
  rw [if_neg (hk MicMuteLedOn (by decide) (by decide))]
  rw [if_neg (hk MicMuteLedOff (by decide) (by decide))]
  rw [if_neg (hk MicMuteLedToggle (by decide) (by decide))]
  rw [if_neg (hk BacklightOff (by decide) (by decide))]
  rw [if_neg (hk BacklightLow (by decide) (by decide))]
  rw [if_neg (hk BacklightMedium (by decide) (by decide))]
  rw [if_neg (hk BacklightHigh (by decide) (by decide))]
  rw [if_neg (hk BacklightToggle (by decide) (by decide))]
  rw [if_neg (hk SecondaryDisplayToggle (by decide) (by decide))]
  rw [if_neg (hk USBKeyboardAttached (by decide) (by decide))]
  rw [if_neg (hk USBKeyboardDetached (by decide) (by decide))]
  rw [if_neg (hk TouchpadDisable (by decide) (by decide))]
  rw [if_neg (hk TouchpadEnable (by decide) (by decide))]
  rw [if_neg (hk TouchpadToggle (by decide) (by decide))]

theorem string_injective_in_range (a b : Int) (ha : 0 ≤ a ∧ a ≤ 16)
    (hb : 0 ≤ b ∧ b ≤ 16) (h : SystemEvent.String a = SystemEvent.String b) : a = b := by
  obtain ⟨ha0, ha1⟩ := ha
  obtain ⟨hb0, hb1⟩ := hb
  interval_cases a <;> interval_cases b <;> first | rfl | exact absurd h (by decide)

/-- C25. `SystemEvent.String` returns the name of each of the 17 defined events, from
"None" for `SystemEventNone` to "TouchpadToggle"; two defined events with the same name
are the same event; and every integer outside the defined range 0..16 gets "Unknown". -/
theorem systemEvent_string :
    [SystemEventNone, LaptopSuspend, LaptopResume, MicMuteLedOn, MicMuteLedOff,
        MicMuteLedToggle, BacklightOff, BacklightLow, BacklightMedium, BacklightHigh,
        BacklightToggle, SecondaryDisplayToggle, USBKeyboardAttached, USBKeyboardDetached,
        TouchpadDisable, TouchpadEnable, TouchpadToggle].map SystemEvent.String
      = ["None", "LaptopSuspend", "LaptopResume", "MicMuteLedOn", "MicMuteLedOff",
        "MicMuteLedToggle", "BacklightOff", "BacklightLow", "BacklightMedium",
        "BacklightHigh", "BacklightToggle", "SecondaryDisplayToggle", "USBKeyboardAttached",
        "USBKeyboardDetached", "TouchpadDisable", "TouchpadEnable", "TouchpadToggle"] ∧
      (∀ a b : SystemEvent, 0 ≤ a ∧ a ≤ 16 → 0 ≤ b ∧ b ≤ 16 →
        SystemEvent.String a = SystemEvent.String b → a = b) ∧
      (∀ s : SystemEvent, s < 0 ∨ 16 < s → SystemEvent.String s = "Unknown") :=
  ⟨by decide, string_injective_in_range, string_of_out_of_range⟩

/-- Witness of C25: the value 17, the first one after `TouchpadToggle`, and the
value -1. -/
theorem systemEvent_string_witness :
    SystemEvent.String 17 = "Unknown" ∧ SystemEvent.String (-1) = "Unknown" :=
  ⟨systemEvent_string.2.2 17 (Or.inr (by decide)),
   systemEvent_string.2.2 (-1) (Or.inl (by decide))⟩

/-- C24 (command parsing). For every line, with `cmd` the line lower-cased and then
trimmed of surrounding white space: `handleCommand` publishes `TouchpadDisable` exactly
when `cmd` is "touchpad_disable", `TouchpadEnable` exactly when it is "touchpad_enable",
`TouchpadToggle` exactly when it is "touchpad_toggle", and it publishes nothing for every
other line; it never publishes more than one event, and nothing for the empty line. -/
theorem handleCommand_parsing (lower : Char → Char) (line : String) :
    (Receiver.handleCommand lower line = [TouchpadDisable]
        ↔ TrimSpace (ToLower lower line) = "touchpad_disable") ∧
      (Receiver.handleCommand lower line = [TouchpadEnable]
        ↔ TrimSpace (ToLower lower line) = "touchpad_enable") ∧
      (Receiver.handleCommand lower line = [TouchpadToggle]
        ↔ TrimSpace (ToLower lower line) = "touchpad_toggle") ∧
      (TrimSpace (ToLower lower line) ≠ "touchpad_disable" →
        TrimSpace (ToLower lower line) ≠ "touchpad_enable" →
        TrimSpace (ToLower lower line) ≠ "touchpad_toggle" →
        Receiver.handleCommand lower line = []) ∧
      Receiver.handleCommand lower "" = [] := by
  have hne : ("touchpad_disable" : String) ≠ "" ∧ ("touchpad_enable" : String) ≠ "" ∧
      ("touchpad_toggle" : String) ≠ "" ∧
      ("touchpad_enable" : String) ≠ "touchpad_disable" ∧
      ("touchpad_toggle" : String) ≠ "touchpad_disable" ∧
      ("touchpad_toggle" : String) ≠ "touchpad_enable" := by decide
  have hev : TouchpadDisable ≠ TouchpadEnable ∧ TouchpadDisable ≠ TouchpadToggle ∧
      TouchpadEnable ≠ TouchpadToggle := by decide
  obtain ⟨h1, h2, h3, h4, h5, h6⟩ := hne
  obtain ⟨k1, k2, k3⟩ := hev
  refine ⟨?_, ?_, ?_, ?_, rfl⟩
  · constructor
    · intro h
      by_contra hn
      simp only [Receiver.handleCommand] at h
      split_ifs at h <;> simp_all
    · intro h
      simp [Receiver.handleCommand, h, h1]
  · constructor
    · intro h
      by_contra hn
      simp only [Receiver.handleCommand] at h
      split_ifs at h <;> simp_all
    · intro h
      simp [Receiver.handleCommand, h, h2, h4]
  · constructor
    · intro h
      by_contra hn
      simp only [Receiver.handleCommand] at h
      split_ifs at h <;> simp_all
    · intro h
      simp [Receiver.handleCommand, h, h3, h5, h6]
  · intro n1 n2 n3
    simp [Receiver.handleCommand, n1, n2, n3]

/-- Witness of C24: a line in mixed case with blanks and a tab around it, and a line that
is no command. -/
theorem handleCommand_parsing_witness :
    Receiver.handleCommand id "  Touchpad_DISABLE\t" = [TouchpadDisable] ∧
      Receiver.handleCommand id "touchpad" = [] :=
  ⟨(handleCommand_parsing id "  Touchpad_DISABLE\t").1.2 (by decide),
   (handleCommand_parsing id "touchpad").2.2.2.1 (by decide) (by decide) (by decide)⟩

/-- C27. `isTouchpadDevice` is true exactly when the lower-cased name contains "touchpad",
or contains "trackpad", or contains both "asus" and "touch"; it accepts "SynPS/2 Synaptics
TouchPad" and "DELL Touchpad" and rejects the empty name, "Logitech USB Mouse" and
"ASUE140A:00 04F3:3134 Keyboard". -/
theorem isTouchpadDevice_iff (lower : Char → Char) (name : String) :
    (isTouchpadDevice lower name = true ↔
        Contains (ToLower lower name) "touchpad" = true ∨
        Contains (ToLower lower name) "trackpad" = true ∨
        (Contains (ToLower lower name) "asus" = true ∧
          Contains (ToLower lower name) "touch" = true)) ∧
      isTouchpadDevice lower "SynPS/2 Synaptics TouchPad" = true ∧
      isTouchpadDevice lower "DELL Touchpad" = true ∧
      isTouchpadDevice lower "" = false ∧
      isTouchpadDevice lower "Logitech USB Mouse" = false ∧
      isTouchpadDevice lower "ASUE140A:00 04F3:3134 Keyboard" = false := by
  refine ⟨?_, rfl, rfl, rfl, rfl, rfl⟩
  simp only [isTouchpadDevice, Bool.or_eq_true, Bool.and_eq_true]
  tauto

/-! ## The order of the shutdown -/

/-- C26 (the code departs from it). The shutdown loop of `runDaemon` stops the components
in the order in which they were started, pipe receiver first and consumer last, not in the
reverse order; the bus is closed after them. So the `MultiController` is closed before the
consumer stops: with two grabbed touchpads and the consumer disabled, `Stop` of the
consumer then calls `Enable` on a group whose devices are already closed, and that call
fails with "touchpad device not open". -/
theorem shutdown_order_is_start_order :
    shutdownSteps (startedComponents true)
      = [ShutdownStep.stop Component.pipeReceiver, ShutdownStep.stop Component.touchpadCtrl,
         ShutdownStep.stop Component.keyboardMonitor,
         ShutdownStep.stop Component.typingConsumer, ShutdownStep.closeBus] ∧
    shutdownSteps (startedComponents true)
      ≠ (startedComponents true).reverse.map ShutdownStep.stop ++ [ShutdownStep.closeBus] ∧
    (shutdownTouchpads (fun _ => DevOutcome.ok) (fun _ => DevOutcome.ok)
        { touchpadCtrl :=
            ⟨[⟨"/dev/input/event5", true, true⟩, ⟨"/dev/input/event6", true, true⟩]⟩,
          cooldown := 300, lastKeyPress := 0, timer := some 0, isDisabled := true,
          live := [⟨0, 300⟩], nextTimer := 1 }).calls = [GroupCall.Enable] ∧
    ((MultiController.asTouchpadController.Enable (fun _ => DevOutcome.ok)
        (MultiController.Stop (fun _ => DevOutcome.ok)
          ⟨[⟨"/dev/input/event5", true, true⟩,
            ⟨"/dev/input/event6", true, true⟩]⟩).st).1.map GoError.Error)
      = some "failed to enable touchpad: touchpad device not open" := by
  refine ⟨by decide, by decide, by decide, by decide⟩

/-! ## Invariants of the handle and of the timers -/

theorem close_wellFormed (o : DevOutcome) (c : Controller) (h : c.WellFormed) :
    (c.Close o).st.WellFormed := by
  intro hg
  rw [close_released o c h] at hg
  exact absurd hg (by decide)

theorem disable_wellFormed (o : DevOutcome) (c : Controller) (h : c.WellFormed) :
    (c.Disable o).st.WellFormed := by
  unfold Controller.WellFormed at h ⊢
  cases hd : c.device <;> cases hg : c.grabbed <;> cases hr : o.grabErr <;>
    simp_all [Controller.Disable]

theorem enable_wellFormed (o : DevOutcome) (c : Controller) (h : c.WellFormed) :
    (c.Enable o).st.WellFormed := by
  unfold Controller.WellFormed at h ⊢
  cases hd : c.device <;> cases hg : c.grabbed <;> cases hr : o.ungrabErr <;>
    simp_all [Controller.Enable]

theorem step_wellFormed (op : CtrlOp) (c : Controller) (h : c.WellFormed) :
    (c.step op).WellFormed := by
  cases op with
  | Open o => exact open_wellFormed o c h
  | Close o => exact close_wellFormed o c h
  | Disable o => exact disable_wellFormed o c h
  | Enable o => exact enable_wellFormed o c h
  | Stop o => exact close_wellFormed o c h

/-- C28 (handle invariant). After every sequence of `Open`, `Close`, `Disable`, `Enable`
and `Stop` on a handle made by `NewController`, whatever the evdev library answers to each
open, name, grab, ungrab and close: if the handle is marked grabbed then its device is
open; so a closed handle is never grabbed. -/
theorem handle_invariant (devicePath : String) (ops : List CtrlOp) :
    ((Controller.run ops (NewController devicePath)).grabbed = true →
        (Controller.run ops (NewController devicePath)).device = true) ∧
      ((Controller.run ops (NewController devicePath)).device = false →
        (Controller.run ops (NewController devicePath)).grabbed = false) := by
  have hrun : ∀ (ops : List CtrlOp) (c : Controller), c.WellFormed →
      (Controller.run ops c).WellFormed := by
    intro ops
    induction ops with
    | nil => intro c h; exact h
    | cons op ops ih => intro c h; exact ih (c.step op) (step_wellFormed op c h)
  have hwf := hrun ops (NewController devicePath) (fun h => by simp [NewController] at h)
  refine ⟨hwf, fun hd => ?_⟩
  cases hg : (Controller.run ops (NewController devicePath)).grabbed
  · rfl
  · rw [hwf hg] at hd
    exact absurd hd (by decide)

/-- Witness of C28: open, grab, then a close whose ungrab and device close both fail. -/
theorem handle_invariant_witness :
    (Controller.run
        [CtrlOp.Open DevOutcome.ok, CtrlOp.Disable DevOutcome.ok,
         CtrlOp.Close { DevOutcome.ok with ungrabErr := some (GoError.errorString "EBUSY"),
                                           closeErr := some (GoError.errorString "EIO") }]
        (NewController "/dev/input/event5")).grabbed = false :=
  (handle_invariant "/dev/input/event5"
    [CtrlOp.Open DevOutcome.ok, CtrlOp.Disable DevOutcome.ok,
     CtrlOp.Close { DevOutcome.ok with ungrabErr := some (GoError.errorString "EBUSY"),
                                       closeErr := some (GoError.errorString "EIO") }]).2
    (by decide)

theorem rearmTimer_owned (now : Int) (c : TypingDetectionConsumer G) (h : TimerOwned c) :
    (rearmTimer now c).live = [{ id := c.nextTimer, deadline := now + max c.cooldown 0 }] ∧
      TimerOwned (rearmTimer now c) := by
  have hnil := cancelTimer_live_of_owned c h.2
  unfold cancelTimer at hnil
  have hl : (rearmTimer now c).live
      = [{ id := c.nextTimer, deadline := now + max c.cooldown 0 }] := by
    cases ht : c.timer with
    | none => rw [ht] at hnil; simp only at hnil; simp [rearmTimer, ht, hnil]
    | some id => rw [ht] at hnil; simp only at hnil; simp [rearmTimer, ht, hnil]
  refine ⟨hl, ?_, ?_⟩
  · rw [hl]; simp
  · intro t ht
    rw [hl] at ht
    simp only [List.mem_singleton] at ht
    subst ht
    rfl

theorem cancelTimer_owned (c : TypingDetectionConsumer G) (h : TimerOwned c) :
    TimerOwned (cancelTimer c) := by
  have hnil := cancelTimer_live_of_owned c h.2
  exact ⟨by rw [hnil]; simp, fun t ht => by rw [hnil] at ht; exact absurd ht (List.not_mem_nil t)⟩

theorem owned_of_same_timers (c c' : TypingDetectionConsumer G) (h : TimerOwned c)
    (ht : c'.timer = c.timer) (hl : c'.live = c.live) : TimerOwned c' := by
  unfold TimerOwned
  rw [ht, hl]
  exact h

theorem onKeyPress_owned (tc : TouchpadController G E) (now : Int) (e : E)
    (c : TypingDetectionConsumer G) (h : TimerOwned c) :
    TimerOwned (TypingDetectionConsumer.OnKeyPress tc now e c).st := by
  cases hd : c.isDisabled
  · cases hr : (tc.Disable e c.touchpadCtrl).1
    · simp only [TypingDetectionConsumer.OnKeyPress, hd, hr, Bool.not_false, if_true]
      exact (rearmTimer_owned now _ (owned_of_same_timers c _ h rfl rfl)).2
    · simp only [TypingDetectionConsumer.OnKeyPress, hd, hr, Bool.not_false, if_true]
      exact owned_of_same_timers c _ h rfl rfl
  · simp only [TypingDetectionConsumer.OnKeyPress, hd, Bool.not_true, Bool.false_eq_true,
      if_false]
    exact (rearmTimer_owned now _ (owned_of_same_timers c _ h rfl rfl)).2

theorem onCooldownExpired_owned (tc : TouchpadController G E) (now : Int) (e : E)
    (c : TypingDetectionConsumer G) (h : TimerOwned c) :
    TimerOwned (TypingDetectionConsumer.onCooldownExpired tc now e c).st := by
  by_cases hcond : (decide (now - c.lastKeyPress ≥ c.cooldown) && c.isDisabled) = true
  · cases hr : (tc.Enable e c.touchpadCtrl).1 <;>
      simp only [TypingDetectionConsumer.onCooldownExpired, hcond, hr, if_true] <;>
      exact owned_of_same_timers c _ h rfl rfl
  · simp only [TypingDetectionConsumer.onCooldownExpired, hcond, if_false]
    exact h

theorem handleSystemEvent_unhandled (tc : TouchpadController G E) (e : E)
    (event : SystemEvent) (c : TypingDetectionConsumer G) (h1 : event ≠ LaptopSuspend)
    (h2 : event ≠ TouchpadDisable) (h3 : event ≠ TouchpadEnable)
    (h4 : event ≠ TouchpadToggle) :
    TypingDetectionConsumer.handleSystemEvent tc e event c = { st := c, calls := [] } := by
  simp [TypingDetectionConsumer.handleSystemEvent, h1, h2, h3, h4]

theorem suspend_state (tc : TouchpadController G E) (e : E)
    (c : TypingDetectionConsumer G) :
    ∃ g : G, (TypingDetectionConsumer.handleSystemEvent tc e LaptopSuspend c).st
      = cancelTimer { c with touchpadCtrl := g, isDisabled := false } := by
  cases hd : c.isDisabled
  · refine ⟨c.touchpadCtrl, ?_⟩
    simp only [TypingDetectionConsumer.handleSystemEvent, hd, if_true, Bool.false_eq_true,
      if_false]
    rw [← hd]
  · exact ⟨(tc.Enable e c.touchpadCtrl).2, by
      simp [TypingDetectionConsumer.handleSystemEvent, hd]⟩

theorem handleSystemEvent_owned (tc : TouchpadController G E) (e : E) (event : SystemEvent)
    (c : TypingDetectionConsumer G) (h : TimerOwned c) :
    TimerOwned (TypingDetectionConsumer.handleSystemEvent tc e event c).st := by
  by_cases h1 : event = LaptopSuspend
  · subst h1
    obtain ⟨g, hst⟩ := suspend_state tc e c
    rw [hst]
    exact cancelTimer_owned _ (owned_of_same_timers c _ h rfl rfl)
  · by_cases hm : event = TouchpadDisable ∨ event = TouchpadEnable ∨ event = TouchpadToggle
    · obtain ⟨g, b, hst⟩ := manual_override_cancels tc e event c hm
      rw [hst]
      exact cancelTimer_owned _ (owned_of_same_timers c _ h rfl rfl)
    · rw [handleSystemEvent_unhandled tc e event c h1 (fun k => hm (Or.inl k))
        (fun k => hm (Or.inr (Or.inl k))) (fun k => hm (Or.inr (Or.inr k)))]
      exact h

theorem stop_owned (tc : TouchpadController G E) (e : E)
    (c : TypingDetectionConsumer G) (h : TimerOwned c) :
    TimerOwned (TypingDetectionConsumer.Stop tc e c).st := by
  obtain ⟨g, hst⟩ := stop_state tc e c
  rw [hst]
  exact owned_of_same_timers (cancelTimer c) _ (cancelTimer_owned c h) rfl rfl

theorem fireTimer_owned (tc : TouchpadController G E) (now : Int) (e : E) (id : Nat)
    (c : TypingDetectionConsumer G) (h : TimerOwned c) :
    TimerOwned (fireTimer tc now e id c).st := by
  unfold fireTimer
  split
  · refine onCooldownExpired_owned tc now e _ ⟨?_, ?_⟩
    · exact Nat.le_trans (List.length_filter_le _ _) h.1
    · intro t ht
      exact h.2 t (List.mem_of_mem_filter ht)
  · exact h

theorem stepTimed_owned (tc : TouchpadController G E) (op : TimedOp E)
    (c : TypingDetectionConsumer G) (h : TimerOwned c) : TimerOwned (stepTimed tc op c) := by
  cases op with
  | op o =>
    cases o with
    | keyPress now e => exact onKeyPress_owned tc now e c h
    | timerCallback now e => exact onCooldownExpired_owned tc now e c h
    | systemEvent event e => exact handleSystemEvent_owned tc e event c h
    | stop e => exact stop_owned tc e c h
  | timerFires id now e => exact fireTimer_owned tc now e id c h

theorem runOps_owned (tc : TouchpadController G E) :
    ∀ (ops : List (TimedOp E)) (c : TypingDetectionConsumer G), TimerOwned c →
      TimerOwned (runOps tc ops c)
  | [], _, h => h
  | op :: ops, c, h => runOps_owned tc ops _ (stepTimed_owned tc op c h)

theorem fresh_of_subset (c c' : TypingDetectionConsumer G) (h : TimerFresh c)
    (hl : ∀ t ∈ c'.live, t ∈ c.live) (hn : c'.nextTimer = c.nextTimer) : TimerFresh c' := by
  intro t ht
  rw [hn]
  exact h t (hl t ht)

theorem cancelTimer_fresh (c : TypingDetectionConsumer G) (h : TimerFresh c) :
    TimerFresh (cancelTimer c) := by
  unfold cancelTimer
  split
  · exact fresh_of_subset c _ h (fun t ht => List.mem_of_mem_filter ht) rfl
  · exact h

theorem rearmTimer_fresh (now : Int) (c : TypingDetectionConsumer G) (ho : TimerOwned c) :
    TimerFresh (rearmTimer now c) := by
  intro t ht
  rw [(rearmTimer_owned now c ho).1] at ht
  simp only [List.mem_singleton] at ht
  subst ht
  exact Nat.lt_succ_self _

theorem onKeyPress_fresh (tc : TouchpadController G E) (now : Int) (e : E)
    (c : TypingDetectionConsumer G) (ho : TimerOwned c) (h : TimerFresh c) :
    TimerFresh (TypingDetectionConsumer.OnKeyPress tc now e c).st := by
  cases hd : c.isDisabled
  · cases hr : (tc.Disable e c.touchpadCtrl).1
    · simp only [TypingDetectionConsumer.OnKeyPress, hd, hr, Bool.not_false, if_true]
      exact rearmTimer_fresh now _ (owned_of_same_timers c _ ho rfl rfl)
    · simp only [TypingDetectionConsumer.OnKeyPress, hd, hr, Bool.not_false, if_true]
      exact fresh_of_subset c _ h (fun t ht => ht) rfl
  · simp only [TypingDetectionConsumer.OnKeyPress, hd, Bool.not_true, Bool.false_eq_true,
      if_false]
    exact rearmTimer_fresh now _ (owned_of_same_timers c _ ho rfl rfl)

theorem onCooldownExpired_fresh (tc : TouchpadController G E) (now : Int) (e : E)
    (c : TypingDetectionConsumer G) (h : TimerFresh c) :
    TimerFresh (TypingDetectionConsumer.onCooldownExpired tc now e c).st := by
  by_cases hcond : (decide (now - c.lastKeyPress ≥ c.cooldown) && c.isDisabled) = true
  · cases hr : (tc.Enable e c.touchpadCtrl).1 <;>
      simp only [TypingDetectionConsumer.onCooldownExpired, hcond, hr, if_true] <;>
      exact fresh_of_subset c _ h (fun t ht => ht) rfl
  · simp only [TypingDetectionConsumer.onCooldownExpired, hcond, if_false]
    exact h

theorem handleSystemEvent_fresh (tc : TouchpadController G E) (e : E) (event : SystemEvent)
    (c : TypingDetectionConsumer G) (h : TimerFresh c) :
    TimerFresh (TypingDetectionConsumer.handleSystemEvent tc e event c).st := by
  by_cases h1 : event = LaptopSuspend
  · subst h1
    obtain ⟨g, hst⟩ := suspend_state tc e c
    rw [hst]
    exact cancelTimer_fresh _ (fresh_of_subset c _ h (fun t ht => ht) rfl)
  · by_cases hm : event = TouchpadDisable ∨ event = TouchpadEnable ∨ event = TouchpadToggle
    · obtain ⟨g, b, hst⟩ := manual_override_cancels tc e event c hm
      rw [hst]
      exact cancelTimer_fresh _ (fresh_of_subset c _ h (fun t ht => ht) rfl)
    · rw [handleSystemEvent_unhandled tc e event c h1 (fun k => hm (Or.inl k))
        (fun k => hm (Or.inr (Or.inl k))) (fun k => hm (Or.inr (Or.inr k)))]
      exact h

theorem stop_fresh (tc : TouchpadController G E) (e : E)
    (c : TypingDetectionConsumer G) (h : TimerFresh c) :
    TimerFresh (TypingDetectionConsumer.Stop tc e c).st := by
  obtain ⟨g, hst⟩ := stop_state tc e c
  rw [hst]
  exact fresh_of_subset (cancelTimer c) _ (cancelTimer_fresh c h) (fun t ht => ht) rfl

theorem fireTimer_fresh (tc : TouchpadController G E) (now : Int) (e : E) (id : Nat)
    (c : TypingDetectionConsumer G) (h : TimerFresh c) :
    TimerFresh (fireTimer tc now e id c).st := by
  unfold fireTimer
  split
  · exact onCooldownExpired_fresh tc now e _
      (fresh_of_subset c _ h (fun t ht => List.mem_of_mem_filter ht) rfl)
  · exact h

theorem stepTimed_discipline (tc : TouchpadController G E) (op : TimedOp E)
    (c : TypingDetectionConsumer G) (h : TimerOwned c ∧ TimerFresh c) :
    TimerOwned (stepTimed tc op c) ∧ TimerFresh (stepTimed tc op c) := by
  refine ⟨stepTimed_owned tc op c h.1, ?_⟩
  cases op with
  | op o =>
    cases o with
    | keyPress now e => exact onKeyPress_fresh tc now e c h.1 h.2
    | timerCallback now e => exact onCooldownExpired_fresh tc now e c h.2
    | systemEvent event e => exact handleSystemEvent_fresh tc e event c h.2
    | stop e => exact stop_fresh tc e c h.2
  | timerFires id now e => exact fireTimer_fresh tc now e id c h.2

theorem runOps_discipline (tc : TouchpadController G E) :
    ∀ (ops : List (TimedOp E)) (c : TypingDetectionConsumer G),
      TimerOwned c ∧ TimerFresh c →
      TimerOwned (runOps tc ops c) ∧ TimerFresh (runOps tc ops c)
  | [], _, h => h
  | op :: ops, c, h => runOps_discipline tc ops _ (stepTimed_discipline tc op c h)

/-- C29 (timer discipline). In every state reached from the new consumer by keypresses,
system events, stops, timer callbacks and firings of live timers, whatever the group
calls return: at most one timer is live, and a live timer is the one stored in `timer`.
A keypress from such a state that arms a timer (the flag is disabled, or `Disable`
succeeds) leaves exactly the fresh timer live: the timer that was live before is not live
any more. -/
theorem timer_discipline (tc : TouchpadController G E) (g : G) (cooldown : Int)
    (ops : List (TimedOp E)) (now : Int) (e : E) :
    (runOps tc ops (NewTypingDetectionConsumer g cooldown)).live.length ≤ 1 ∧
      (∀ t ∈ (runOps tc ops (NewTypingDetectionConsumer g cooldown)).live,
        (runOps tc ops (NewTypingDetectionConsumer g cooldown)).timer = some t.id) ∧
      ((runOps tc ops (NewTypingDetectionConsumer g cooldown)).isDisabled = true ∨
          (tc.Disable e
            (runOps tc ops (NewTypingDetectionConsumer g cooldown)).touchpadCtrl).1 = none →
        (TypingDetectionConsumer.OnKeyPress tc now e
            (runOps tc ops (NewTypingDetectionConsumer g cooldown))).st.live
          = [{ id := (runOps tc ops (NewTypingDetectionConsumer g cooldown)).nextTimer,
               deadline := now +
                 max (runOps tc ops (NewTypingDetectionConsumer g cooldown)).cooldown 0 }] ∧
        ∀ t ∈ (runOps tc ops (NewTypingDetectionConsumer g cooldown)).live,
          t ∉ (TypingDetectionConsumer.OnKeyPress tc now e
            (runOps tc ops (NewTypingDetectionConsumer g cooldown))).st.live) := by
  have hinit : TimerOwned (NewTypingDetectionConsumer g cooldown) ∧
      TimerFresh (NewTypingDetectionConsumer g cooldown) := by
    constructor
    · exact ⟨by simp [NewTypingDetectionConsumer], fun t ht => by
        simp [NewTypingDetectionConsumer] at ht⟩
    · intro t ht
      simp [NewTypingDetectionConsumer] at ht
  obtain ⟨ho, hf⟩ := runOps_discipline tc ops _ hinit
  generalize runOps tc ops (NewTypingDetectionConsumer g cooldown) = c at ho hf ⊢
  refine ⟨ho.1, ho.2, fun harm => ?_⟩
  have hlive : (TypingDetectionConsumer.OnKeyPress tc now e c).st.live
      = [{ id := c.nextTimer, deadline := now + max c.cooldown 0 }] := by
    cases hd : c.isDisabled
    · have hr : (tc.Disable e c.touchpadCtrl).1 = none := by
        rcases harm with h | h
        · rw [hd] at h; exact absurd h (by decide)
        · exact h
      simp only [TypingDetectionConsumer.OnKeyPress, hd, hr, Bool.not_false, if_true]
      exact (rearmTimer_owned now _ (owned_of_same_timers c _ ho rfl rfl)).1
    · simp only [TypingDetectionConsumer.OnKeyPress, hd, Bool.not_true, Bool.false_eq_true,
        if_false]
      exact (rearmTimer_owned now _ (owned_of_same_timers c _ ho rfl rfl)).1
  refine ⟨hlive, fun t ht hmem => ?_⟩
  rw [hlive, List.mem_singleton] at hmem
  have := hf t ht
  rw [hmem] at this
  exact Nat.lt_irrefl _ this

/-- Witness of C29: cooldown 300, keypresses at 0 and 100, then the keypress at 200 from
the state they leave: the timer due at 500 is the only live one. -/
theorem timer_discipline_witness :
    (TypingDetectionConsumer.OnKeyPress MockTouchpadController.asTouchpadController 200 none
        (runOps MockTouchpadController.asTouchpadController
          [TimedOp.op (Op.keyPress 0 none), TimedOp.op (Op.keyPress 100 none)]
          (NewTypingDetectionConsumer ⟨false⟩ 300))).st.live = [⟨2, 500⟩] :=
  ((timer_discipline MockTouchpadController.asTouchpadController ⟨false⟩ 300
      [TimedOp.op (Op.keyPress 0 none), TimedOp.op (Op.keyPress 100 none)] 200 none).2.2
    (Or.inl (by decide))).1

/-! ## Events the consumer does not handle -/

/-- C30. `LaptopResume`, `SystemEventNone`, the mic-mute, backlight, display and
USB-keyboard events (the values from `MicMuteLedOn` to `USBKeyboardDetached`) and every
integer outside the defined range make `handleSystemEvent` return the state it was given,
flag, timestamp, timers and group included, and make no group call. -/
theorem unhandled_events_ignored (tc : TouchpadController G E) (e : E) (event : Int)
    (c : TypingDetectionConsumer G)
    (h : event = LaptopResume ∨ event = SystemEventNone ∨
      (MicMuteLedOn ≤ event ∧ event ≤ USBKeyboardDetached) ∨ event < 0 ∨ 16 < event) :
    TypingDetectionConsumer.handleSystemEvent tc e event c = { st := c, calls := [] } := by
  have h' : event = (2 : Int) ∨ event = (0 : Int) ∨
      ((3 : Int) ≤ event ∧ event ≤ (13 : Int)) ∨ event < (0 : Int) ∨ (16 : Int) < event := h
  have h1 : event ≠ (1 : Int) := by omega
  have h2 : event ≠ (14 : Int) := by omega
  have h3 : event ≠ (15 : Int) := by omega
  have h4 : event ≠ (16 : Int) := by omega
  exact handleSystemEvent_unhandled tc e event c h1 h2 h3 h4

/-- Witness of C30: `BacklightToggle` on a disabled consumer with a live timer. -/
theorem unhandled_events_ignored_witness :
    TypingDetectionConsumer.handleSystemEvent MockTouchpadController.asTouchpadController
        none BacklightToggle
        ({ touchpadCtrl := ⟨true⟩, cooldown := 300, lastKeyPress := 0, timer := some 0,
           isDisabled := true, live := [⟨0, 300⟩], nextTimer := 1 } :
          TypingDetectionConsumer MockTouchpadController)
      = { st := { touchpadCtrl := ⟨true⟩, cooldown := 300, lastKeyPress := 0, timer := some 0,
                  isDisabled := true, live := [⟨0, 300⟩], nextTimer := 1 },
          calls := [] } :=
  unhandled_events_ignored MockTouchpadController.asTouchpadController none BacklightToggle
    { touchpadCtrl := ⟨true⟩, cooldown := 300, lastKeyPress := 0, timer := some 0,
      isDisabled := true, live := [⟨0, 300⟩], nextTimer := 1 }
    (Or.inr (Or.inr (Or.inl (by decide))))

/-! ## Debounce after a manual disable -/

/-- C31. From the state a successful `TouchpadDisable` leaves (flag disabled, no timer
stored, none live): `OnKeyPress` at instant `p` makes no group call, keeps the flag
disabled and arms a timer due `cooldown` after `p`, the only live one; when the runtime
fires that timer at its deadline, no keypress having come in between, the callback calls
`Enable` on the group exactly once, and the flag is enabled afterwards if the call
succeeds (it stays disabled if the call fails). -/
theorem keypress_after_manual_disable (tc : TouchpadController G E) (p : Int) (e e' : E)
    (c : TypingDetectionConsumer G) (hd : c.isDisabled = true) (ht : c.timer = none)
    (hl : c.live = []) :
    (TypingDetectionConsumer.OnKeyPress tc p e c).calls = [] ∧
      (TypingDetectionConsumer.OnKeyPress tc p e c).st.isDisabled = true ∧
      (TypingDetectionConsumer.OnKeyPress tc p e c).st.timer = some c.nextTimer ∧
      (TypingDetectionConsumer.OnKeyPress tc p e c).st.live
        = [{ id := c.nextTimer, deadline := p + max c.cooldown 0 }] ∧
      (fireTimer tc (p + max c.cooldown 0) e' c.nextTimer
          (TypingDetectionConsumer.OnKeyPress tc p e c).st).calls = [GroupCall.Enable] ∧
      ((tc.Enable e' c.touchpadCtrl).1 = none →
        (fireTimer tc (p + max c.cooldown 0) e' c.nextTimer
          (TypingDetectionConsumer.OnKeyPress tc p e c).st).st.isDisabled = false) ∧
      ((tc.Enable e' c.touchpadCtrl).1 ≠ none →
        (fireTimer tc (p + max c.cooldown 0) e' c.nextTimer
          (TypingDetectionConsumer.OnKeyPress tc p e c).st).st.isDisabled = true) ∧
      (fireTimer tc (p + max c.cooldown 0) e' c.nextTimer
          (TypingDetectionConsumer.OnKeyPress tc p e c).st).st.live = [] := by
  have hcd : c.cooldown ≤ p + max c.cooldown 0 - p := by omega
  cases hr : (tc.Enable e' c.touchpadCtrl).1 <;>
    simp [TypingDetectionConsumer.OnKeyPress, hd, ht, hl, rearmTimer, fireTimer, stopTimer,
      TypingDetectionConsumer.onCooldownExpired, hcd, hr]

/-- Witness of C31: the new consumer over the mock, cooldown 300; `TouchpadDisable`
succeeds, a keypress comes at 1000, and the timer it arms fires at 1300 with `Enable`
succeeding: the consumer is enabled again. -/
theorem keypress_after_manual_disable_witness :
    (TypingDetectionConsumer.handleSystemEvent MockTouchpadController.asTouchpadController
        none TouchpadDisable (NewTypingDetectionConsumer ⟨false⟩ 300)).st
      = { touchpadCtrl := ⟨true⟩, cooldown := 300, lastKeyPress := 0, timer := none,
          isDisabled := true, live := [], nextTimer := 0 } ∧
    (fireTimer MockTouchpadController.asTouchpadController (1000 + max 300 0) none 0
        (TypingDetectionConsumer.OnKeyPress MockTouchpadController.asTouchpadController 1000
          none
          ({ touchpadCtrl := ⟨true⟩, cooldown := 300, lastKeyPress := 0, timer := none,
             isDisabled := true, live := [], nextTimer := 0 } :
            TypingDetectionConsumer MockTouchpadController)).st).st.isDisabled = false :=
  ⟨by decide,
   (keypress_after_manual_disable MockTouchpadController.asTouchpadController 1000 none none
      { touchpadCtrl := ⟨true⟩, cooldown := 300, lastKeyPress := 0, timer := none,
        isDisabled := true, live := [], nextTimer := 0 } rfl rfl rfl).2.2.2.2.2.1 rfl⟩

/-! ## A pending timer only while disabled -/

theorem pending_of_no_live (c : TypingDetectionConsumer G) (h : c.live = []) :
    PendingOnlyWhileDisabled c :=
  fun hne => absurd h hne

theorem stepTimed_pending (tc : TouchpadController G E) (op : TimedOp E)
    (c : TypingDetectionConsumer G) (hop : op.admitted tc c = true) (ho : TimerOwned c)
    (h : PendingOnlyWhileDisabled c) : PendingOnlyWhileDisabled (stepTimed tc op c) := by
  cases op with
  | op o =>
    cases o with
    | keyPress now e =>
      cases hd : c.isDisabled
      · cases hr : (tc.Disable e c.touchpadCtrl).1
        · intro _
          simp [stepTimed, step, TypingDetectionConsumer.OnKeyPress, hd, hr, rearmTimer]
        · have hnil : c.live = [] := by
            by_contra hne
            rw [h hne] at hd
            exact absurd hd (by decide)
          exact pending_of_no_live _ (by
            simp [stepTimed, step, TypingDetectionConsumer.OnKeyPress, hd, hr, hnil])
      · intro _
        simp [stepTimed, step, TypingDetectionConsumer.OnKeyPress, hd, rearmTimer]
    | timerCallback now e =>
      simp only [TimedOp.admitted, Bool.or_eq_true, List.isEmpty_iff, decide_eq_true_eq,
        Option.isSome_iff_exists] at hop
      by_cases hcond : (decide (now - c.lastKeyPress ≥ c.cooldown) && c.isDisabled) = true
      · rcases hop with (hnil | hlt) | ⟨err, herr⟩
        · refine pending_of_no_live _ ?_
          cases hr : (tc.Enable e c.touchpadCtrl).1 <;>
            simp [stepTimed, step, TypingDetectionConsumer.onCooldownExpired, hcond, hr,
              hnil]
        · simp only [Bool.and_eq_true, decide_eq_true_eq] at hcond
          omega
        · simp only [Bool.and_eq_true, decide_eq_true_eq] at hcond
          have hc1 : c.cooldown ≤ now - c.lastKeyPress := hcond.1
          intro _
          simp [stepTimed, step, TypingDetectionConsumer.onCooldownExpired, hc1, hcond.2,
            herr]
      · simp only [stepTimed, step, TypingDetectionConsumer.onCooldownExpired, hcond,
          if_false, Bool.false_eq_true]
        exact h
    | systemEvent event e =>
      by_cases h1 : event = LaptopSuspend
      · subst h1
        obtain ⟨g, hst⟩ := suspend_state tc e c
        refine pending_of_no_live _ ?_
        simp only [stepTimed, step]
        rw [hst]
        exact cancelTimer_live_of_owned _ ho.2
      · by_cases hm : event = TouchpadDisable ∨ event = TouchpadEnable ∨
            event = TouchpadToggle
        · obtain ⟨g, b, hst⟩ := manual_override_cancels tc e event c hm
          refine pending_of_no_live _ ?_
          simp only [stepTimed, step]
          rw [hst]
          exact cancelTimer_live_of_owned _ ho.2
        · simp only [stepTimed, step]
          rw [handleSystemEvent_unhandled tc e event c h1 (fun k => hm (Or.inl k))
            (fun k => hm (Or.inr (Or.inl k))) (fun k => hm (Or.inr (Or.inr k)))]
          exact h
    | stop e =>
      obtain ⟨g, hst⟩ := stop_state tc e c
      refine pending_of_no_live _ ?_
      simp only [stepTimed, step]
      rw [hst]
      exact cancelTimer_live_of_owned c ho.2
  | timerFires id now e =>
    by_cases hfire : c.live.any (fun t => t.id = id) = true
    · refine pending_of_no_live _ ?_
      have hnil : stopTimer id c.live = [] := by
        simp only [stopTimer, List.filter_eq_nil_iff]
        intro t ht
        obtain ⟨t', ht', hid⟩ := List.any_eq_true.1 hfire
        have h1 := ho.2 t ht
        have h2 := ho.2 t' ht'
        rw [h1] at h2
        simp only [Option.some.injEq] at h2
        simp only [decide_eq_true_eq] at hid
        simp [h2, hid]
      cases hr : (tc.Enable e c.touchpadCtrl).1 <;>
        by_cases hcond :
          (decide (now - c.lastKeyPress ≥ c.cooldown) && c.isDisabled) = true <;>
        simp only [stepTimed, fireTimer, hfire, if_true,
          TypingDetectionConsumer.onCooldownExpired, hcond, hr, hnil, if_false,
          Bool.false_eq_true]
    · simp only [stepTimed, fireTimer, hfire, if_false, Bool.false_eq_true]
      exact h

theorem runOps_pending (tc : TouchpadController G E) :
    ∀ (ops : List (TimedOp E)) (c : TypingDetectionConsumer G),
      runAdmitted tc ops c = true → TimerOwned c → PendingOnlyWhileDisabled c →
      PendingOnlyWhileDisabled (runOps tc ops c)
  | [], _, _, _, h => h
  | op :: ops, c, hops, ho, h => by
    simp only [runAdmitted, Bool.and_eq_true] at hops
    exact runOps_pending tc ops _ hops.2 (stepTimed_owned tc op c ho)
      (stepTimed_pending tc op c hops.1 ho h)

/-- C32 (as the spec has it, refuted). Cooldown 300 over the mock; a keypress at 0, a
keypress at 300, then a timer callback at 600 whose `Enable` succeeds, running before the
timer of the second keypress (due at 600) has fired: that timer is still live and the flag
is enabled. -/
theorem pending_timer_only_while_disabled_counterexample :
    (runOps MockTouchpadController.asTouchpadController
        [TimedOp.op (Op.keyPress 0 none), TimedOp.op (Op.keyPress 300 none),
         TimedOp.op (Op.timerCallback 600 none)]
        (NewTypingDetectionConsumer ⟨false⟩ 300)).live = [⟨1, 600⟩] ∧
      (runOps MockTouchpadController.asTouchpadController
        [TimedOp.op (Op.keyPress 0 none), TimedOp.op (Op.keyPress 300 none),
         TimedOp.op (Op.timerCallback 600 none)]
        (NewTypingDetectionConsumer ⟨false⟩ 300)).isDisabled = false := by
  constructor <;> decide

/-- C32 (amended). In every state reached from the new consumer by keypresses, system
events, stops, firings of live timers (each firing takes the timer out of the live ones
and runs its callback) and timer callbacks that run late, whatever the group calls return,
provided no late callback runs `cooldown` or more after the last keypress while a timer is
live and with its `Enable` succeeding: if a timer is live then the flag is disabled. The
converse fails: after a successful `TouchpadDisable` on the new consumer the flag is
disabled and no timer is live. -/
theorem pending_timer_only_while_disabled (tc : TouchpadController G E) (g : G)
    (cooldown : Int) (ops : List (TimedOp E))
    (hops : runAdmitted tc ops (NewTypingDetectionConsumer g cooldown) = true) :
    ((runOps tc ops (NewTypingDetectionConsumer g cooldown)).live ≠ [] →
        (runOps tc ops (NewTypingDetectionConsumer g cooldown)).isDisabled = true) ∧
      ((runOps MockTouchpadController.asTouchpadController
          [TimedOp.op (Op.systemEvent TouchpadDisable none)]
          (NewTypingDetectionConsumer ⟨false⟩ 300)).isDisabled = true ∧
        (runOps MockTouchpadController.asTouchpadController
          [TimedOp.op (Op.systemEvent TouchpadDisable none)]
          (NewTypingDetectionConsumer ⟨false⟩ 300)).live = []) := by
  refine ⟨?_, by decide, by decide⟩
  exact runOps_pending tc ops _ hops
    ⟨by simp [NewTypingDetectionConsumer], fun t ht => by
      simp [NewTypingDetectionConsumer] at ht⟩
    (pending_of_no_live _ rfl)

/-- Witness of C32 (amended): cooldown 300, keypresses at 0 and 100, a late callback at
300 (200 after the last keypress, so it changes nothing), a late callback at 450 whose
`Enable` fails: a timer is live and the flag is disabled. -/
theorem pending_timer_only_while_disabled_witness :
    (runOps MockTouchpadController.asTouchpadController
        [TimedOp.op (Op.keyPress 0 none), TimedOp.op (Op.keyPress 100 none),
         TimedOp.op (Op.timerCallback 300 none),
         TimedOp.op (Op.timerCallback 450 (some (GoError.errorString "EBUSY")))]
        (NewTypingDetectionConsumer ⟨false⟩ 300)).live ≠ [] ∧
      (runOps MockTouchpadController.asTouchpadController
        [TimedOp.op (Op.keyPress 0 none), TimedOp.op (Op.keyPress 100 none),
         TimedOp.op (Op.timerCallback 300 none),
         TimedOp.op (Op.timerCallback 450 (some (GoError.errorString "EBUSY")))]
        (NewTypingDetectionConsumer ⟨false⟩ 300)).isDisabled = true :=
  ⟨by decide,
   (pending_timer_only_while_disabled MockTouchpadController.asTouchpadController ⟨false⟩ 300
      [TimedOp.op (Op.keyPress 0 none), TimedOp.op (Op.keyPress 100 none),
       TimedOp.op (Op.timerCallback 300 none),
       TimedOp.op (Op.timerCallback 450 (some (GoError.errorString "EBUSY")))]
      (by decide)).1 (by decide)⟩

/-! ## The bus after `Close` -/

theorem closeSubscribers_spec :
    ∀ (ids : List Nat) (chans : List Chan), ids.Nodup →
      (∀ id ∈ ids, ∃ ch, chans[id]? = some ch ∧ ch.closed = false) →
      ∃ chans', closeSubscribers ids chans = some chans' ∧
        chans'.length = chans.length ∧
        ∀ (id : Nat) (ch : Chan), chans[id]? = some ch →
          chans'[id]? = some (if id ∈ ids then { ch with closed := true } else ch)
  | [], chans, _, _ => ⟨chans, rfl, rfl, fun id ch h => by simpa using h⟩
  | id0 :: ids, chans, hnd, hreg => by
    obtain ⟨ch0, hch0, hopen⟩ := hreg id0 (List.mem_cons_self id0 ids)
    have hnot : id0 ∉ ids := (List.nodup_cons.1 hnd).1
    have hlt : id0 < chans.length := by
      by_contra hge
      rw [List.getElem?_eq_none (Nat.le_of_not_lt hge)] at hch0
      exact absurd hch0 (by simp)
    have hclose : ch0.close = some { ch0 with closed := true } := by
      simp [Chan.close, hopen]
    have hother : ∀ id, id ≠ id0 →
        (chans.set id0 { ch0 with closed := true })[id]? = chans[id]? := by
      intro id hne
      rw [List.getElem?_set_ne (Ne.symm hne)]
    have hself : (chans.set id0 { ch0 with closed := true })[id0]?
        = some { ch0 with closed := true } := by
      rw [List.getElem?_set_self hlt]
    obtain ⟨chans', hrun, hlen, hspec⟩ := closeSubscribers_spec ids
      (chans.set id0 { ch0 with closed := true }) (List.nodup_cons.1 hnd).2
      (fun id hid => by
        obtain ⟨ch, hch, hc⟩ := hreg id (List.mem_cons_of_mem id0 hid)
        have hne : id ≠ id0 := fun h => hnot (h ▸ hid)
        exact ⟨ch, by rw [hother id hne]; exact hch, hc⟩)
    refine ⟨chans', by simp [closeSubscribers, hch0, hclose, hrun], by simpa using hlen, ?_⟩
    intro id ch hch
    by_cases hid : id = id0
    · subst hid
      rw [hch0] at hch
      obtain rfl : ch0 = ch := by simpa using hch
      rw [hspec id _ hself]
      simp [hnot]
    · rw [hspec id ch (by rw [hother id hid]; exact hch)]
      simp [hid]

/-- C33 (the bus after shutdown). On a bus whose subscribers are registered, `Close` does
not panic; it marks the channel of every subscriber closed, leaves the pending events and
every other channel as they were, and empties the subscriber list. After it, `Publish` of
any event does not panic and changes nothing, so it sends to no closed channel; and a
second `Close` does not panic and changes nothing, so it closes no channel twice. -/
theorem bus_after_close (event : SystemEvent) (b : SystemEventBus) (h : b.Registered) :
    ∃ b1, b.Close = some b1 ∧ b1.subscribers = [] ∧
      b1.chans.length = b.chans.length ∧
      (∀ (id : Nat) (ch : Chan), b.chans[id]? = some ch →
        b1.chans[id]? = some (if id ∈ b.subscribers then { ch with closed := true } else ch)) ∧
      b1.Publish event = some b1 ∧
      b1.Close = some b1 := by
  obtain ⟨chans', hrun, hlen, hspec⟩ := closeSubscribers_spec b.subscribers b.chans h.1
    (fun id hid => by
      obtain ⟨ch, hch, hc, _⟩ := h.2 id hid
      exact ⟨ch, hch, hc⟩)
  refine ⟨{ chans := chans', subscribers := [] }, by simp [SystemEventBus.Close, hrun], rfl,
    hlen, hspec, ?_, ?_⟩
  · simp [SystemEventBus.Publish, publishLoop]
  · simp [SystemEventBus.Close, closeSubscribers]

/-- Witness of C33: two subscribers, the first with one pending event; after `Close` both
channels are closed, the pending event is still there, and `Publish` and a second `Close`
return the bus as it is. -/
theorem bus_after_close_witness :
    ∃ b1, SystemEventBus.Close
        { chans := [⟨[LaptopSuspend], 100, false⟩, ⟨[], 100, false⟩],
          subscribers := [0, 1] } = some b1 ∧
      b1.chans[0]? = some ⟨[LaptopSuspend], 100, true⟩ ∧
      b1.chans[1]? = some ⟨[], 100, true⟩ ∧
      b1.Publish TouchpadToggle = some b1 ∧ b1.Close = some b1 := by
  obtain ⟨b1, hclose, _, _, hspec, hpub, hagain⟩ := bus_after_close TouchpadToggle
    { chans := [⟨[LaptopSuspend], 100, false⟩, ⟨[], 100, false⟩], subscribers := [0, 1] }
    ⟨by decide, by simp⟩
  refine ⟨b1, hclose, ?_, ?_, hpub, hagain⟩
  · rw [hspec 0 ⟨[LaptopSuspend], 100, false⟩ rfl]
    simp
  · rw [hspec 1 ⟨[], 100, false⟩ rfl]
    simp

/-! ## Subscribing after `Close` -/

theorem registered_close (b : SystemEventBus) (h : b.Registered) :
    ∃ b1, b.Close = some b1 ∧ b1.Registered := by
  obtain ⟨chans', hrun, _, _⟩ := closeSubscribers_spec b.subscribers b.chans h.1
    (fun id hid => by
      obtain ⟨ch, hch, hc, _⟩ := h.2 id hid
      exact ⟨ch, hch, hc⟩)
  exact ⟨{ chans := chans', subscribers := [] }, by simp [SystemEventBus.Close, hrun],
    List.nodup_nil, fun id hid => absurd hid (List.not_mem_nil id)⟩

theorem recv_keeps (ch : Chan) :
    ch.recv.2.closed = ch.closed ∧ ch.recv.2.cap = ch.cap := by
  unfold Chan.recv
  split
  · exact ⟨rfl, rfl⟩
  · split <;> exact ⟨rfl, rfl⟩

theorem registered_receive (id : Nat) (b b' : SystemEventBus) (h : b.Registered)
    (hs : b.step (BusOp.receive id) = some b') : b'.Registered := by
  simp only [SystemEventBus.step] at hs
  cases hch : b.chans[id]? with
  | none =>
    rw [hch] at hs
    simp only [Option.some.injEq] at hs
    rw [← hs]
    exact h
  | some ch =>
    rw [hch] at hs
    simp only [Option.some.injEq] at hs
    rw [← hs]
    have hlt : id < b.chans.length := by
      by_contra hge
      rw [List.getElem?_eq_none (Nat.le_of_not_lt hge)] at hch
      exact absurd hch (by simp)
    refine ⟨h.1, fun id' hid' => ?_⟩
    obtain ⟨ch', hch', hc, hcap⟩ := h.2 id' hid'
    by_cases heq : id' = id
    · subst heq
      rw [hch] at hch'
      obtain rfl : ch = ch' := by simpa using hch'
      refine ⟨ch.recv.2, ?_, ?_, ?_⟩
      · simp only [List.getElem?_set_self hlt]
      · rw [(recv_keeps ch).1]; exact hc
      · rw [(recv_keeps ch).2]; exact hcap
    · refine ⟨ch', ?_, hc, hcap⟩
      simp only [List.getElem?_set_ne (Ne.symm heq)]
      exact hch'

theorem run_registered :
    ∀ (ops : List BusOp) (b : SystemEventBus), b.Registered →
      ∃ b2, SystemEventBus.run ops b = some b2 ∧ b2.Registered
  | [], b, h => ⟨b, rfl, h⟩
  | op :: ops, b, h => by
    have hstep : ∃ b', b.step op = some b' ∧ b'.Registered := by
      cases op with
      | subscribe => exact ⟨b.Subscribe.2, rfl, registered_subscribe b h⟩
      | publish event =>
        obtain ⟨chans', hrun, _, _⟩ := publishLoop_spec event b.subscribers b.chans h.1
          (fun id hid => by
            obtain ⟨ch, hch, hc, _⟩ := h.2 id hid
            exact ⟨ch, hch, hc⟩)
        have hp : b.Publish event = some { b with chans := chans' } := by
          simp [SystemEventBus.Publish, hrun]
        exact ⟨_, hp, registered_publish event b _ h hp⟩
      | close => exact registered_close b h
      | receive id =>
        cases hch : b.chans[id]? with
        | none =>
          have hs : b.step (BusOp.receive id) = some b := by
            simp [SystemEventBus.step, hch]
          exact ⟨b, hs, h⟩
        | some ch =>
          have hs : b.step (BusOp.receive id)
              = some { b with chans := b.chans.set id ch.recv.2 } := by
            simp [SystemEventBus.step, hch]
          exact ⟨_, hs, registered_receive id b _ h hs⟩
    obtain ⟨b', hs, hr⟩ := hstep
    obtain ⟨b2, hrun, hr2⟩ := run_registered ops b' hr
    exact ⟨b2, by simp [SystemEventBus.run, hs, hrun], hr2⟩

/-- C17 (amended). After `Close` returned, and after any further calls on the bus
(`Subscribe`, `Publish`, `Close` again, receives of subscribers), none of which panics:
every `Subscribe` returns a fresh channel that is empty, of capacity 100 and not closed, so
that a read on it blocks; the channel is a subscriber of the bus, and a `Publish` that
follows delivers its event to it. -/
theorem subscribe_after_close (b b1 : SystemEventBus) (ops : List BusOp)
    (event : SystemEvent) (h : b.Close = some b1) :
    ∃ b2, SystemEventBus.run ops b1 = some b2 ∧
      b2.Subscribe.2.chans[b2.Subscribe.1]? = some ⟨[], 100, false⟩ ∧
      (Chan.recv ⟨[], 100, false⟩).1 = Recv.blocks ∧
      b2.Subscribe.1 ∈ b2.Subscribe.2.subscribers ∧
      ∃ b3, b2.Subscribe.2.Publish event = some b3 ∧
        b3.chans[b2.Subscribe.1]? = some ⟨[event], 100, false⟩ := by
  have hs := close_subscribers_nil b b1 h
  have hreg1 : b1.Registered :=
    ⟨by rw [hs]; exact List.nodup_nil, fun id hid => by
      rw [hs] at hid; exact absurd hid (List.not_mem_nil id)⟩
  obtain ⟨b2, hrun, hreg2⟩ := run_registered ops b1 hreg1
  have hget : b2.Subscribe.2.chans[b2.Subscribe.1]? = some ⟨[], 100, false⟩ := by
    simp [SystemEventBus.Subscribe]
  have hmem : b2.Subscribe.1 ∈ b2.Subscribe.2.subscribers := by
    simp [SystemEventBus.Subscribe]
  have hreg3 := registered_subscribe b2 hreg2
  obtain ⟨chans', hpub, _, hspec⟩ := publishLoop_spec event b2.Subscribe.2.subscribers
    b2.Subscribe.2.chans hreg3.1
    (fun id hid => by
      obtain ⟨ch, hch, hc, _⟩ := hreg3.2 id hid
      exact ⟨ch, hch, hc⟩)
  refine ⟨b2, hrun, hget, rfl, hmem, { b2.Subscribe.2 with chans := chans' },
    by simp [SystemEventBus.Publish, hpub], ?_⟩
  have := hspec b2.Subscribe.1 ⟨[], 100, false⟩ hget
  simpa [hmem] using this

/-- Witness of C17 (amended): a bus with one subscriber is closed; then a `Subscribe`, a
`Publish`, a receive on the new channel, a second `Close` and a `Publish`; the `Subscribe`
after all that still returns an open, empty channel. -/
theorem subscribe_after_close_witness :
    ∃ b2, SystemEventBus.run
        [BusOp.subscribe, BusOp.publish TouchpadToggle, BusOp.receive 1, BusOp.close,
         BusOp.publish LaptopResume]
        { chans := [⟨[], 100, true⟩], subscribers := [] } = some b2 ∧
      b2.Subscribe.2.chans[b2.Subscribe.1]? = some ⟨[], 100, false⟩ := by
  obtain ⟨b2, hrun, hget, _⟩ := subscribe_after_close NewSystemEventBus.Subscribe.2
    { chans := [⟨[], 100, true⟩], subscribers := [] }
    [BusOp.subscribe, BusOp.publish TouchpadToggle, BusOp.receive 1, BusOp.close,
     BusOp.publish LaptopResume] TouchpadEnable (by decide)
  exact ⟨b2, hrun, hget⟩

end PalmReject
